import Mathlib

/-!
# Seat-reservation allocation: a shallow embedding

The tables of `src/src/models` become lists of rows, the awaited store
operations of `src/src/services/reservation.service.js` become pure functions
on a `Store`, and a thrown `Error` becomes the `error` side of `Except`.
A transaction is a working copy of the store: commit keeps it, rollback
returns the store the call started from.
-/

namespace RegSystemMovies

/-! ## Data model (`src/src/models`) -/

/-- Values of the `status` ENUM of `reservation.model.js`. -/
inductive ReservationStatus where
  | pending
  | confirmed
  | cancelled
  deriving DecidableEq, Repr

/-- Values of the `type` ENUM of `seat.model.js`. -/
inductive SeatType where
  | standard
  | premium
  | recliner
  deriving DecidableEq, Repr

/-- Row of table `seats`. -/
structure Seat where
  id : Nat
  theaterId : Nat
  row : String
  number : Nat
  type : SeatType
  deriving DecidableEq, Repr

/-- Row of table `showtimes`; times are milliseconds since the epoch. -/
structure Showtime where
  id : Nat
  movieId : Nat
  theaterId : Nat
  startTime : Int
  endTime : Int
  deriving DecidableEq, Repr

/-- Row of table `reservations`; `totalPrice` is an exact amount. -/
structure Reservation where
  id : Nat
  userId : Nat
  showtimeId : Nat
  reservedAt : Int
  totalPrice : Nat
  status : ReservationStatus
  deriving DecidableEq, Repr

/-- Row of table `reserved_seats` (the seat claim of the specification). -/
structure ReservedSeat where
  id : Nat
  reservationId : Nat
  seatId : Nat
  deriving DecidableEq, Repr

/-- The durable store: the four tables the allocator touches, in row order,
and the auto-increment counters of the two tables it inserts into. -/
structure Store where
  seats : List Seat
  showtimes : List Showtime
  reservations : List Reservation
  reservedSeats : List ReservedSeat
  nextReservationId : Nat
  nextReservedSeatId : Nat
  deriving DecidableEq, Repr

/-! ## Environment of a call -/

/-- The awaited store operations of `createReservation` that may reject, in
source order (lines 18, 22, 29, 46, 74, 86 and 92). The commit of line 89 is
not among them: it is taken to succeed once the inserts have. -/
inductive StoreOp where
  | beginTransaction
  | findShowtime
  | findSeats
  | findReservedSeats
  | insertReservation
  | insertReservedSeats
  | reloadReservation
  deriving DecidableEq, Repr

/-- A rejected store operation: which one, and the message of the error the
store driver throws. -/
structure Fault where
  op : StoreOp
  message : String
  deriving DecidableEq, Repr

/-- What a call takes from outside its arguments: the clock behind
`DataTypes.NOW`, and the store operation that rejects, if one does. -/
structure Env where
  now : Int
  fault : Option Fault
  deriving DecidableEq, Repr

/-- The message thrown by store operation `op`, or `none` when it answers. -/
def Env.failure (env : Env) (op : StoreOp) : Option String :=
  match env.fault with
  | some f => if f.op = op then some f.message else none
  | none => none

/-! ## Errors thrown by `createReservation` -/

/-- The errors `createReservation` throws: its four `new Error(...)` sites and
an error of the store driver passing through the `catch` block. -/
inductive ReservationError where
  | noSeatSelected
  | showtimeNotFound
  | invalidSeats
  | alreadyReserved (reservedSeatIds : List Nat)
  | storeFailure (message : String)
  deriving DecidableEq, Repr

/-- The `message` property of the thrown error (lines 15, 24, 41 and 66). -/
def ReservationError.message : ReservationError → String
  | .noSeatSelected => "At least one seat must be selected."
  | .showtimeNotFound => "Showtime not found."
  | .invalidSeats => "One or more selected seats are invalid for this theater."
  | .alreadyReserved ids =>
      "Seats with IDs [" ++ ", ".intercalate (ids.map toString) ++
        "] are already reserved for this showtime."
  | .storeFailure m => m

/-! ## Store queries -/

/-- Query `Showtime.findByPk(showtimeId)`. -/
def findShowtimeByPk (s : Store) (showtimeId : Nat) : Option Showtime :=
  s.showtimes.find? (fun st => st.id == showtimeId)

/-- Query `Seat.findAll` of lines 29-38: the seats whose id is among `seatIds`
and whose theater is `theaterId`. -/
def findSeats (s : Store) (seatIds : List Nat) (theaterId : Nat) : List Seat :=
  s.seats.filter (fun seat => decide (seat.id ∈ seatIds) && seat.theaterId == theaterId)

/-- The join condition of lines 52-59: some Reservation row has the id the
claim references, the given showtime, and a status other than cancelled. -/
def isActiveFor (s : Store) (showtimeId : Nat) (rs : ReservedSeat) : Bool :=
  s.reservations.any (fun r =>
    r.id == rs.reservationId && r.showtimeId == showtimeId &&
      r.status != ReservationStatus.cancelled)

/-- Query `ReservedSeat.findAll` of lines 46-62. -/
def findActiveReservedSeats (s : Store) (seatIds : List Nat) (showtimeId : Nat) :
    List ReservedSeat :=
  s.reservedSeats.filter (fun rs => decide (rs.seatId ∈ seatIds) && isActiveFor s showtimeId rs)

/-- The flat per-seat price of line 70. -/
def pricePerSeat : Nat := 10

/-- Insert of `Reservation.create` (lines 74-79): the row it adds. -/
def newReservation (s : Store) (env : Env) (userId showtimeId totalPrice : Nat) : Reservation :=
  { id := s.nextReservationId, userId := userId, showtimeId := showtimeId,
    reservedAt := env.now, totalPrice := totalPrice, status := ReservationStatus.confirmed }

/-- Rows of `ReservedSeat.bulkCreate` (lines 82-86): one per requested id, in
request order, with consecutive fresh ids. -/
def newReservedSeats (firstId reservationId : Nat) : List Nat → List ReservedSeat
  | [] => []
  | seatId :: rest =>
      { id := firstId, reservationId := reservationId, seatId := seatId } ::
        newReservedSeats (firstId + 1) reservationId rest

/-- The store after both inserts. -/
def insertAll (s : Store) (reservation : Reservation) (seatIds : List Nat) : Store :=
  { s with
    reservations := s.reservations ++ [reservation]
    reservedSeats := s.reservedSeats ++ newReservedSeats s.nextReservedSeatId reservation.id seatIds
    nextReservationId := s.nextReservationId + 1
    nextReservedSeatId := s.nextReservedSeatId + seatIds.length }

/-- A Reservation as the service returns it: the row with its ReservedSeat
rows eagerly loaded (the user, seat and showtime includes are left out). -/
structure ReservationView where
  reservation : Reservation
  reservedSeats : List ReservedSeat
  deriving DecidableEq, Repr

/-- Query `Reservation.findByPk(id, { include: ... })`. -/
def findReservationByPk (s : Store) (reservationId : Nat) : Option ReservationView :=
  (s.reservations.find? (fun r => r.id == reservationId)).map (fun r =>
    { reservation := r
      reservedSeats := s.reservedSeats.filter (fun rs => rs.reservationId == r.id) })

/-! ## `createReservation` -/

/-- Lines 21-86: the body of the `try` block up to the commit. It yields the
working copy to commit and the inserted Reservation row, or the error thrown. -/
def transactionBody (s : Store) (env : Env) (userId showtimeId : Nat) (seatIds : List Nat) :
    Except ReservationError (Store × Reservation) :=
  match env.failure StoreOp.findShowtime with
  | some m => .error (.storeFailure m)
  | none =>
  match findShowtimeByPk s showtimeId with
  | none => .error .showtimeNotFound
  | some showtime =>
  match env.failure StoreOp.findSeats with
  | some m => .error (.storeFailure m)
  | none =>
  let seats := findSeats s seatIds showtime.theaterId
  if seats.length ≠ seatIds.length then .error .invalidSeats else
  match env.failure StoreOp.findReservedSeats with
  | some m => .error (.storeFailure m)
  | none =>
  let existingReservations := findActiveReservedSeats s seatIds showtimeId
  if existingReservations.length > 0 then
    .error (.alreadyReserved (existingReservations.map (fun rs => rs.seatId)))
  else
  let totalPrice := seats.length * pricePerSeat
  match env.failure StoreOp.insertReservation with
  | some m => .error (.storeFailure m)
  | none =>
  let reservation := newReservation s env userId showtimeId totalPrice
  match env.failure StoreOp.insertReservedSeats with
  | some m => .error (.storeFailure m)
  | none => .ok (insertAll s reservation seatIds, reservation)

/-- Function `createReservation` of `reservation.service.js` (lines 13-124):
the value returned or the error thrown, and the store the call leaves.
An error before the commit rolls the transaction back; an error of the
re-fetch after the commit finds the transaction finished (line 111) and is
re-thrown without a rollback. -/
def createReservation (s : Store) (env : Env) (userId showtimeId : Nat) (seatIds : List Nat) :
    Except ReservationError (Option ReservationView) × Store :=
  if seatIds.length = 0 then (.error .noSeatSelected, s) else
  match env.failure StoreOp.beginTransaction with
  | some m => (.error (.storeFailure m), s)
  | none =>
  match transactionBody s env userId showtimeId seatIds with
  | .error e => (.error e, s)
  | .ok (committed, reservation) =>
  match env.failure StoreOp.reloadReservation with
  | some m => (.error (.storeFailure m), committed)
  | none => (.ok (findReservationByPk committed reservation.id), committed)

/-! ## The HTTP layer (`reservation.controller.js`, `app.js`) -/

/-- JavaScript `text.includes(sub)` on lists of characters. -/
def includesChars (sub : List Char) : List Char → Bool
  | [] => sub.isEmpty
  | c :: cs => sub.isPrefixOf (c :: cs) || includesChars sub cs

/-- JavaScript `text.includes(sub)`. -/
def includes (text sub : String) : Bool :=
  includesChars sub.toList text.toList

/-- The response of a controller: the HTTP status, and the reservation of a
201 or the message of an error body. -/
structure Response where
  status : Nat
  message : Option String
  body : Option ReservationView
  deriving DecidableEq, Repr

/-- The generic error handler of `app.js`: `err.status || 500` and
`err.message || 'Internal Server Error'`. -/
def errorHandler (status : Option Nat) (message : String) : Response :=
  { status := match status with
      | some n => if n = 0 then 500 else n
      | none => 500
    message := some (if message = "" then "Internal Server Error" else message)
    body := none }

/-- Controller `create` (lines 5-35); an error it passes to `next` reaches the
generic error handler, and carries no `status`. A falsy `userId` or
`showtimeId` is the number 0. -/
def create (s : Store) (env : Env) (userId showtimeId : Nat) (seatIds : List Nat) :
    Response × Store :=
  if userId = 0 then
    ({ status := 401, message := some "User not authenticated.", body := none }, s)
  else if showtimeId = 0 ∨ seatIds.length = 0 then
    ({ status := 400,
       message := some "Missing or invalid required fields: showtimeId, seatIds (must be a non-empty array).",
       body := none }, s)
  else
    match createReservation s env userId showtimeId seatIds with
    | (.ok reservation, s') => ({ status := 201, message := none, body := reservation }, s')
    | (.error error, s') =>
        if includes error.message "not found" || includes error.message "invalid" then
          ({ status := 404, message := some error.message, body := none }, s')
        else if includes error.message "already reserved" then
          ({ status := 409, message := some error.message, body := none }, s')
        else
          (errorHandler none error.message, s')

/-! ## Predicates of the claims -/

/-- Primary key of `seats`: no two Seat rows share an id. -/
def SeatIdsUnique (s : Store) : Prop :=
  (s.seats.map (fun seat => seat.id)).Nodup

/-- The active claims on a seat for a showtime: the ReservedSeat rows of that
seat joined to a non-cancelled Reservation of that showtime. -/
def activeClaims (s : Store) (showtimeId seatId : Nat) : List ReservedSeat :=
  s.reservedSeats.filter (fun rs => rs.seatId == seatId && isActiveFor s showtimeId rs)

/-- The uniqueness invariant of the data model: per showtime and seat, at
most one active claim. -/
def AtMostOneActiveClaim (s : Store) : Prop :=
  ∀ showtimeId seatId, (activeClaims s showtimeId seatId).length ≤ 1

/-- Auto-increment primary key of `reservations` and the foreign key of
`reserved_seats.reservationId`: every Reservation id in either table is below
the next id the store hands out. -/
def ReservationIdsIssued (s : Store) : Prop :=
  (∀ r ∈ s.reservations, r.id < s.nextReservationId) ∧
  (∀ rs ∈ s.reservedSeats, rs.reservationId < s.nextReservationId)

/-- The call succeeded: it returned instead of throwing. -/
def Succeeds {ε α : Type} (r : Except ε α) : Prop :=
  ∃ a, r = .ok a


/-- The seat has an active claim for the showtime: some ReservedSeat row of
the seat references a Reservation of this showtime whose status is other than
cancelled. -/
def HasActiveClaim (s : Store) (showtimeId seatId : Nat) : Prop :=
  ∃ rs ∈ s.reservedSeats, rs.seatId = seatId ∧
    ∃ r ∈ s.reservations, r.id = rs.reservationId ∧ r.showtimeId = showtimeId ∧
      r.status ≠ ReservationStatus.cancelled

instance (s : Store) (showtimeId seatId : Nat) : Decidable (HasActiveClaim s showtimeId seatId) := by
  unfold HasActiveClaim
  exact inferInstance

/-- Status of the controller's validation failure (controller line 15). -/
def validationFailureStatus : Nat := 400

/-- Status the controller gives a `not found` or `invalid` error (line 27). -/
def notFoundStatus : Nat := 404

/-- Status the controller gives an `already reserved` error (line 30). -/
def conflictStatus : Nat := 409

/-! ## The scenario of the specification -/

/-- Theater 1 with seats A1, A2, A3 (ids 1, 2, 3), theater 2 with one seat
(id 4); showtime 1 in theater 1 from 18:00 to 20:00 and showtime 2 in
theater 1 from 21:00 to 23:00; nothing reserved. -/
def cinema : Store where
  seats := [Seat.mk 1 1 "A" 1 SeatType.standard, Seat.mk 2 1 "A" 2 SeatType.standard,
    Seat.mk 3 1 "A" 3 SeatType.standard, Seat.mk 4 2 "A" 1 SeatType.standard]
  showtimes := [Showtime.mk 1 1 1 64800000 72000000, Showtime.mk 2 1 1 75600000 82800000]
  reservations := []
  reservedSeats := []
  nextReservationId := 1
  nextReservedSeatId := 1

/-- Every store operation answers. -/
def quiet : Env where
  now := 60000000
  fault := none

/-- The re-fetch after the commit rejects. -/
def reloadFails : Env where
  now := 60000000
  fault := some (Fault.mk StoreOp.reloadReservation "Connection lost")

/-- The insert of the ReservedSeat rows rejects. -/
def bulkCreateFails : Env where
  now := 60000000
  fault := some (Fault.mk StoreOp.insertReservedSeats "Deadlock found")

/-- The cinema after user 7 booked A1 and A2 for showtime 1. -/
def cinemaBooked : Store :=
  (createReservation cinema quiet 7 1 [1, 2]).2

/-! ## The lifecycle operations (`reservation.service.js`, lines 135-240) -/

/-- An error made by `createError(status, message)` of `http-errors`. -/
structure HttpError where
  status : Nat
  message : String
  deriving DecidableEq, Repr

/-- A Reservation row with its ReservedSeat rows eagerly loaded. -/
def viewOf (s : Store) (r : Reservation) : ReservationView :=
  { reservation := r
    reservedSeats := s.reservedSeats.filter (fun rs => rs.reservationId == r.id) }

/-- Function `getReservationById` (lines 135-161): the value returned or the
error thrown, and the store, which it only reads. -/
def getReservationById (s : Store) (reservationId requestingUserId : Nat)
    (requestingUserRole : String) : Except HttpError ReservationView × Store :=
  match findReservationByPk s reservationId with
  | none => (.error { status := 404, message := "Reservation not found." }, s)
  | some reservation =>
    if reservation.reservation.userId ≠ requestingUserId ∧ requestingUserRole ≠ "admin" then
      (.error { status := 403,
                message := "Forbidden: You do not have permission to view this reservation." }, s)
    else (.ok reservation, s)

/-- Statement `reservation.save()` after `reservation.status = ...`: the
update of the `status` column of the rows whose primary key is
`reservationId`. -/
def saveStatus (s : Store) (reservationId : Nat) (status : ReservationStatus) : Store :=
  { s with
    reservations := s.reservations.map (fun r =>
      if r.id = reservationId then { r with status := status } else r) }

/-- The awaited store operations of `cancelReservation` that may reject: the
lookup of line 173, the save of line 190 and the re-fetch of line 194. -/
inductive CancelOp where
  | findReservation
  | saveReservation
  | reloadReservation
  deriving DecidableEq, Repr

/-- A rejected store operation of `cancelReservation`: which one, and the
message of the error the store driver throws. -/
structure CancelFault where
  op : CancelOp
  message : String
  deriving DecidableEq, Repr

/-- The message thrown by store operation `op`, or `none` when it answers. -/
def CancelFault.failure (fault : Option CancelFault) (op : CancelOp) : Option String :=
  match fault with
  | some f => if f.op = op then some f.message else none
  | none => none

/-- What `cancelReservation` throws: an error made by `createError`, or the
error of a store operation that rejects, which carries no `status`. -/
inductive CancelError where
  | http (error : HttpError)
  | storeFailure (message : String)
  deriving DecidableEq, Repr

/-- Function `cancelReservation` (lines 172-195); `fault` is the store
operation that rejects, if one does. The save runs outside any transaction,
so an error of the re-fetch is thrown with the status already saved. -/
def cancelReservation (s : Store) (fault : Option CancelFault)
    (reservationId requestingUserId : Nat) (requestingUserRole : String) :
    Except CancelError ReservationView × Store :=
  match CancelFault.failure fault CancelOp.findReservation with
  | some m => (.error (.storeFailure m), s)
  | none =>
  match s.reservations.find? (fun r => r.id == reservationId) with
  | none => (.error (.http { status := 404, message := "Reservation not found." }), s)
  | some reservation =>
    if reservation.userId ≠ requestingUserId ∧ requestingUserRole ≠ "admin" then
      (.error (.http
        { status := 403,
          message := "Forbidden: You do not have permission to cancel this reservation." }), s)
    else if reservation.status = ReservationStatus.cancelled then
      (.error (.http { status := 400, message := "Reservation is already cancelled." }), s)
    else
      match CancelFault.failure fault CancelOp.saveReservation with
      | some m => (.error (.storeFailure m), s)
      | none =>
      match CancelFault.failure fault CancelOp.reloadReservation with
      | some m =>
          (.error (.storeFailure m), saveStatus s reservation.id ReservationStatus.cancelled)
      | none =>
      match (getReservationById (saveStatus s reservation.id ReservationStatus.cancelled)
          reservationId requestingUserId requestingUserRole).1 with
      | .error e =>
          (.error (.http e), saveStatus s reservation.id ReservationStatus.cancelled)
      | .ok reservation2 =>
          (.ok reservation2, saveStatus s reservation.id ReservationStatus.cancelled)

/-- Modelled from the spec: the action of the foreign key
`reserved_seats.reservationId` when its Reservation row is deleted. It is
declared in `schema.sql`, which is not among the sources (line 212 of the
service says the rows go `due to CASCADE if set up in DB`); the specification
says the hard delete cascades to the seat claims of the reservation. -/
def cascadeReservedSeats (rows : List ReservedSeat) (reservationId : Nat) : List ReservedSeat :=
  rows.filter (fun rs => rs.reservationId != reservationId)

/-- Statement `reservation.destroy()`: the delete of the rows whose primary
key is `reservationId`, and what the store does to the rows referencing it. -/
def destroyReservation (s : Store) (reservationId : Nat) : Store :=
  { s with
    reservations := s.reservations.filter (fun r => r.id != reservationId)
    reservedSeats := cascadeReservedSeats s.reservedSeats reservationId }

/-- Function `deleteReservation` (lines 205-214). -/
def deleteReservation (s : Store) (reservationId : Nat) : Except HttpError Unit × Store :=
  match s.reservations.find? (fun r => r.id == reservationId) with
  | none => (.error { status := 404, message := "Reservation not found." }, s)
  | some reservation => (.ok (), destroyReservation s reservation.id)

/-- The order `[['reservedAt', 'DESC']]` of line 236. -/
def mostRecentFirst (a b : Reservation) : Prop :=
  b.reservedAt ≤ a.reservedAt

instance : DecidableRel mostRecentFirst := fun a b =>
  inferInstanceAs (Decidable (b.reservedAt ≤ a.reservedAt))

/-- Function `getAllReservations` (lines 222-240): every Reservation row with
its ReservedSeat rows, sorted by `reservedAt` descending. -/
def getAllReservations (s : Store) : List ReservationView × Store :=
  ((s.reservations.insertionSort mostRecentFirst).map (viewOf s), s)

/-! ## Predicates of the lifecycle claims -/

/-- Primary key of `reservations`: no two Reservation rows share an id. -/
def ReservationIdsUnique (s : Store) : Prop :=
  (s.reservations.map (fun r => r.id)).Nodup

/-- Foreign key of `reserved_seats.reservationId`: every ReservedSeat row
references an existing Reservation row. -/
def NoOrphanClaims (s : Store) : Prop :=
  ∀ rs ∈ s.reservedSeats, ∃ r ∈ s.reservations, r.id = rs.reservationId

/-- The seat ids a reservation claims. -/
def seatsOf (s : Store) (reservationId : Nat) : List Nat :=
  (s.reservedSeats.filter (fun rs => rs.reservationId == reservationId)).map
    (fun rs => rs.seatId)

/-- What a call may do to one Reservation row: leave it as it is, or move it
from a status other than cancelled to cancelled, nothing else changing. -/
def StatusStep (before after : Reservation) : Prop :=
  after = before ∨
    (before.status ≠ ReservationStatus.cancelled ∧
      after = { before with status := ReservationStatus.cancelled })

/-- What a call may do to the Reservation table: step each row it found, in
place, and append rows that are not pending. -/
def StatusMonotone (before after : List Reservation) : Prop :=
  ∃ kept added, after = kept ++ added ∧ List.Forall₂ StatusStep before kept ∧
    ∀ r ∈ added, r.status ≠ ReservationStatus.pending

/-- The cinema after user 7 cancelled the booking of A1 and A2. -/
def cinemaCancelled : Store :=
  (cancelReservation cinemaBooked none 1 7 "user").2

/-- The save of line 190 of `cancelReservation` rejects. -/
def cancelSaveFails : Option CancelFault :=
  some (CancelFault.mk CancelOp.saveReservation "Deadlock found")

/-- The re-fetch of line 194 of `cancelReservation` rejects. -/
def cancelReloadFails : Option CancelFault :=
  some (CancelFault.mk CancelOp.reloadReservation "Connection lost")

/-! ## The overlap scheduler (`showtime.service.js`) -/

/-- The four `Op.or` cases of the where-clause of `checkOverlap` (lines 15-40)
for the candidate `startTime`, `endTime` against the times of an existing
row: it starts during the candidate, it ends during the candidate, it
contains the candidate, the candidate contains it. -/
def overlapCondition (startTime endTime existingStart existingEnd : Int) : Bool :=
  (decide (existingStart < endTime) && decide (existingStart > startTime)) ||
  (decide (existingEnd < endTime) && decide (existingEnd > startTime)) ||
  (decide (existingStart ≤ startTime) && decide (existingEnd ≥ endTime)) ||
  (decide (existingStart ≥ startTime) && decide (existingEnd ≤ endTime))

/-- The where-clause of `checkOverlap` (lines 13-45): the theater, the four
cases, and `id != excludeShowtimeId` when that argument is truthy (`none` is
the default `null`, and the number 0 is falsy). -/
def overlapWhere (theaterId : Nat) (startTime endTime : Int) (excludeShowtimeId : Option Nat)
    (existing : Showtime) : Bool :=
  existing.theaterId == theaterId &&
    overlapCondition startTime endTime existing.startTime existing.endTime &&
    (match excludeShowtimeId with
      | none => true
      | some x => if x = 0 then true else existing.id != x)

/-- Function `checkOverlap` (lines 12-49): whether `Showtime.findOne` finds a
row under the where-clause. -/
def checkOverlap (s : Store) (theaterId : Nat) (startTime endTime : Int)
    (excludeShowtimeId : Option Nat) : Bool :=
  (s.showtimes.find? (overlapWhere theaterId startTime endTime excludeShowtimeId)).isSome

/-- The store read and written by the showtime service: the tables of `Store`,
the primary keys of the `movies` and `theaters` tables, and the
auto-increment counter of `showtimes`. -/
structure Inventory extends Store where
  movieIds : List Nat
  theaterIds : List Nat
  nextShowtimeId : Nat
  deriving DecidableEq, Repr

/-- A `startTime` or `endTime` value of a request, by what JavaScript does
with it: a truthy value `new Date` parses to a date, a truthy value it turns
into an Invalid Date, the falsy `null` and `0` it parses to the epoch, and
the falsy `undefined`, `''` and `NaN` it turns into an Invalid Date. -/
inductive TimeInput where
  | date (ms : Int)
  | unparsable
  | falsyEpoch
  | falsyInvalid
  deriving DecidableEq, Repr

/-- Whether the value is truthy. -/
def TimeInput.truthy : TimeInput → Bool
  | .date _ => true
  | .unparsable => true
  | .falsyEpoch => false
  | .falsyInvalid => false

/-- Expression `new Date(value)`: the time of the date, `none` for an Invalid
Date (whose `getTime()` is `NaN`). -/
def TimeInput.toDate : TimeInput → Option Int
  | .date ms => some ms
  | .unparsable => none
  | .falsyEpoch => some 0
  | .falsyInvalid => none

/-- The errors the showtime service throws. -/
inductive ShowtimeError where
  | invalidTime
  | movieNotFound
  | theaterNotFound
  | overlaps
  | updatedOverlaps
  deriving DecidableEq, Repr

/-- The `message` property of the thrown error (lines 65, 71, 75, 81, 170,
176, 180 and 186). -/
def ShowtimeError.message : ShowtimeError → String
  | .invalidTime => "Invalid start or end time."
  | .movieNotFound => "Movie not found."
  | .theaterNotFound => "Theater not found."
  | .overlaps => "Showtime overlaps with an existing showtime in this theater."
  | .updatedOverlaps => "Updated showtime overlaps with an existing showtime in this theater."

/-- Function `createShowtime` (lines 58-93). -/
def createShowtime (inv : Inventory) (movieId theaterId : Nat) (startTime endTime : TimeInput) :
    Except ShowtimeError Showtime × Inventory :=
  match startTime.toDate, endTime.toDate with
  | some start, some finish =>
    if start ≥ finish then (.error .invalidTime, inv)
    else if movieId ∉ inv.movieIds then (.error .movieNotFound, inv)
    else if theaterId ∉ inv.theaterIds then (.error .theaterNotFound, inv)
    else if checkOverlap inv.toStore theaterId start finish none then (.error .overlaps, inv)
    else
      let newShowtime : Showtime :=
        { id := inv.nextShowtimeId, movieId := movieId, theaterId := theaterId,
          startTime := start, endTime := finish }
      (.ok newShowtime,
        { inv with
          showtimes := inv.showtimes ++ [newShowtime]
          nextShowtimeId := inv.nextShowtimeId + 1 })
  | _, _ => (.error .invalidTime, inv)

/-- The `updateData` of `updateShowtime`: `none` is an `undefined` id. -/
structure ShowtimeUpdate where
  movieId : Option Nat
  theaterId : Option Nat
  startTime : TimeInput
  endTime : TimeInput
  deriving DecidableEq, Repr

/-- Lines 163-164: `value ? new Date(value) : stored`. -/
def newTime (value : TimeInput) (stored : Int) : Option Int :=
  if value.truthy then value.toDate else some stored

/-- Lines 174 and 178: `value !== undefined && value !== stored`. -/
def idChanges (value : Option Nat) (stored : Nat) : Bool :=
  match value with
  | none => false
  | some v => v != stored

/-- Statement `showtime.update({...})` of lines 190-195: the update of the
four columns of the rows whose primary key is `id`. -/
def saveShowtime (inv : Inventory) (id movieId theaterId : Nat) (startTime endTime : Int) :
    Inventory :=
  { inv with
    showtimes := inv.showtimes.map (fun st =>
      if st.id = id then
        { st with movieId := movieId, theaterId := theaterId,
                  startTime := startTime, endTime := endTime }
      else st) }

/-- Function `updateShowtime` (lines 156-199); it returns `null` when no
Showtime row has the id. -/
def updateShowtime (inv : Inventory) (id : Nat) (updateData : ShowtimeUpdate) :
    Except ShowtimeError (Option Showtime) × Inventory :=
  match findShowtimeByPk inv.toStore id with
  | none => (.ok none, inv)
  | some showtime =>
    let newTheaterId := updateData.theaterId.getD showtime.theaterId
    let newMovieId := updateData.movieId.getD showtime.movieId
    match newTime updateData.startTime showtime.startTime,
        newTime updateData.endTime showtime.endTime with
    | some newStartTime, some newEndTime =>
      if newStartTime ≥ newEndTime then (.error .invalidTime, inv)
      else if idChanges updateData.movieId showtime.movieId = true ∧
          newMovieId ∉ inv.movieIds then (.error .movieNotFound, inv)
      else if idChanges updateData.theaterId showtime.theaterId = true ∧
          newTheaterId ∉ inv.theaterIds then (.error .theaterNotFound, inv)
      else if checkOverlap inv.toStore newTheaterId newStartTime newEndTime (some id) then
        (.error .updatedOverlaps, inv)
      else
        (.ok (findShowtimeByPk
            (saveShowtime inv id newMovieId newTheaterId newStartTime newEndTime).toStore id),
          saveShowtime inv id newMovieId newTheaterId newStartTime newEndTime)
    | _, _ => (.error .invalidTime, inv)

/-! ## The showtime controller (`showtime.controller.js`) -/

/-- The response of the showtime controller. -/
structure ShowtimeResponse where
  status : Nat
  message : Option String
  body : Option Showtime
  deriving DecidableEq, Repr

/-- The `catch` blocks of `create` (lines 14-25) and `update` (lines 86-96),
which differ in the message of the 500 response only. -/
def showtimeErrorResponse (error : ShowtimeError) (fallback : String) : ShowtimeResponse :=
  if includes error.message "overlaps" || includes error.message "Invalid start or end time"
  then { status := 409, message := some error.message, body := none }
  else if includes error.message "not found" then
    { status := 404, message := some error.message, body := none }
  else { status := 500, message := some fallback, body := none }

/-- Controller `create` of the showtime controller (lines 4-26); a falsy id is
the number 0. -/
def ShowtimeController.create (inv : Inventory) (movieId theaterId : Nat)
    (startTime endTime : TimeInput) : ShowtimeResponse × Inventory :=
  if movieId = 0 ∨ theaterId = 0 ∨ startTime.truthy = false ∨ endTime.truthy = false then
    ({ status := 400,
       message := some "Missing required fields: movieId, theaterId, startTime, endTime.",
       body := none }, inv)
  else
    match createShowtime inv movieId theaterId startTime endTime with
    | (.ok showtime, inv2) => ({ status := 201, message := none, body := some showtime }, inv2)
    | (.error error, inv2) => (showtimeErrorResponse error "Error creating showtime.", inv2)

/-- Controller `update` of the showtime controller (lines 65-97) for a
numeric id; `bodyKeys` is the number of keys of the request body. -/
def ShowtimeController.update (inv : Inventory) (id bodyKeys : Nat)
    (updateData : ShowtimeUpdate) : ShowtimeResponse × Inventory :=
  if bodyKeys = 0 then
    ({ status := 400, message := some "Update data cannot be empty.", body := none }, inv)
  else
    match updateShowtime inv id updateData with
    | (.ok (some showtime), inv2) =>
        ({ status := 200, message := none, body := some showtime }, inv2)
    | (.ok none, inv2) =>
        ({ status := 404,
           message := some ("Showtime with id=" ++ toString id ++ " not found."),
           body := none }, inv2)
    | (.error error, inv2) => (showtimeErrorResponse error "Error updating showtime.", inv2)

/-! ## The seat service (`seat.service.js`) -/

/-- The `updateData` of `updateSeat`: `none` is a key the request leaves out. -/
structure SeatUpdate where
  theaterId : Option Nat
  row : Option String
  number : Option Nat
  type : Option SeatType
  deriving DecidableEq, Repr

/-- Expression `value && value !== stored` on a number: 0 is falsy. -/
def numberChanges (value : Option Nat) (stored : Nat) : Bool :=
  match value with
  | none => false
  | some v => v != 0 && v != stored

/-- Expression `value && value !== stored` on a string: `''` is falsy. -/
def rowChanges (value : Option String) (stored : String) : Bool :=
  match value with
  | none => false
  | some v => v != "" && v != stored

/-- Expression `value || stored` on a number. -/
def numberOr (value : Option Nat) (stored : Nat) : Nat :=
  match value with
  | none => stored
  | some v => if v = 0 then stored else v

/-- Expression `value || stored` on a string. -/
def rowOr (value : Option String) (stored : String) : String :=
  match value with
  | none => stored
  | some v => if v = "" then stored else v

/-- The awaited store operations of `updateSeat` that may reject: the lookup
of line 71, the search of line 83, the write of line 97 and the reload of
line 98. -/
inductive SeatOp where
  | findSeat
  | findTargetSeat
  | writeSeat
  | reloadSeat
  deriving DecidableEq, Repr

/-- A rejected store operation of `updateSeat`: which one, and the message of
the error the store driver throws. -/
structure SeatFault where
  op : SeatOp
  message : String
  deriving DecidableEq, Repr

/-- The message thrown by store operation `op`, or `none` when it answers. -/
def SeatFault.failure (fault : Option SeatFault) (op : SeatOp) : Option String :=
  match fault with
  | some f => if f.op = op then some f.message else none
  | none => none

/-- What `updateSeat` throws: an error made by `createError`, the error of
the store when a write breaks the foreign key or the unique index of table
`seats`, or the error of a store operation that rejects for another reason. -/
inductive SeatError where
  | http (error : HttpError)
  | foreignKeyConstraint
  | uniqueConstraint
  | storeFailure (message : String)
  deriving DecidableEq, Repr

/-- The rows of `seats` after the update of the columns `updateData` names,
in the rows whose primary key is `seatId`. -/
def writtenSeats (seats : List Seat) (seatId : Nat) (updateData : SeatUpdate) : List Seat :=
  seats.map (fun seat =>
    if seat.id = seatId then
      { seat with
        theaterId := updateData.theaterId.getD seat.theaterId
        row := updateData.row.getD seat.row
        number := updateData.number.getD seat.number
        type := updateData.type.getD seat.type }
    else seat)

/-- Statement `seat.update(updateData)` of line 97 on the table that
`seat.model.js` declares and `sequelize.sync()` builds: the store refuses the
write when it changes the theater of a row to one that is not in `theaters`
(the foreign key of lines 10-19), and when it leaves two rows with the same
theater, row and number (the unique index of lines 36-42). -/
def saveSeat (inv : Inventory) (seatId : Nat) (updateData : SeatUpdate) :
    Except SeatError Inventory :=
  if inv.seats.any (fun seat =>
      seat.id == seatId && updateData.theaterId.getD seat.theaterId != seat.theaterId &&
        !(inv.theaterIds.contains (updateData.theaterId.getD seat.theaterId))) then
    .error .foreignKeyConstraint
  else if ¬ ((writtenSeats inv.seats seatId updateData).map
      (fun seat => (seat.theaterId, seat.row, seat.number))).Nodup then
    .error .uniqueConstraint
  else .ok { inv with seats := writtenSeats inv.seats seatId updateData }

/-- The block of lines 81-94 of `updateSeat`: the error it throws, if any.
The search of line 83 runs only when the guard of line 81 holds. -/
def targetLocationError (inv : Inventory) (fault : Option SeatFault) (seat : Seat)
    (seatId : Nat) (updateData : SeatUpdate) : Option SeatError :=
  if rowChanges updateData.row seat.row || numberChanges updateData.number seat.number then
    match SeatFault.failure fault SeatOp.findTargetSeat with
    | some m => some (.storeFailure m)
    | none =>
      match inv.seats.find? (fun target =>
          target.theaterId == seat.theaterId &&
            target.row == rowOr updateData.row seat.row &&
            target.number == numberOr updateData.number seat.number) with
      | none => none
      | some targetSeat =>
        if targetSeat.id != seatId then
          some (.http
            { status := 409, message := "Another seat already exists at the target location." })
        else none
  else none

/-- Function `updateSeat` (lines 70-99); `fault` is the store operation that
rejects, if one does. The value returned or the error thrown, and the store
the call leaves. -/
def updateSeat (inv : Inventory) (fault : Option SeatFault) (seatId : Nat)
    (updateData : SeatUpdate) : Except SeatError (Option Seat) × Inventory :=
  match SeatFault.failure fault SeatOp.findSeat with
  | some m => (.error (.storeFailure m), inv)
  | none =>
  match inv.seats.find? (fun seat => seat.id == seatId) with
  | none => (.error (.http { status := 404, message := "Seat not found" }), inv)
  | some seat =>
    if numberChanges updateData.theaterId seat.theaterId then
      (.error (.http
        { status := 400,
          message := "Cannot change the theater of a seat. Delete and recreate if necessary." }),
        inv)
    else
      match targetLocationError inv fault seat seatId updateData with
      | some e => (.error e, inv)
      | none =>
      match SeatFault.failure fault SeatOp.writeSeat with
      | some m => (.error (.storeFailure m), inv)
      | none =>
      match saveSeat inv seatId updateData with
      | .error e => (.error e, inv)
      | .ok inv2 =>
        match SeatFault.failure fault SeatOp.reloadSeat with
        | some m => (.error (.storeFailure m), inv2)
        | none => (.ok (inv2.seats.find? (fun seat => seat.id == seatId)), inv2)

/-! ## Predicates of the scheduler and seat claims -/

/-- Every showtime of the list starts before it ends. -/
def ShowtimesValid (showtimes : List Showtime) : Prop :=
  ∀ st ∈ showtimes, st.startTime < st.endTime

/-- Overlap of two showtimes under half-open semantics. -/
def HalfOpenOverlap (a b : Showtime) : Prop :=
  a.startTime < b.endTime ∧ b.startTime < a.endTime

/-- No two showtimes of one theater overlap. -/
def NoOverlap (showtimes : List Showtime) : Prop :=
  showtimes.Pairwise (fun a b => a.theaterId = b.theaterId → ¬ HalfOpenOverlap a b)

/-- Primary key of `showtimes`: no two Showtime rows share an id. -/
def ShowtimeIdsUnique (showtimes : List Showtime) : Prop :=
  (showtimes.map (fun st => st.id)).Nodup

/-- The unique index of `seats`: no two Seat rows share theater, row and
number. -/
def SeatLocationsUnique (s : Store) : Prop :=
  (s.seats.map (fun seat => (seat.theaterId, seat.row, seat.number))).Nodup

/-- The store with the Showtime rows of id `x` removed. -/
def removeShowtime (s : Store) (x : Nat) : Store :=
  { s with showtimes := s.showtimes.filter (fun st => st.id != x) }

/-! ## Scenarios of the scheduler and seat claims -/

/-- The cinema with movie 1 and theaters 1 and 2 on record. -/
def venue : Inventory where
  toStore := cinema
  movieIds := [1]
  theaterIds := [1, 2]
  nextShowtimeId := 3

/-- Theater 1 with one showtime from `startTime` to `endTime`. -/
def oneShowtime (startTime endTime : Int) : Store where
  seats := []
  showtimes := [Showtime.mk 1 1 1 startTime endTime]
  reservations := []
  reservedSeats := []
  nextReservationId := 1
  nextReservedSeatId := 1

/-- Theater 1 with seats A1 and A5 (ids 1 and 2). -/
def twoSeats : Store where
  seats := [Seat.mk 1 1 "A" 1 SeatType.standard, Seat.mk 2 1 "A" 5 SeatType.standard]
  showtimes := []
  reservations := []
  reservedSeats := []
  nextReservationId := 1
  nextReservedSeatId := 1

/-- Theaters 1 and 2 on record, theater 1 with seats A1 and A5. -/
def seatVenue : Inventory where
  toStore := twoSeats
  movieIds := []
  theaterIds := [1, 2]
  nextShowtimeId := 1

/-- The seat venue after seat 1 was given the number 0. -/
def seatVenueZero : Inventory :=
  (updateSeat seatVenue none 1 (SeatUpdate.mk none none (some 0) none)).2

/-! ## Lemmas on the seat query -/

theorem mem_findSeats {s : Store} {seatIds : List Nat} {theaterId : Nat} {seat : Seat} :
    seat ∈ findSeats s seatIds theaterId ↔
      seat ∈ s.seats ∧ seat.id ∈ seatIds ∧ seat.theaterId = theaterId := by
  simp [findSeats, List.mem_filter]

theorem findSeats_ids_nodup {s : Store} (hs : SeatIdsUnique s) (seatIds : List Nat)
    (theaterId : Nat) :
    ((findSeats s seatIds theaterId).map (fun seat => seat.id)).Nodup := by
  unfold SeatIdsUnique at hs
  exact hs.sublist (List.Sublist.map _ (List.filter_sublist _))

theorem findSeats_ids_subset (s : Store) (seatIds : List Nat) (theaterId : Nat) :
    (findSeats s seatIds theaterId).map (fun seat => seat.id) ⊆ seatIds := by
  intro x hx
  rcases List.mem_map.1 hx with ⟨seat, hseat, rfl⟩
  exact (mem_findSeats.1 hseat).2.1

/-- When seat ids are unique, the seat query returns as many rows as ids were
requested only for a duplicate-free request whose every id is a seat of the
theater. -/
theorem findSeats_length_eq {s : Store} (hs : SeatIdsUnique s) {seatIds : List Nat}
    {theaterId : Nat} (h : (findSeats s seatIds theaterId).length = seatIds.length) :
    seatIds.Nodup ∧
      ∀ x ∈ seatIds, ∃ seat ∈ s.seats, seat.id = x ∧ seat.theaterId = theaterId := by
  have hnd := findSeats_ids_nodup hs seatIds theaterId
  have hsub := findSeats_ids_subset s seatIds theaterId
  have hperm : List.Perm ((findSeats s seatIds theaterId).map (fun seat => seat.id)) seatIds :=
    (List.subperm_of_subset hnd hsub).perm_of_length_le (by simp [h])
  refine ⟨hperm.nodup_iff.1 hnd, ?_⟩
  intro x hx
  rcases List.mem_map.1 (hperm.mem_iff.2 hx) with ⟨seat, hseat, rfl⟩
  exact ⟨seat, (mem_findSeats.1 hseat).1, rfl, (mem_findSeats.1 hseat).2.2⟩

theorem findSeats_length_of_valid {s : Store} (hs : SeatIdsUnique s) {seatIds : List Nat}
    {theaterId : Nat} (hnd : seatIds.Nodup)
    (hall : ∀ x ∈ seatIds, ∃ seat ∈ s.seats, seat.id = x ∧ seat.theaterId = theaterId) :
    (findSeats s seatIds theaterId).length = seatIds.length := by
  have h1 := findSeats_ids_nodup hs seatIds theaterId
  have hperm : List.Perm ((findSeats s seatIds theaterId).map (fun seat => seat.id)) seatIds := by
    rw [List.perm_ext_iff_of_nodup h1 hnd]
    intro x
    constructor
    · intro hx
      exact findSeats_ids_subset s seatIds theaterId hx
    · intro hx
      rcases hall x hx with ⟨seat, hmem, hid, hth⟩
      exact List.mem_map.2 ⟨seat, mem_findSeats.2 ⟨hmem, hid ▸ hx, hth⟩, hid⟩
  simpa using hperm.length_eq

/-! ## Inversion of `createReservation` -/

theorem Env.failure_of_no_fault {env : Env} (henv : env.fault = none) (op : StoreOp) :
    env.failure op = none := by
  simp [Env.failure, henv]

/-- What a committed transaction body has established. -/
theorem transactionBody_ok {s : Store} {env : Env} {userId showtimeId : Nat}
    {seatIds : List Nat} {c : Store} {r : Reservation}
    (h : transactionBody s env userId showtimeId seatIds = .ok (c, r)) :
    ∃ showtime, findShowtimeByPk s showtimeId = some showtime ∧
      (findSeats s seatIds showtime.theaterId).length = seatIds.length ∧
      findActiveReservedSeats s seatIds showtimeId = [] ∧
      r = newReservation s env userId showtimeId (seatIds.length * pricePerSeat) ∧
      c = insertAll s r seatIds := by
  unfold transactionBody at h
  split at h
  · simp at h
  split at h
  · simp at h
  rename_i showtime hst
  split at h
  · simp at h
  simp only at h
  split at h
  · simp at h
  rename_i hlen
  split at h
  · simp at h
  split at h
  · simp at h
  rename_i hex
  split at h
  · simp at h
  split at h
  · simp at h
  simp only [Except.ok.injEq, Prod.mk.injEq] at h
  refine ⟨showtime, hst, by simpa using hlen, ?_, ?_, ?_⟩
  · simpa using hex
  · have hlen2 : (findSeats s seatIds showtime.theaterId).length = seatIds.length := by
      simpa using hlen
    rw [← h.2, hlen2]
  · rw [← h.1, ← h.2]

/-- The transaction body when every store operation answers. -/
theorem transactionBody_of_no_fault {s : Store} {env : Env} (henv : env.fault = none)
    (userId showtimeId : Nat) (seatIds : List Nat) :
    transactionBody s env userId showtimeId seatIds =
      match findShowtimeByPk s showtimeId with
      | none => .error .showtimeNotFound
      | some showtime =>
        if (findSeats s seatIds showtime.theaterId).length ≠ seatIds.length then
          .error .invalidSeats
        else if (findActiveReservedSeats s seatIds showtimeId).length > 0 then
          .error (.alreadyReserved
            ((findActiveReservedSeats s seatIds showtimeId).map (fun rs => rs.seatId)))
        else
          .ok (insertAll s (newReservation s env userId showtimeId
                ((findSeats s seatIds showtime.theaterId).length * pricePerSeat)) seatIds,
               newReservation s env userId showtimeId
                ((findSeats s seatIds showtime.theaterId).length * pricePerSeat)) := by
  unfold transactionBody
  simp only [Env.failure_of_no_fault henv]

/-- The store a call leaves is the one it started from or the committed
working copy. -/
theorem createReservation_store (s : Store) (env : Env) (userId showtimeId : Nat)
    (seatIds : List Nat) :
    (createReservation s env userId showtimeId seatIds).2 = s ∨
      ∃ c r, transactionBody s env userId showtimeId seatIds = .ok (c, r) ∧
        (createReservation s env userId showtimeId seatIds).2 = c := by
  unfold createReservation
  split
  · exact Or.inl rfl
  split
  · exact Or.inl rfl
  split
  · exact Or.inl rfl
  rename_i c r hbody
  split
  · exact Or.inr ⟨c, r, hbody, rfl⟩
  · exact Or.inr ⟨c, r, hbody, rfl⟩

/-- A call that returns has committed, and returns the re-fetched row. -/
theorem createReservation_ok {s : Store} {env : Env} {userId showtimeId : Nat}
    {seatIds : List Nat} {v : Option ReservationView}
    (h : (createReservation s env userId showtimeId seatIds).1 = .ok v) :
    seatIds ≠ [] ∧
      ∃ c r, transactionBody s env userId showtimeId seatIds = .ok (c, r) ∧
        (createReservation s env userId showtimeId seatIds).2 = c ∧
        v = findReservationByPk c r.id := by
  have hgoal : ∀ x, createReservation s env userId showtimeId seatIds = x → x.1 = .ok v →
      seatIds ≠ [] ∧ ∃ c r, transactionBody s env userId showtimeId seatIds = .ok (c, r) ∧
        x.2 = c ∧ v = findReservationByPk c r.id := by
    intro x hx hres
    unfold createReservation at hx
    split at hx
    · subst hx; simp at hres
    rename_i hne
    refine ⟨by intro h0; exact hne (by simp [h0]), ?_⟩
    split at hx
    · subst hx; simp at hres
    split at hx
    · subst hx; simp at hres
    rename_i c r hbody
    split at hx
    · subst hx; simp at hres
    subst hx
    simp only [Except.ok.injEq] at hres
    exact ⟨c, r, hbody, rfl, hres.symm⟩
  exact hgoal _ rfl h

/-- A call that throws before the commit leaves the store as it found it. -/
theorem createReservation_error_store {s : Store} {env : Env} {userId showtimeId : Nat}
    {seatIds : List Nat} (hre : env.failure StoreOp.reloadReservation = none)
    {e : ReservationError}
    (h : (createReservation s env userId showtimeId seatIds).1 = .error e) :
    (createReservation s env userId showtimeId seatIds).2 = s := by
  have hgoal : ∀ x, createReservation s env userId showtimeId seatIds = x →
      x.1 = .error e → x.2 = s := by
    intro x hx hres
    unfold createReservation at hx
    split at hx
    · subst hx; rfl
    split at hx
    · subst hx; rfl
    split at hx
    · subst hx; rfl
    rw [hre] at hx
    subst hx
    simp at hres
  exact hgoal _ rfl h

/-! ## The rows a committed call adds -/

theorem mem_newReservedSeats {firstId reservationId : Nat} {seatIds : List Nat}
    {rs : ReservedSeat} (h : rs ∈ newReservedSeats firstId reservationId seatIds) :
    rs.reservationId = reservationId ∧ rs.seatId ∈ seatIds := by
  induction seatIds generalizing firstId with
  | nil => simp [newReservedSeats] at h
  | cons x rest ih =>
    simp only [newReservedSeats, List.mem_cons] at h
    rcases h with h | h
    · subst h
      simp
    · have := ih h
      exact ⟨this.1, List.mem_cons_of_mem _ this.2⟩

theorem newReservedSeats_map_seatId (firstId reservationId : Nat) (seatIds : List Nat) :
    (newReservedSeats firstId reservationId seatIds).map (fun rs => rs.seatId) = seatIds := by
  induction seatIds generalizing firstId with
  | nil => rfl
  | cons x rest ih => simp [newReservedSeats, ih]

theorem newReservedSeats_length (firstId reservationId : Nat) (seatIds : List Nat) :
    (newReservedSeats firstId reservationId seatIds).length = seatIds.length := by
  induction seatIds generalizing firstId with
  | nil => rfl
  | cons x rest ih => simp [newReservedSeats, ih]

theorem newReservedSeats_filter_seat (firstId reservationId : Nat) (seatIds : List Nat)
    (x : Nat) :
    ((newReservedSeats firstId reservationId seatIds).filter
      (fun rs => rs.seatId == x)).length = seatIds.count x := by
  induction seatIds generalizing firstId with
  | nil => rfl
  | cons y rest ih =>
    by_cases hyx : y = x
    · subst hyx
      simp [newReservedSeats, ih]
    · have hne : (y == x) = false := by simpa using hyx
      simp [newReservedSeats, ih, List.count_cons, hne, hyx]

/-- Activity of a claim after the inserts: what it was, or a claim of the
new reservation. -/
theorem isActiveFor_insertAll (s : Store) (r : Reservation) (seatIds : List Nat)
    (showtimeId : Nat) (rs : ReservedSeat) :
    isActiveFor (insertAll s r seatIds) showtimeId rs =
      (isActiveFor s showtimeId rs ||
        (r.id == rs.reservationId && r.showtimeId == showtimeId &&
          r.status != ReservationStatus.cancelled)) := by
  simp [isActiveFor, insertAll, List.any_append]

theorem isActiveFor_of_unissued {s : Store} (hiss : ReservationIdsIssued s) (showtimeId : Nat)
    {rs : ReservedSeat} (h : rs.reservationId = s.nextReservationId) :
    isActiveFor s showtimeId rs = false := by
  unfold isActiveFor
  rw [List.any_eq_false]
  intro r hr
  have := hiss.1 r hr
  have hne : r.id ≠ rs.reservationId := by omega
  have hb : (r.id == rs.reservationId) = false := by simpa using hne
  simp [hb]

/-- Number of active claims on a seat after the inserts of a reservation
that received the next id. -/
theorem activeClaims_insertAll_length {s : Store} (hiss : ReservationIdsIssued s)
    {r : Reservation} (hr : r.id = s.nextReservationId) (seatIds : List Nat)
    (showtimeId x : Nat) :
    (activeClaims (insertAll s r seatIds) showtimeId x).length =
      (activeClaims s showtimeId x).length +
        (if r.showtimeId = showtimeId ∧ r.status ≠ ReservationStatus.cancelled
          then seatIds.count x else 0) := by
  have hold : (s.reservedSeats.filter (fun rs => rs.seatId == x &&
        isActiveFor (insertAll s r seatIds) showtimeId rs)) =
      s.reservedSeats.filter (fun rs => rs.seatId == x && isActiveFor s showtimeId rs) := by
    apply List.filter_congr
    intro rs hrs
    have hlt := hiss.2 rs hrs
    have hne : r.id ≠ rs.reservationId := by omega
    have hb : (r.id == rs.reservationId) = false := by simpa using hne
    rw [isActiveFor_insertAll, hb]
    simp
  have hnew : ((newReservedSeats s.nextReservedSeatId r.id seatIds).filter
        (fun rs => rs.seatId == x && isActiveFor (insertAll s r seatIds) showtimeId rs)) =
      (newReservedSeats s.nextReservedSeatId r.id seatIds).filter
        (fun rs => rs.seatId == x &&
          decide (r.showtimeId = showtimeId ∧ r.status ≠ ReservationStatus.cancelled)) := by
    apply List.filter_congr
    intro rs hrs
    have hid := (mem_newReservedSeats hrs).1
    rw [isActiveFor_insertAll, isActiveFor_of_unissued hiss showtimeId (hid.trans hr)]
    simp only [hid, beq_self_eq_true, Bool.true_and, Bool.false_or]
    congr 1
    by_cases h1 : r.showtimeId = showtimeId <;> by_cases h2 : r.status = ReservationStatus.cancelled <;>
      simp [h1, h2]
  have hsplit : activeClaims (insertAll s r seatIds) showtimeId x =
      s.reservedSeats.filter (fun rs => rs.seatId == x &&
        isActiveFor (insertAll s r seatIds) showtimeId rs) ++
      (newReservedSeats s.nextReservedSeatId r.id seatIds).filter
        (fun rs => rs.seatId == x && isActiveFor (insertAll s r seatIds) showtimeId rs) := by
    simp [activeClaims, insertAll, List.filter_append]
  rw [hsplit, hold, hnew, List.length_append]
  congr 1
  by_cases hc : r.showtimeId = showtimeId ∧ r.status ≠ ReservationStatus.cancelled
  · simp only [hc, and_self, decide_True, Bool.and_true, if_true, ne_eq, not_false_eq_true]
    exact newReservedSeats_filter_seat _ _ _ _
  · simp [hc]

/-! ## Active claims -/

theorem isActiveFor_iff {s : Store} {showtimeId : Nat} {rs : ReservedSeat} :
    isActiveFor s showtimeId rs = true ↔
      ∃ r ∈ s.reservations, r.id = rs.reservationId ∧ r.showtimeId = showtimeId ∧
        r.status ≠ ReservationStatus.cancelled := by
  simp [isActiveFor, List.any_eq_true, and_assoc]

theorem mem_activeClaims {s : Store} {showtimeId x : Nat} {rs : ReservedSeat} :
    rs ∈ activeClaims s showtimeId x ↔
      rs ∈ s.reservedSeats ∧ rs.seatId = x ∧ isActiveFor s showtimeId rs = true := by
  simp [activeClaims, List.mem_filter]

theorem mem_findActiveReservedSeats {s : Store} {seatIds : List Nat} {showtimeId : Nat}
    {rs : ReservedSeat} :
    rs ∈ findActiveReservedSeats s seatIds showtimeId ↔
      rs ∈ s.reservedSeats ∧ rs.seatId ∈ seatIds ∧ isActiveFor s showtimeId rs = true := by
  simp [findActiveReservedSeats, List.mem_filter]

theorem hasActiveClaim_iff_mem {s : Store} {showtimeId x : Nat} :
    HasActiveClaim s showtimeId x ↔ ∃ rs, rs ∈ activeClaims s showtimeId x := by
  unfold HasActiveClaim
  constructor
  · rintro ⟨rs, hmem, hseat, hact⟩
    exact ⟨rs, mem_activeClaims.2 ⟨hmem, hseat, isActiveFor_iff.2 hact⟩⟩
  · rintro ⟨rs, hrs⟩
    have h := mem_activeClaims.1 hrs
    exact ⟨rs, h.1, h.2.1, isActiveFor_iff.1 h.2.2⟩

theorem activeClaims_eq_nil_iff {s : Store} {showtimeId x : Nat} :
    activeClaims s showtimeId x = [] ↔ ¬ HasActiveClaim s showtimeId x := by
  rw [hasActiveClaim_iff_mem, List.eq_nil_iff_forall_not_mem]
  simp

/-- The claim query finds nothing exactly when no requested seat has an
active claim for the showtime. -/
theorem findActiveReservedSeats_eq_nil_iff {s : Store} {seatIds : List Nat}
    {showtimeId : Nat} :
    findActiveReservedSeats s seatIds showtimeId = [] ↔
      ¬ ∃ x ∈ seatIds, HasActiveClaim s showtimeId x := by
  rw [List.eq_nil_iff_forall_not_mem]
  constructor
  · rintro h ⟨x, hx, hact⟩
    rcases hasActiveClaim_iff_mem.1 hact with ⟨rs, hrs⟩
    have h2 := mem_activeClaims.1 hrs
    exact h rs (mem_findActiveReservedSeats.2 ⟨h2.1, h2.2.1 ▸ hx, h2.2.2⟩)
  · intro h rs hrs
    have h2 := mem_findActiveReservedSeats.1 hrs
    exact h ⟨rs.seatId, h2.2.1,
      hasActiveClaim_iff_mem.2 ⟨rs, mem_activeClaims.2 ⟨h2.1, rfl, h2.2.2⟩⟩⟩

/-- The seat ids the claim query returns, seat by seat. -/
theorem findActiveReservedSeats_filter_seat (s : Store) (seatIds : List Nat)
    (showtimeId x : Nat) :
    (findActiveReservedSeats s seatIds showtimeId).filter (fun rs => rs.seatId == x) =
      if x ∈ seatIds then activeClaims s showtimeId x else [] := by
  unfold findActiveReservedSeats activeClaims
  rw [List.filter_filter]
  split
  · rename_i hx
    apply List.filter_congr
    intro rs _
    by_cases hrs : rs.seatId = x
    · subst hrs
      simp [hx]
    · have hb : (rs.seatId == x) = false := by simpa using hrs
      simp [hb]
  · rename_i hx
    rw [List.filter_eq_nil_iff]
    intro rs _
    by_cases hrs : rs.seatId = x
    · subst hrs
      simp [hx]
    · have hb : (rs.seatId == x) = false := by simpa using hrs
      simp [hb]

theorem nodup_map_seatId_of_filter_le_one (l : List ReservedSeat)
    (h : ∀ x, (l.filter (fun rs => rs.seatId == x)).length ≤ 1) :
    (l.map (fun rs => rs.seatId)).Nodup := by
  rw [List.nodup_iff_count_le_one]
  intro x
  have hcount : List.count x (l.map (fun rs => rs.seatId)) =
      (l.filter (fun rs => rs.seatId == x)).length := by
    rw [List.count, List.countP_map, List.countP_eq_length_filter]
    rfl
  rw [hcount]
  exact h x

/-! ## Outcomes of a call -/

/-- The errors of the transaction body and what each one has established. -/
theorem transactionBody_error {s : Store} {env : Env} {userId showtimeId : Nat}
    {seatIds : List Nat} {e : ReservationError}
    (h : transactionBody s env userId showtimeId seatIds = .error e) :
    (∃ op m, env.failure op = some m ∧ e = .storeFailure m) ∨
    (findShowtimeByPk s showtimeId = none ∧ e = .showtimeNotFound) ∨
    (∃ showtime, findShowtimeByPk s showtimeId = some showtime ∧
      (findSeats s seatIds showtime.theaterId).length ≠ seatIds.length ∧
      e = .invalidSeats) ∨
    (∃ showtime, findShowtimeByPk s showtimeId = some showtime ∧
      (findSeats s seatIds showtime.theaterId).length = seatIds.length ∧
      findActiveReservedSeats s seatIds showtimeId ≠ [] ∧
      e = .alreadyReserved
        ((findActiveReservedSeats s seatIds showtimeId).map (fun rs => rs.seatId))) := by
  unfold transactionBody at h
  split at h
  · rename_i m hm
    simp only [Except.error.injEq] at h
    exact Or.inl ⟨_, m, hm, h.symm⟩
  split at h
  · rename_i hst
    simp only [Except.error.injEq] at h
    exact Or.inr (Or.inl ⟨hst, h.symm⟩)
  rename_i showtime hst
  split at h
  · rename_i m hm
    simp only [Except.error.injEq] at h
    exact Or.inl ⟨_, m, hm, h.symm⟩
  simp only at h
  split at h
  · rename_i hlen
    simp only [Except.error.injEq] at h
    exact Or.inr (Or.inr (Or.inl ⟨showtime, hst, hlen, h.symm⟩))
  rename_i hlen
  have hlen2 : (findSeats s seatIds showtime.theaterId).length = seatIds.length := by
    simpa using hlen
  split at h
  · rename_i m hm
    simp only [Except.error.injEq] at h
    exact Or.inl ⟨_, m, hm, h.symm⟩
  split at h
  · rename_i hex
    simp only [Except.error.injEq] at h
    refine Or.inr (Or.inr (Or.inr ⟨showtime, hst, hlen2, ?_, h.symm⟩))
    intro hnil
    rw [hnil] at hex
    simp at hex
  split at h
  · rename_i m hm
    simp only [Except.error.injEq] at h
    exact Or.inl ⟨_, m, hm, h.symm⟩
  split at h
  · rename_i m hm
    simp only [Except.error.injEq] at h
    exact Or.inl ⟨_, m, hm, h.symm⟩
  · simp at h

/-- A call on an empty seat list throws before anything else. -/
theorem createReservation_nil (s : Store) (env : Env) (userId showtimeId : Nat) :
    createReservation s env userId showtimeId [] = (.error .noSeatSelected, s) := by
  simp [createReservation]

/-- A call whose transaction body throws rolls back and throws. -/
theorem createReservation_of_body_error {s : Store} {env : Env} {userId showtimeId : Nat}
    {seatIds : List Nat} {e : ReservationError}
    (h : transactionBody s env userId showtimeId seatIds = .error e) :
    ∃ e2, createReservation s env userId showtimeId seatIds = (.error e2, s) := by
  unfold createReservation
  split
  · exact ⟨_, rfl⟩
  split
  · exact ⟨_, rfl⟩
  rw [h]
  exact ⟨_, rfl⟩

/-- A call when every store operation answers. -/
theorem createReservation_of_no_fault {s : Store} {env : Env} (henv : env.fault = none)
    (userId showtimeId : Nat) {seatIds : List Nat} (hne : seatIds ≠ []) :
    createReservation s env userId showtimeId seatIds =
      match transactionBody s env userId showtimeId seatIds with
      | .error e => (.error e, s)
      | .ok (c, r) => (.ok (findReservationByPk c r.id), c) := by
  have hlen : ¬ seatIds.length = 0 := by
    intro h0
    exact hne (List.length_eq_zero.1 h0)
  unfold createReservation
  rw [if_neg hlen]
  simp only [Env.failure_of_no_fault henv]

/-- The error of a call that throws `already reserved` lists the seat ids of
the rows the claim query returned. -/
theorem createReservation_alreadyReserved {s : Store} {env : Env} {userId showtimeId : Nat}
    {seatIds ids : List Nat}
    (h : (createReservation s env userId showtimeId seatIds).1 = .error (.alreadyReserved ids)) :
    ids = (findActiveReservedSeats s seatIds showtimeId).map (fun rs => rs.seatId) ∧
      findActiveReservedSeats s seatIds showtimeId ≠ [] ∧
      ∃ showtime, findShowtimeByPk s showtimeId = some showtime ∧
        (findSeats s seatIds showtime.theaterId).length = seatIds.length := by
  have hgoal : ∀ x, createReservation s env userId showtimeId seatIds = x →
      x.1 = .error (.alreadyReserved ids) →
      ids = (findActiveReservedSeats s seatIds showtimeId).map (fun rs => rs.seatId) ∧
      findActiveReservedSeats s seatIds showtimeId ≠ [] ∧
      ∃ showtime, findShowtimeByPk s showtimeId = some showtime ∧
        (findSeats s seatIds showtime.theaterId).length = seatIds.length := by
    intro x hx hres
    unfold createReservation at hx
    split at hx
    · subst hx; simp at hres
    split at hx
    · subst hx; simp at hres
    split at hx
    · rename_i e hbody
      subst hx
      simp only [Except.error.injEq] at hres
      subst hres
      rcases transactionBody_error hbody with ⟨_, m, _, hm⟩ | ⟨_, hm⟩ | ⟨_, _, _, hm⟩ |
        ⟨showtime, hst, hlen, hnil, hm⟩
      · simp at hm
      · simp at hm
      · simp at hm
      · simp only [ReservationError.alreadyReserved.injEq] at hm
        exact ⟨hm, hnil, showtime, hst, hlen⟩
    split at hx
    · subst hx; simp at hres
    · subst hx; simp at hres
  exact hgoal _ rfl h

/-! ## Preservation under the inserts -/

theorem insertAll_seats (s : Store) (r : Reservation) (seatIds : List Nat) :
    (insertAll s r seatIds).seats = s.seats := rfl

theorem reservationIdsIssued_insertAll {s : Store} (hiss : ReservationIdsIssued s)
    {r : Reservation} (hr : r.id = s.nextReservationId) (seatIds : List Nat) :
    ReservationIdsIssued (insertAll s r seatIds) := by
  constructor
  · intro r2 hr2
    simp only [insertAll, List.mem_append, List.mem_singleton] at hr2 ⊢
    rcases hr2 with h | h
    · have := hiss.1 r2 h
      omega
    · subst h
      omega
  · intro rs hrs
    simp only [insertAll, List.mem_append] at hrs ⊢
    rcases hrs with h | h
    · have := hiss.2 rs h
      omega
    · have := (mem_newReservedSeats h).1
      omega

/-- The inserts of a committed call keep at most one active claim per
showtime and seat. -/
theorem atMostOneActiveClaim_insertAll {s : Store} (hinv : AtMostOneActiveClaim s)
    (hiss : ReservationIdsIssued s) {r : Reservation} (hr : r.id = s.nextReservationId)
    {seatIds : List Nat} (hnd : seatIds.Nodup)
    (hfree : findActiveReservedSeats s seatIds r.showtimeId = []) :
    AtMostOneActiveClaim (insertAll s r seatIds) := by
  intro showtimeId x
  rw [activeClaims_insertAll_length hiss hr]
  split
  · rename_i hc
    by_cases hx : x ∈ seatIds
    · have hnone : activeClaims s showtimeId x = [] := by
        rw [activeClaims_eq_nil_iff]
        intro hact
        rw [hc.1] at hfree
        exact (findActiveReservedSeats_eq_nil_iff.1 hfree) ⟨x, hx, hact⟩
      rw [hnone]
      have := List.nodup_iff_count_le_one.1 hnd x
      simpa using this
    · rw [List.count_eq_zero_of_not_mem hx]
      exact hinv showtimeId x
  · exact hinv showtimeId x

/-! ## The scenario stores -/

theorem seatIdsUnique_cinema : SeatIdsUnique cinema := by
  unfold SeatIdsUnique
  decide

theorem reservationIdsIssued_cinema : ReservationIdsIssued cinema := by
  unfold ReservationIdsIssued
  decide

theorem atMostOneActiveClaim_cinema : AtMostOneActiveClaim cinema := by
  intro showtimeId seatId
  simp [activeClaims, cinema]

theorem cinemaBooked_eq :
    cinemaBooked = insertAll cinema (newReservation cinema quiet 7 1 20) [1, 2] := by
  decide

theorem seatIdsUnique_cinemaBooked : SeatIdsUnique cinemaBooked := by
  unfold SeatIdsUnique
  decide

theorem atMostOneActiveClaim_cinemaBooked : AtMostOneActiveClaim cinemaBooked := by
  rw [cinemaBooked_eq]
  exact atMostOneActiveClaim_insertAll atMostOneActiveClaim_cinema reservationIdsIssued_cinema
    rfl (by decide) (by decide)

/-! ## A call that returns -/

/-- The store a returning call leaves, and the value it returns. -/
theorem createReservation_ok_store {s : Store} {env : Env} {userId showtimeId : Nat}
    {seatIds : List Nat} {v : Option ReservationView}
    (h : (createReservation s env userId showtimeId seatIds).1 = .ok v) :
    (createReservation s env userId showtimeId seatIds).2 =
        insertAll s (newReservation s env userId showtimeId (seatIds.length * pricePerSeat))
          seatIds ∧
      v = findReservationByPk (createReservation s env userId showtimeId seatIds).2
        s.nextReservationId ∧
      ∃ showtime, findShowtimeByPk s showtimeId = some showtime ∧
        (findSeats s seatIds showtime.theaterId).length = seatIds.length := by
  obtain ⟨_, c, r, hbody, hc, hv⟩ := createReservation_ok h
  obtain ⟨showtime, hst, hlen, _, hr, hins⟩ := transactionBody_ok hbody
  rw [hc, hins, hr]
  refine ⟨rfl, ?_, showtime, hst, hlen⟩
  rw [hv, hins, hr]
  rfl

theorem filter_reservationId_insertAll {s : Store} (hiss : ReservationIdsIssued s)
    {r : Reservation} (hr : r.id = s.nextReservationId) (seatIds : List Nat) :
    (insertAll s r seatIds).reservedSeats.filter (fun rs => rs.reservationId == r.id) =
      newReservedSeats s.nextReservedSeatId r.id seatIds := by
  simp only [insertAll, List.filter_append]
  have hold : s.reservedSeats.filter (fun rs => rs.reservationId == r.id) = [] := by
    rw [List.filter_eq_nil_iff]
    intro rs hrs
    have := hiss.2 rs hrs
    have hne : rs.reservationId ≠ r.id := by omega
    simpa using hne
  have hnew : (newReservedSeats s.nextReservedSeatId r.id seatIds).filter
      (fun rs => rs.reservationId == r.id) =
      newReservedSeats s.nextReservedSeatId r.id seatIds := by
    rw [List.filter_eq_self]
    intro rs hrs
    simpa using (mem_newReservedSeats hrs).1
  rw [hold, hnew, List.nil_append]

theorem findReservationByPk_insertAll {s : Store} (hiss : ReservationIdsIssued s)
    {r : Reservation} (hr : r.id = s.nextReservationId) (seatIds : List Nat) :
    findReservationByPk (insertAll s r seatIds) s.nextReservationId =
      some { reservation := r
             reservedSeats := newReservedSeats s.nextReservedSeatId r.id seatIds } := by
  have hfind : (insertAll s r seatIds).reservations.find?
      (fun x => x.id == s.nextReservationId) = some r := by
    simp only [insertAll, List.find?_append]
    have hold : s.reservations.find? (fun x => x.id == s.nextReservationId) = none := by
      rw [List.find?_eq_none]
      intro x hx
      have := hiss.1 x hx
      have hne : x.id ≠ s.nextReservationId := by omega
      simpa using hne
    rw [hold]
    simp [hr]
  unfold findReservationByPk
  rw [hfind]
  simp only [Option.map_some']
  rw [filter_reservationId_insertAll hiss hr]

/-! ## The messages the controller tests -/

theorem includes_showtimeNotFound :
    includes ReservationError.showtimeNotFound.message "not found" = true := by
  decide

theorem includes_invalidSeats :
    includes ReservationError.invalidSeats.message "invalid" = true := by
  decide

/-- With unique seat ids and every store operation answering, a request that
repeats a seat id meets one of two errors. -/
theorem createReservation_duplicates {s : Store} {env : Env} (hseats : SeatIdsUnique s)
    (henv : env.fault = none) (userId showtimeId : Nat) {seatIds : List Nat}
    (hdup : ¬ seatIds.Nodup) :
    createReservation s env userId showtimeId seatIds = (.error .showtimeNotFound, s) ∨
      createReservation s env userId showtimeId seatIds = (.error .invalidSeats, s) := by
  have hne : seatIds ≠ [] := by
    intro h0
    exact hdup (h0 ▸ List.nodup_nil)
  rw [createReservation_of_no_fault henv userId showtimeId hne,
    transactionBody_of_no_fault henv]
  cases hst : findShowtimeByPk s showtimeId with
  | none => exact Or.inl rfl
  | some showtime =>
    have hlen : (findSeats s seatIds showtime.theaterId).length ≠ seatIds.length := by
      intro hlen
      exact hdup (findSeats_length_eq hseats hlen).1
    simp only [if_pos hlen]
    exact Or.inr trivial

/-- A request that repeats a seat id never commits, whatever the store
operations do. -/
theorem createReservation_duplicates_error {s : Store} (env : Env) (hseats : SeatIdsUnique s)
    (userId showtimeId : Nat) {seatIds : List Nat} (hdup : ¬ seatIds.Nodup) :
    ∃ e, createReservation s env userId showtimeId seatIds = (.error e, s) := by
  cases hbody : transactionBody s env userId showtimeId seatIds with
  | error e => exact createReservation_of_body_error hbody
  | ok p =>
    obtain ⟨showtime, _, hlen, _⟩ := transactionBody_ok (c := p.1) (r := p.2) hbody
    exact absurd (findSeats_length_eq hseats hlen).1 hdup

/-! ## The controller on a failed call -/

/-- The response of `create` to a `not found` or `invalid` error. -/
theorem create_of_not_found {s : Store} {env : Env} {userId showtimeId : Nat}
    {seatIds : List Nat} (hu : userId ≠ 0) (hst : showtimeId ≠ 0) (hne : seatIds ≠ [])
    {e : ReservationError} {s2 : Store}
    (hcr : createReservation s env userId showtimeId seatIds = (.error e, s2))
    (hmsg : (includes e.message "not found" || includes e.message "invalid") = true) :
    create s env userId showtimeId seatIds =
      ({ status := 404, message := some e.message, body := none }, s2) := by
  have hlen : ¬ seatIds.length = 0 := by
    intro h0
    exact hne (List.length_eq_zero.1 h0)
  unfold create
  rw [if_neg hu, if_neg (by simp [hst, hlen]), hcr]
  simp only [hmsg, if_true]

/-- The response of `create` to an empty seat list. -/
theorem create_nil (s : Store) (env : Env) {userId : Nat} (hu : userId ≠ 0)
    (showtimeId : Nat) :
    (create s env userId showtimeId []).1.status = 400 ∧
      (create s env userId showtimeId []).2 = s := by
  unfold create
  rw [if_neg hu, if_pos (by simp)]
  exact ⟨rfl, rfl⟩

/-- The store `create` leaves is the store `createReservation` leaves, or the
store it found when it answers without calling the service. -/
theorem create_store (s : Store) (env : Env) (userId showtimeId : Nat) (seatIds : List Nat) :
    (create s env userId showtimeId seatIds).2 = s ∨
      (create s env userId showtimeId seatIds).2 =
        (createReservation s env userId showtimeId seatIds).2 := by
  unfold create
  split
  · exact Or.inl rfl
  split
  · exact Or.inl rfl
  split
  · rename_i h
    rw [h]
    exact Or.inr rfl
  · rename_i h
    rw [h]
    split
    · exact Or.inr rfl
    split
    · exact Or.inr rfl
    · exact Or.inr rfl

/-! ## Requests naming an invalid seat -/

/-- With unique seat ids and every store operation answering, a request for
an existing showtime naming an id that is not a seat of its theater meets the
`invalid for this theater` error. -/
theorem createReservation_invalidSeats_of_no_fault {s : Store} {env : Env}
    (hseats : SeatIdsUnique s) (henv : env.fault = none) (userId showtimeId : Nat)
    {seatIds : List Nat} {showtime : Showtime}
    (hst : findShowtimeByPk s showtimeId = some showtime)
    (hbad : ∃ x ∈ seatIds,
      ¬ ∃ seat ∈ s.seats, seat.id = x ∧ seat.theaterId = showtime.theaterId) :
    createReservation s env userId showtimeId seatIds = (.error .invalidSeats, s) := by
  have hlen : (findSeats s seatIds showtime.theaterId).length ≠ seatIds.length := by
    intro hlen
    obtain ⟨x, hx, hno⟩ := hbad
    exact hno ((findSeats_length_eq hseats hlen).2 x hx)
  have hne : seatIds ≠ [] := by
    rintro rfl
    obtain ⟨x, hx, _⟩ := hbad
    simp at hx
  rw [createReservation_of_no_fault henv userId showtimeId hne,
    transactionBody_of_no_fault henv, hst]
  simp only [if_pos hlen]

/-- With unique seat ids and every store operation answering, a request for
one seat of the theater of an existing showtime returns exactly when the seat
has no active claim for that showtime. -/
theorem createReservation_single_seat {s : Store} {env : Env}
    (hseats : SeatIdsUnique s) (henv : env.fault = none) (userId showtimeId : Nat)
    {showtime : Showtime} (hst : findShowtimeByPk s showtimeId = some showtime)
    {seat : Seat} (hmem : seat ∈ s.seats) (hth : seat.theaterId = showtime.theaterId) :
    Succeeds (createReservation s env userId showtimeId [seat.id]).1 ↔
      ¬ HasActiveClaim s showtimeId seat.id := by
  have hlen : (findSeats s [seat.id] showtime.theaterId).length = [seat.id].length :=
    findSeats_length_of_valid hseats (List.nodup_singleton _)
      (by
        intro x hx
        rw [List.mem_singleton] at hx
        exact ⟨seat, hmem, hx.symm, hth⟩)
  have hcr := createReservation_of_no_fault (s := s) henv userId showtimeId
    (List.cons_ne_nil seat.id [])
  rw [transactionBody_of_no_fault henv, hst] at hcr
  simp only [hlen, ne_eq, not_true_eq_false, if_false] at hcr
  have hiff : findActiveReservedSeats s [seat.id] showtimeId = [] ↔
      ¬ HasActiveClaim s showtimeId seat.id := by
    rw [findActiveReservedSeats_eq_nil_iff]
    simp
  by_cases hact : HasActiveClaim s showtimeId seat.id
  · have hnil : findActiveReservedSeats s [seat.id] showtimeId ≠ [] := fun h0 => hiff.1 h0 hact
    rw [if_pos (List.length_pos.2 hnil)] at hcr
    rw [hcr]
    constructor
    · rintro ⟨v, hv⟩
      simp at hv
    · intro hno
      exact absurd hact hno
  · have hnil := hiff.2 hact
    have hpos : ¬ (findActiveReservedSeats s [seat.id] showtimeId).length > 0 := by
      simp [hnil]
    rw [if_neg hpos] at hcr
    rw [hcr]
    exact ⟨fun _ => hact, fun _ => ⟨_, rfl⟩⟩

/-! ## Reading and cancelling a reservation -/

theorem findReservationByPk_eq (s : Store) (reservationId : Nat) :
    findReservationByPk s reservationId =
      (s.reservations.find? (fun r => r.id == reservationId)).map (viewOf s) := rfl

theorem find?_id_some {l : List Reservation} {reservationId : Nat} {r : Reservation}
    (h : l.find? (fun r => r.id == reservationId) = some r) :
    r ∈ l ∧ r.id = reservationId := by
  refine ⟨List.mem_of_find?_eq_some h, ?_⟩
  have := List.find?_some h
  simpa using this

theorem find?_id_none {l : List Reservation} {reservationId : Nat} :
    l.find? (fun r => r.id == reservationId) = none ↔ ∀ r ∈ l, r.id ≠ reservationId := by
  rw [List.find?_eq_none]
  simp

/-- The primary-key lookup after the status of that key was saved. -/
theorem find?_saveStatus (s : Store) (reservationId : Nat) (status : ReservationStatus) :
    (saveStatus s reservationId status).reservations.find? (fun r => r.id == reservationId) =
      (s.reservations.find? (fun r => r.id == reservationId)).map
        (fun r => { r with status := status }) := by
  unfold saveStatus
  simp only
  induction s.reservations with
  | nil => rfl
  | cons r rest ih =>
    by_cases hr : r.id = reservationId
    · simp [List.find?, hr]
    · have hb : (r.id == reservationId) = false := by simpa using hr
      simp only [List.map_cons, if_neg hr, List.find?, hb]
      exact ih

/-- Function `getReservationById` by cases on the row found. -/
theorem getReservationById_eq (s : Store) (reservationId requestingUserId : Nat)
    (requestingUserRole : String) :
    getReservationById s reservationId requestingUserId requestingUserRole =
      match s.reservations.find? (fun r => r.id == reservationId) with
      | none => (.error { status := 404, message := "Reservation not found." }, s)
      | some r =>
        if r.userId ≠ requestingUserId ∧ requestingUserRole ≠ "admin" then
          (.error { status := 403,
                    message := "Forbidden: You do not have permission to view this reservation." },
            s)
        else (.ok (viewOf s r), s) := by
  unfold getReservationById
  rw [findReservationByPk_eq]
  cases s.reservations.find? (fun r => r.id == reservationId) with
  | none => rfl
  | some r => rfl

theorem cancelFault_failure_none (op : CancelOp) : CancelFault.failure none op = none := rfl

/-- Function `cancelReservation` by cases on the operation that rejects and on
the row found: the re-fetch after the save passes the ownership test the call
has passed, so it returns the row with the status saved. -/
theorem cancelReservation_fault_eq (s : Store) (fault : Option CancelFault)
    (reservationId requestingUserId : Nat) (requestingUserRole : String) :
    cancelReservation s fault reservationId requestingUserId requestingUserRole =
      match CancelFault.failure fault CancelOp.findReservation with
      | some m => (.error (.storeFailure m), s)
      | none =>
      match s.reservations.find? (fun r => r.id == reservationId) with
      | none => (.error (.http { status := 404, message := "Reservation not found." }), s)
      | some r =>
        if r.userId ≠ requestingUserId ∧ requestingUserRole ≠ "admin" then
          (.error (.http
            { status := 403,
              message := "Forbidden: You do not have permission to cancel this reservation." }),
            s)
        else if r.status = ReservationStatus.cancelled then
          (.error (.http { status := 400, message := "Reservation is already cancelled." }), s)
        else
          match CancelFault.failure fault CancelOp.saveReservation with
          | some m => (.error (.storeFailure m), s)
          | none =>
          match CancelFault.failure fault CancelOp.reloadReservation with
          | some m =>
              (.error (.storeFailure m), saveStatus s reservationId ReservationStatus.cancelled)
          | none =>
              (.ok (viewOf s { r with status := ReservationStatus.cancelled }),
                saveStatus s reservationId ReservationStatus.cancelled) := by
  unfold cancelReservation
  cases CancelFault.failure fault CancelOp.findReservation with
  | some m => rfl
  | none =>
    simp only
    cases hfind : s.reservations.find? (fun r => r.id == reservationId) with
    | none => rfl
    | some r =>
      simp only
      have hid := (find?_id_some hfind).2
      subst hid
      by_cases hauth : r.userId ≠ requestingUserId ∧ requestingUserRole ≠ "admin"
      · rw [if_pos hauth, if_pos hauth]
      · rw [if_neg hauth, if_neg hauth]
        by_cases hstatus : r.status = ReservationStatus.cancelled
        · rw [if_pos hstatus, if_pos hstatus]
        · rw [if_neg hstatus, if_neg hstatus]
          cases CancelFault.failure fault CancelOp.saveReservation with
          | some m => rfl
          | none =>
            simp only
            cases CancelFault.failure fault CancelOp.reloadReservation with
            | some m => rfl
            | none =>
              simp only
              rw [getReservationById_eq, find?_saveStatus, hfind]
              simp only [Option.map_some']
              rw [if_neg hauth]
              rfl

/-- A cancellation whose every store operation answers and that passes the
three guards saves the status and returns the re-fetched row. -/
theorem cancelReservation_of_found {s : Store} {reservationId requestingUserId : Nat}
    {requestingUserRole : String} {r : Reservation}
    (hfind : s.reservations.find? (fun r => r.id == reservationId) = some r)
    (hauth : ¬ (r.userId ≠ requestingUserId ∧ requestingUserRole ≠ "admin"))
    (hstatus : r.status ≠ ReservationStatus.cancelled) :
    cancelReservation s none reservationId requestingUserId requestingUserRole =
      (.ok (viewOf s { r with status := ReservationStatus.cancelled }),
        saveStatus s reservationId ReservationStatus.cancelled) := by
  rw [cancelReservation_fault_eq, hfind]
  simp only [cancelFault_failure_none, if_neg hauth, if_neg hstatus]

/-- Function `cancelReservation` when every store operation answers, by cases
on the row found. -/
theorem cancelReservation_eq (s : Store) (reservationId requestingUserId : Nat)
    (requestingUserRole : String) :
    cancelReservation s none reservationId requestingUserId requestingUserRole =
      match s.reservations.find? (fun r => r.id == reservationId) with
      | none => (.error (.http { status := 404, message := "Reservation not found." }), s)
      | some r =>
        if r.userId ≠ requestingUserId ∧ requestingUserRole ≠ "admin" then
          (.error (.http
            { status := 403,
              message := "Forbidden: You do not have permission to cancel this reservation." }),
            s)
        else if r.status = ReservationStatus.cancelled then
          (.error (.http { status := 400, message := "Reservation is already cancelled." }), s)
        else
          (.ok (viewOf s { r with status := ReservationStatus.cancelled }),
            saveStatus s reservationId ReservationStatus.cancelled) := by
  rw [cancelReservation_fault_eq]
  rfl

theorem saveStatus_reservations (s : Store) (reservationId : Nat) (status : ReservationStatus) :
    (saveStatus s reservationId status).reservations =
      s.reservations.map (fun r =>
        if r.id = reservationId then { r with status := status } else r) := rfl

/-- With unique reservation ids, saving the status of a row found by its
primary key changes that row in place and no other. -/
theorem saveStatus_split {s : Store} (huniq : ReservationIdsUnique s) {reservationId : Nat}
    {r : Reservation} (hfind : s.reservations.find? (fun r => r.id == reservationId) = some r)
    (status : ReservationStatus) :
    ∃ front back, s.reservations = front ++ r :: back ∧
      (saveStatus s reservationId status).reservations =
        front ++ { r with status := status } :: back := by
  have hid := (find?_id_some hfind).2
  obtain ⟨front, back, hsplit⟩ := List.append_of_mem (find?_id_some hfind).1
  refine ⟨front, back, hsplit, ?_⟩
  unfold ReservationIdsUnique at huniq
  rw [hsplit, List.map_append, List.map_cons, List.nodup_append] at huniq
  obtain ⟨_, hback, hdisj⟩ := huniq
  rw [List.nodup_cons] at hback
  have hfront : ∀ x ∈ front, x.id ≠ reservationId := by
    intro x hx hxid
    exact hdisj (List.mem_map.2 ⟨x, hx, rfl⟩) (by rw [hxid, ← hid]; exact List.mem_cons_self _ _)
  have hbackne : ∀ x ∈ back, x.id ≠ reservationId := by
    intro x hx hxid
    exact hback.1 (by rw [hid, ← hxid]; exact List.mem_map.2 ⟨x, hx, rfl⟩)
  have hmap : ∀ l : List Reservation, (∀ x ∈ l, x.id ≠ reservationId) →
      l.map (fun x => if x.id = reservationId then { x with status := status } else x) = l := by
    intro l hl
    induction l with
    | nil => rfl
    | cons x rest ih =>
      rw [List.map_cons, if_neg (hl x (List.mem_cons_self _ _)),
        ih (fun y hy => hl y (List.mem_cons_of_mem _ hy))]
  rw [saveStatus_reservations, hsplit, List.map_append, List.map_cons, if_pos hid,
    hmap front hfront, hmap back hbackne]

/-! ## Allocation after a cancellation -/

/-- With unique seat ids and every store operation answering, a non-empty
duplicate-free request for seats of the theater of an existing showtime
returns when no requested seat has an active claim for the showtime. -/
theorem createReservation_succeeds_of_free {s : Store} {env : Env}
    (hseats : SeatIdsUnique s) (henv : env.fault = none) (userId showtimeId : Nat)
    {seatIds : List Nat} {showtime : Showtime}
    (hst : findShowtimeByPk s showtimeId = some showtime)
    (hne : seatIds ≠ []) (hnd : seatIds.Nodup)
    (hall : ∀ x ∈ seatIds, ∃ seat ∈ s.seats, seat.id = x ∧ seat.theaterId = showtime.theaterId)
    (hfree : ¬ ∃ x ∈ seatIds, HasActiveClaim s showtimeId x) :
    Succeeds (createReservation s env userId showtimeId seatIds).1 := by
  have hlen := findSeats_length_of_valid hseats hnd hall
  have hcr := createReservation_of_no_fault (s := s) henv userId showtimeId hne
  rw [transactionBody_of_no_fault henv, hst] at hcr
  simp only [hlen, ne_eq, not_true_eq_false, if_false] at hcr
  have hnil := findActiveReservedSeats_eq_nil_iff.2 hfree
  have hpos : ¬ (findActiveReservedSeats s seatIds showtimeId).length > 0 := by
    simp [hnil]
  rw [if_neg hpos] at hcr
  rw [hcr]
  exact ⟨_, rfl⟩

theorem mem_seatsOf {s : Store} {reservationId x : Nat} :
    x ∈ seatsOf s reservationId ↔
      ∃ rs ∈ s.reservedSeats, rs.reservationId = reservationId ∧ rs.seatId = x := by
  simp [seatsOf, List.mem_filter, and_assoc]

theorem eq_of_mem_of_length_le_one {α : Type} {l : List α} (h : l.length ≤ 1) {a b : α}
    (ha : a ∈ l) (hb : b ∈ l) : a = b := by
  match l, h with
  | [], _ => simp at ha
  | [c], _ =>
    rw [List.mem_singleton] at ha hb
    rw [ha, hb]
  | _ :: _ :: _, h => simp at h

/-- A row of the table after the status of an id was saved as cancelled that
is not cancelled was in the table before, under another id. -/
theorem mem_saveStatus_cancelled {s : Store} {reservationId : Nat} {r : Reservation}
    (hr : r ∈ (saveStatus s reservationId ReservationStatus.cancelled).reservations)
    (hst : r.status ≠ ReservationStatus.cancelled) :
    r ∈ s.reservations ∧ r.id ≠ reservationId := by
  rw [saveStatus_reservations, List.mem_map] at hr
  obtain ⟨r0, hr0, heq⟩ := hr
  by_cases hid : r0.id = reservationId
  · rw [if_pos hid] at heq
    rw [← heq] at hst
    exact absurd rfl hst
  · rw [if_neg hid] at heq
    rw [← heq]
    exact ⟨hr0, hid⟩

/-- With at most one active claim per showtime and seat, the seats of a
reservation that was not cancelled have no active claim for its showtime once
the status of its id is saved as cancelled. -/
theorem no_active_claim_after_cancel {s : Store} (hinv : AtMostOneActiveClaim s)
    {r : Reservation} (hr : r ∈ s.reservations)
    (hst : r.status ≠ ReservationStatus.cancelled) {x : Nat} (hx : x ∈ seatsOf s r.id) :
    ¬ HasActiveClaim (saveStatus s r.id ReservationStatus.cancelled) r.showtimeId x := by
  rintro ⟨rs, hrs, hseat, r2, hr2, hid2, hshow2, hst2⟩
  obtain ⟨hr2mem, hr2id⟩ := mem_saveStatus_cancelled hr2 hst2
  obtain ⟨rsR, hrsR, hrsRid, hrsRseat⟩ := mem_seatsOf.1 hx
  have hrs' : rs ∈ s.reservedSeats := hrs
  have h1 : rs ∈ activeClaims s r.showtimeId x :=
    mem_activeClaims.2 ⟨hrs', hseat, isActiveFor_iff.2 ⟨r2, hr2mem, hid2, hshow2, hst2⟩⟩
  have h2 : rsR ∈ activeClaims s r.showtimeId x :=
    mem_activeClaims.2 ⟨hrsR, hrsRseat, isActiveFor_iff.2 ⟨r, hr, hrsRid.symm, rfl, hst⟩⟩
  have heq := eq_of_mem_of_length_le_one (hinv r.showtimeId x) h1 h2
  apply hr2id
  rw [hid2, heq, hrsRid]

/-! ## Status transitions -/

theorem StatusStep.cancelled_fixed {a b : Reservation} (h : StatusStep a b)
    (ha : a.status = ReservationStatus.cancelled) : b = a := by
  rcases h with h | ⟨hne, _⟩
  · exact h
  · exact absurd ha hne

theorem StatusStep.pending_kept {a b : Reservation} (h : StatusStep a b)
    (hb : b.status = ReservationStatus.pending) : b = a := by
  rcases h with h | ⟨_, h⟩
  · exact h
  · rw [h] at hb
    simp at hb

theorem forall₂_statusStep_refl (l : List Reservation) : List.Forall₂ StatusStep l l := by
  induction l with
  | nil => exact List.Forall₂.nil
  | cons r rest ih => exact List.Forall₂.cons (Or.inl rfl) ih

theorem statusMonotone_refl (l : List Reservation) : StatusMonotone l l :=
  ⟨l, [], by simp, forall₂_statusStep_refl l, by simp⟩

theorem statusMonotone_insertAll (s : Store) (env : Env) (userId showtimeId totalPrice : Nat)
    (seatIds : List Nat) :
    StatusMonotone s.reservations
      (insertAll s (newReservation s env userId showtimeId totalPrice) seatIds).reservations := by
  refine ⟨s.reservations, [newReservation s env userId showtimeId totalPrice], rfl,
    forall₂_statusStep_refl _, ?_⟩
  intro r hr
  rw [List.mem_singleton] at hr
  rw [hr]
  simp [newReservation]

theorem statusMonotone_saveStatus (s : Store) (reservationId : Nat) :
    StatusMonotone s.reservations
      (saveStatus s reservationId ReservationStatus.cancelled).reservations := by
  refine ⟨_, [], by rw [List.append_nil], ?_, by simp⟩
  rw [saveStatus_reservations]
  induction s.reservations with
  | nil => exact List.Forall₂.nil
  | cons r rest ih =>
    rw [List.map_cons]
    refine List.Forall₂.cons ?_ ih
    by_cases hid : r.id = reservationId
    · rw [if_pos hid]
      by_cases hst : r.status = ReservationStatus.cancelled
      · left
        rw [← hst]
      · exact Or.inr ⟨hst, rfl⟩
    · rw [if_neg hid]
      exact Or.inl rfl

/-- The store `cancelReservation` leaves: the one it found, or that one with
the status of the id saved as cancelled. -/
theorem cancelReservation_store (s : Store) (fault : Option CancelFault)
    (reservationId requestingUserId : Nat) (requestingUserRole : String) :
    (cancelReservation s fault reservationId requestingUserId requestingUserRole).2 = s ∨
      (cancelReservation s fault reservationId requestingUserId requestingUserRole).2 =
        saveStatus s reservationId ReservationStatus.cancelled := by
  rw [cancelReservation_fault_eq]
  cases CancelFault.failure fault CancelOp.findReservation with
  | some m => exact Or.inl rfl
  | none =>
    cases s.reservations.find? (fun r => r.id == reservationId) with
    | none => exact Or.inl rfl
    | some r =>
      by_cases hauth : r.userId ≠ requestingUserId ∧ requestingUserRole ≠ "admin"
      · simp only [if_pos hauth]
        exact Or.inl trivial
      · by_cases hst : r.status = ReservationStatus.cancelled
        · simp only [if_neg hauth, if_pos hst]
          exact Or.inl trivial
        · simp only [if_neg hauth, if_neg hst]
          cases CancelFault.failure fault CancelOp.saveReservation with
          | some m => exact Or.inl rfl
          | none =>
            cases CancelFault.failure fault CancelOp.reloadReservation with
            | some m => exact Or.inr rfl
            | none => exact Or.inr rfl

/-- A call of `cancelReservation` that returns found a row that passes the
three guards, saved its status and returned it. -/
theorem cancelReservation_of_ok {s : Store} {fault : Option CancelFault}
    {reservationId requestingUserId : Nat} {requestingUserRole : String} {v : ReservationView}
    (h : (cancelReservation s fault reservationId requestingUserId requestingUserRole).1 =
      .ok v) :
    ∃ r, s.reservations.find? (fun r => r.id == reservationId) = some r ∧
      ¬ (r.userId ≠ requestingUserId ∧ requestingUserRole ≠ "admin") ∧
      r.status ≠ ReservationStatus.cancelled ∧
      cancelReservation s fault reservationId requestingUserId requestingUserRole =
        (.ok (viewOf s { r with status := ReservationStatus.cancelled }),
          saveStatus s reservationId ReservationStatus.cancelled) := by
  rw [cancelReservation_fault_eq] at h ⊢
  cases hf : CancelFault.failure fault CancelOp.findReservation with
  | some m => rw [hf] at h; cases h
  | none =>
    rw [hf] at h
    cases hfind : s.reservations.find? (fun r => r.id == reservationId) with
    | none => rw [hfind] at h; cases h
    | some r =>
      rw [hfind] at h
      by_cases hauth : r.userId ≠ requestingUserId ∧ requestingUserRole ≠ "admin"
      · simp only [if_pos hauth] at h
        cases h
      · by_cases hst : r.status = ReservationStatus.cancelled
        · simp only [if_neg hauth, if_pos hst] at h
          cases h
        · simp only [if_neg hauth, if_neg hst] at h ⊢
          cases hs : CancelFault.failure fault CancelOp.saveReservation with
          | some m => rw [hs] at h; cases h
          | none =>
            rw [hs] at h
            cases hr : CancelFault.failure fault CancelOp.reloadReservation with
            | some m => rw [hr] at h; cases h
            | none => exact ⟨r, rfl, hauth, hst, rfl⟩

/-- A call of `cancelReservation` that throws while the re-fetch of line 194
answers leaves the store as it found it. -/
theorem cancelReservation_error_store {s : Store} {fault : Option CancelFault}
    {reservationId requestingUserId : Nat} {requestingUserRole : String} {e : CancelError}
    (h : (cancelReservation s fault reservationId requestingUserId requestingUserRole).1 =
      .error e)
    (hreload : CancelFault.failure fault CancelOp.reloadReservation = none) :
    (cancelReservation s fault reservationId requestingUserId requestingUserRole).2 = s := by
  rw [cancelReservation_fault_eq] at h ⊢
  cases hf : CancelFault.failure fault CancelOp.findReservation with
  | some m => rfl
  | none =>
    rw [hf] at h
    cases hfind : s.reservations.find? (fun r => r.id == reservationId) with
    | none => rfl
    | some r =>
      rw [hfind] at h
      by_cases hauth : r.userId ≠ requestingUserId ∧ requestingUserRole ≠ "admin"
      · simp only [if_pos hauth]
      · by_cases hst : r.status = ReservationStatus.cancelled
        · simp only [if_neg hauth, if_pos hst]
        · simp only [if_neg hauth, if_neg hst] at h ⊢
          cases hs : CancelFault.failure fault CancelOp.saveReservation with
          | some m => rfl
          | none =>
            rw [hs, hreload] at h
            cases h

theorem getReservationById_store (s : Store) (reservationId requestingUserId : Nat)
    (requestingUserRole : String) :
    (getReservationById s reservationId requestingUserId requestingUserRole).2 = s := by
  rw [getReservationById_eq]
  cases s.reservations.find? (fun r => r.id == reservationId) with
  | none => rfl
  | some r =>
    by_cases hauth : r.userId ≠ requestingUserId ∧ requestingUserRole ≠ "admin"
    · simp only [if_pos hauth]
    · simp only [if_neg hauth]

/-! ## Deleting and listing -/

/-- Function `deleteReservation` by cases on the row found. -/
theorem deleteReservation_eq (s : Store) (reservationId : Nat) :
    deleteReservation s reservationId =
      match s.reservations.find? (fun r => r.id == reservationId) with
      | none => (.error { status := 404, message := "Reservation not found." }, s)
      | some _ => (.ok (), destroyReservation s reservationId) := by
  unfold deleteReservation
  cases hfind : s.reservations.find? (fun r => r.id == reservationId) with
  | none => rfl
  | some r =>
    simp only
    rw [(find?_id_some hfind).2]

theorem noOrphanClaims_destroyReservation {s : Store} (h : NoOrphanClaims s)
    (reservationId : Nat) : NoOrphanClaims (destroyReservation s reservationId) := by
  intro rs hrs
  simp only [destroyReservation, cascadeReservedSeats, List.mem_filter] at hrs ⊢
  obtain ⟨hmem, hne⟩ := hrs
  obtain ⟨r, hr, hid⟩ := h rs hmem
  refine ⟨r, ⟨hr, ?_⟩, hid⟩
  rw [hid]
  exact hne

theorem mostRecentFirst_total (a b : Reservation) : mostRecentFirst a b ∨ mostRecentFirst b a := by
  unfold mostRecentFirst
  omega

theorem mostRecentFirst_trans {a b c : Reservation} (hab : mostRecentFirst a b)
    (hbc : mostRecentFirst b c) : mostRecentFirst a c := by
  unfold mostRecentFirst at *
  omega

theorem sorted_insertionSort_mostRecentFirst (l : List Reservation) :
    (l.insertionSort mostRecentFirst).Sorted mostRecentFirst := by
  haveI : IsTotal Reservation mostRecentFirst := ⟨mostRecentFirst_total⟩
  haveI : IsTrans Reservation mostRecentFirst := ⟨fun _ _ _ => mostRecentFirst_trans⟩
  exact List.sorted_insertionSort mostRecentFirst l

/-! ## The overlap condition -/

theorem overlapCondition_iff (s e s2 e2 : Int) :
    overlapCondition s e s2 e2 = true ↔
      (s2 < e ∧ s < s2) ∨ (e2 < e ∧ s < e2) ∨ (s2 ≤ s ∧ e ≤ e2) ∨ (s ≤ s2 ∧ e2 ≤ e) := by
  simp [overlapCondition, or_assoc]

/-- For two intervals that start before they end, the four cases are the
half-open overlap. -/
theorem overlapCondition_iff_halfOpen {s e s2 e2 : Int} (h : s < e) (h2 : s2 < e2) :
    overlapCondition s e s2 e2 = true ↔ s2 < e ∧ s < e2 := by
  rw [overlapCondition_iff]
  omega

/-- The half-open overlap is one of the four cases, whatever the intervals. -/
theorem overlapCondition_of_halfOpen {s e s2 e2 : Int} (h : s2 < e ∧ s < e2) :
    overlapCondition s e s2 e2 = true := by
  rw [overlapCondition_iff]
  omega

theorem checkOverlap_iff (s : Store) (theaterId : Nat) (startTime endTime : Int)
    (excludeShowtimeId : Option Nat) :
    checkOverlap s theaterId startTime endTime excludeShowtimeId = true ↔
      ∃ existing ∈ s.showtimes,
        overlapWhere theaterId startTime endTime excludeShowtimeId existing = true := by
  unfold checkOverlap
  rw [List.find?_isSome]

theorem overlapWhere_none_iff (theaterId : Nat) (startTime endTime : Int) (existing : Showtime) :
    overlapWhere theaterId startTime endTime none existing = true ↔
      existing.theaterId = theaterId ∧
        overlapCondition startTime endTime existing.startTime existing.endTime = true := by
  simp [overlapWhere]

theorem overlapWhere_some_iff (theaterId : Nat) (startTime endTime : Int) {x : Nat}
    (hx : x ≠ 0) (existing : Showtime) :
    overlapWhere theaterId startTime endTime (some x) existing = true ↔
      existing.theaterId = theaterId ∧
        overlapCondition startTime endTime existing.startTime existing.endTime = true ∧
        existing.id ≠ x := by
  simp [overlapWhere, hx, and_assoc]

theorem overlapWhere_some_zero (theaterId : Nat) (startTime endTime : Int)
    (existing : Showtime) :
    overlapWhere theaterId startTime endTime (some 0) existing =
      overlapWhere theaterId startTime endTime none existing := by
  simp [overlapWhere]

/-- With a truthy id, or in a store without a Showtime row of id 0, the
excluded check is the plain check on the store without the rows of that id. -/
theorem checkOverlap_exclude_eq (s : Store) (theaterId : Nat) (startTime endTime : Int)
    (x : Nat) (h : x ≠ 0 ∨ ∀ st ∈ s.showtimes, st.id ≠ 0) :
    checkOverlap s theaterId startTime endTime (some x) =
      checkOverlap (removeShowtime s x) theaterId startTime endTime none := by
  rw [Bool.eq_iff_iff, checkOverlap_iff, checkOverlap_iff]
  by_cases hx : x = 0
  · subst hx
    have hno : ∀ st ∈ s.showtimes, st.id ≠ 0 := by
      rcases h with h | h
      · exact absurd rfl h
      · exact h
    have hsame : (removeShowtime s 0).showtimes = s.showtimes := by
      simp only [removeShowtime]
      rw [List.filter_eq_self]
      intro st hst
      simpa using hno st hst
    rw [hsame]
    simp only [overlapWhere_some_zero]
  · constructor
    · rintro ⟨existing, hmem, hw⟩
      rw [overlapWhere_some_iff _ _ _ hx] at hw
      refine ⟨existing, ?_, (overlapWhere_none_iff _ _ _ _).2 ⟨hw.1, hw.2.1⟩⟩
      simp only [removeShowtime, List.mem_filter]
      exact ⟨hmem, by simpa using hw.2.2⟩
    · rintro ⟨existing, hmem, hw⟩
      simp only [removeShowtime, List.mem_filter] at hmem
      rw [overlapWhere_none_iff] at hw
      refine ⟨existing, hmem.1, (overlapWhere_some_iff _ _ _ hx _).2 ⟨hw.1, hw.2, ?_⟩⟩
      simpa using hmem.2

/-! ## Outcomes of the showtime service -/

/-- Function `createShowtime` for two times that parse. -/
theorem createShowtime_of_dates {inv : Inventory} (movieId theaterId : Nat)
    {startTime endTime : TimeInput} {start finish : Int}
    (hs : startTime.toDate = some start) (he : endTime.toDate = some finish) :
    createShowtime inv movieId theaterId startTime endTime =
      if start ≥ finish then (.error .invalidTime, inv)
      else if movieId ∉ inv.movieIds then (.error .movieNotFound, inv)
      else if theaterId ∉ inv.theaterIds then (.error .theaterNotFound, inv)
      else if checkOverlap inv.toStore theaterId start finish none then (.error .overlaps, inv)
      else
        (.ok { id := inv.nextShowtimeId, movieId := movieId, theaterId := theaterId,
               startTime := start, endTime := finish },
          { inv with
            showtimes := inv.showtimes ++
              [{ id := inv.nextShowtimeId, movieId := movieId, theaterId := theaterId,
                 startTime := start, endTime := finish }]
            nextShowtimeId := inv.nextShowtimeId + 1 }) := by
  unfold createShowtime
  rw [hs, he]

/-- Function `createShowtime` for a time that does not parse. -/
theorem createShowtime_of_invalid {inv : Inventory} (movieId theaterId : Nat)
    {startTime endTime : TimeInput}
    (h : startTime.toDate = none ∨ endTime.toDate = none) :
    createShowtime inv movieId theaterId startTime endTime = (.error .invalidTime, inv) := by
  unfold createShowtime
  rcases h with h | h
  · rw [h]
  · rw [h]
    cases startTime.toDate <;> rfl

/-- The store `createShowtime` leaves: the one it found, or that one with a
row appended that starts before it ends and meets the four-case condition
with no row of its theater. -/
theorem createShowtime_store (inv : Inventory) (movieId theaterId : Nat)
    (startTime endTime : TimeInput) :
    (createShowtime inv movieId theaterId startTime endTime).2 = inv ∨
      ∃ start finish, start < finish ∧
        checkOverlap inv.toStore theaterId start finish none = false ∧
        (createShowtime inv movieId theaterId startTime endTime).2.showtimes =
          inv.showtimes ++
            [{ id := inv.nextShowtimeId, movieId := movieId, theaterId := theaterId,
               startTime := start, endTime := finish }] := by
  cases hs : startTime.toDate with
  | none => exact Or.inl (by rw [createShowtime_of_invalid _ _ (Or.inl hs)])
  | some start =>
    cases he : endTime.toDate with
    | none => exact Or.inl (by rw [createShowtime_of_invalid _ _ (Or.inr he)])
    | some finish =>
      rw [createShowtime_of_dates movieId theaterId hs he]
      by_cases h1 : start ≥ finish
      · rw [if_pos h1]
        exact Or.inl rfl
      · rw [if_neg h1]
        by_cases h2 : movieId ∉ inv.movieIds
        · rw [if_pos h2]
          exact Or.inl rfl
        · rw [if_neg h2]
          by_cases h3 : theaterId ∉ inv.theaterIds
          · rw [if_pos h3]
            exact Or.inl rfl
          · rw [if_neg h3]
            by_cases h4 : checkOverlap inv.toStore theaterId start finish none = true
            · rw [if_pos h4]
              exact Or.inl rfl
            · rw [if_neg h4]
              exact Or.inr ⟨start, finish, by omega, by simpa using h4, rfl⟩

/-- Function `updateShowtime` for a row found and two resulting times that
are dates. -/
theorem updateShowtime_of_found {inv : Inventory} {id : Nat} {updateData : ShowtimeUpdate}
    {stored : Showtime} (hfind : findShowtimeByPk inv.toStore id = some stored)
    {newStart newEnd : Int}
    (hs : newTime updateData.startTime stored.startTime = some newStart)
    (he : newTime updateData.endTime stored.endTime = some newEnd) :
    updateShowtime inv id updateData =
      if newStart ≥ newEnd then (.error .invalidTime, inv)
      else if idChanges updateData.movieId stored.movieId = true ∧
          updateData.movieId.getD stored.movieId ∉ inv.movieIds then (.error .movieNotFound, inv)
      else if idChanges updateData.theaterId stored.theaterId = true ∧
          updateData.theaterId.getD stored.theaterId ∉ inv.theaterIds then
        (.error .theaterNotFound, inv)
      else if checkOverlap inv.toStore (updateData.theaterId.getD stored.theaterId)
          newStart newEnd (some id) then (.error .updatedOverlaps, inv)
      else
        (.ok (findShowtimeByPk
            (saveShowtime inv id (updateData.movieId.getD stored.movieId)
              (updateData.theaterId.getD stored.theaterId) newStart newEnd).toStore id),
          saveShowtime inv id (updateData.movieId.getD stored.movieId)
            (updateData.theaterId.getD stored.theaterId) newStart newEnd) := by
  unfold updateShowtime
  rw [hfind]
  simp only [hs, he]

/-- Function `updateShowtime` for a row found and a resulting time that is an
Invalid Date. -/
theorem updateShowtime_of_invalid {inv : Inventory} {id : Nat} {updateData : ShowtimeUpdate}
    {stored : Showtime} (hfind : findShowtimeByPk inv.toStore id = some stored)
    (h : newTime updateData.startTime stored.startTime = none ∨
      newTime updateData.endTime stored.endTime = none) :
    updateShowtime inv id updateData = (.error .invalidTime, inv) := by
  unfold updateShowtime
  rw [hfind]
  rcases h with h | h
  · simp only [h]
  · simp only [h]
    cases newTime updateData.startTime stored.startTime <;> rfl

/-- Function `updateShowtime` when no row has the id. -/
theorem updateShowtime_of_missing {inv : Inventory} {id : Nat} (updateData : ShowtimeUpdate)
    (hfind : findShowtimeByPk inv.toStore id = none) :
    updateShowtime inv id updateData = (.ok none, inv) := by
  unfold updateShowtime
  rw [hfind]

/-- What `updateShowtime` did, by cases: nothing, or it saved resulting
times that are in order after the excluded check found no row. -/
theorem updateShowtime_cases (inv : Inventory) (id : Nat) (updateData : ShowtimeUpdate) :
    ((updateShowtime inv id updateData).2 = inv ∧
        (updateShowtime inv id updateData).1 ≠ .error .updatedOverlaps) ∨
      (∃ stored newStart newEnd, findShowtimeByPk inv.toStore id = some stored ∧
        newTime updateData.startTime stored.startTime = some newStart ∧
        newTime updateData.endTime stored.endTime = some newEnd ∧
        newStart < newEnd ∧
        checkOverlap inv.toStore (updateData.theaterId.getD stored.theaterId)
          newStart newEnd (some id) = true ∧
        updateShowtime inv id updateData = (.error .updatedOverlaps, inv)) ∨
      (∃ stored newStart newEnd, findShowtimeByPk inv.toStore id = some stored ∧
        newTime updateData.startTime stored.startTime = some newStart ∧
        newTime updateData.endTime stored.endTime = some newEnd ∧
        newStart < newEnd ∧
        checkOverlap inv.toStore (updateData.theaterId.getD stored.theaterId)
          newStart newEnd (some id) = false ∧
        (updateShowtime inv id updateData).2 =
          saveShowtime inv id (updateData.movieId.getD stored.movieId)
            (updateData.theaterId.getD stored.theaterId) newStart newEnd) := by
  cases hfind : findShowtimeByPk inv.toStore id with
  | none =>
    rw [updateShowtime_of_missing updateData hfind]
    exact Or.inl ⟨rfl, by simp⟩
  | some stored =>
    cases hs : newTime updateData.startTime stored.startTime with
    | none =>
      rw [updateShowtime_of_invalid hfind (Or.inl hs)]
      exact Or.inl ⟨rfl, by simp⟩
    | some newStart =>
      cases he : newTime updateData.endTime stored.endTime with
      | none =>
        rw [updateShowtime_of_invalid hfind (Or.inr he)]
        exact Or.inl ⟨rfl, by simp⟩
      | some newEnd =>
        rw [updateShowtime_of_found hfind hs he]
        by_cases h1 : newStart ≥ newEnd
        · rw [if_pos h1]
          exact Or.inl ⟨rfl, by simp⟩
        · rw [if_neg h1]
          by_cases h2 : idChanges updateData.movieId stored.movieId = true ∧
              updateData.movieId.getD stored.movieId ∉ inv.movieIds
          · rw [if_pos h2]
            exact Or.inl ⟨rfl, by simp⟩
          · rw [if_neg h2]
            by_cases h3 : idChanges updateData.theaterId stored.theaterId = true ∧
                updateData.theaterId.getD stored.theaterId ∉ inv.theaterIds
            · rw [if_pos h3]
              exact Or.inl ⟨rfl, by simp⟩
            · rw [if_neg h3]
              by_cases h4 : checkOverlap inv.toStore
                  (updateData.theaterId.getD stored.theaterId) newStart newEnd (some id) = true
              · rw [if_pos h4]
                exact Or.inr (Or.inl ⟨stored, newStart, newEnd, rfl, hs, he, by omega, h4, rfl⟩)
              · rw [if_neg h4]
                exact Or.inr (Or.inr ⟨stored, newStart, newEnd, rfl, hs, he, by omega,
                  by simpa using h4, rfl⟩)

/-! ## The no-overlap invariant -/

theorem HalfOpenOverlap.symm {a b : Showtime} (h : HalfOpenOverlap a b) : HalfOpenOverlap b a :=
  ⟨h.2, h.1⟩

/-- A check that found nothing: no row of the theater, other than the rows of
a truthy excluded id, meets the four-case condition. -/
theorem overlapCondition_false_of_checkOverlap {s : Store} {theaterId : Nat}
    {startTime endTime : Int} {excludeShowtimeId : Option Nat}
    (h : checkOverlap s theaterId startTime endTime excludeShowtimeId = false)
    {existing : Showtime} (hmem : existing ∈ s.showtimes)
    (hth : existing.theaterId = theaterId)
    (hid : ∀ x, excludeShowtimeId = some x → existing.id ≠ x) :
    overlapCondition startTime endTime existing.startTime existing.endTime = false := by
  rw [Bool.eq_false_iff] at h ⊢
  intro hcond
  apply h
  rw [checkOverlap_iff]
  refine ⟨existing, hmem, ?_⟩
  cases excludeShowtimeId with
  | none => exact (overlapWhere_none_iff _ _ _ _).2 ⟨hth, hcond⟩
  | some x =>
    by_cases hx : x = 0
    · subst hx
      rw [overlapWhere_some_zero]
      exact (overlapWhere_none_iff _ _ _ _).2 ⟨hth, hcond⟩
    · exact (overlapWhere_some_iff _ _ _ hx _).2 ⟨hth, hcond, hid x rfl⟩

theorem noOverlap_append_single {l : List Showtime} (h : NoOverlap l) {n : Showtime}
    (hn : ∀ a ∈ l, a.theaterId = n.theaterId → ¬ HalfOpenOverlap a n) :
    NoOverlap (l ++ [n]) := by
  unfold NoOverlap at h ⊢
  rw [List.pairwise_append]
  refine ⟨h, List.pairwise_singleton _ _, ?_⟩
  intro a ha b hb
  rw [List.mem_singleton] at hb
  subst hb
  exact hn a ha

/-- Saving new values under an id keeps the no-overlap invariant when ids are
unique and the new interval is half-open disjoint from every row of another
id in the new theater. -/
theorem noOverlap_saveShowtime {inv : Inventory} (h : NoOverlap inv.showtimes)
    (huniq : ShowtimeIdsUnique inv.showtimes) (id movieId theaterId : Nat)
    (startTime endTime : Int)
    (hfree : ∀ b ∈ inv.showtimes, b.id ≠ id → b.theaterId = theaterId →
      ¬ (b.startTime < endTime ∧ startTime < b.endTime)) :
    NoOverlap (saveShowtime inv id movieId theaterId startTime endTime).showtimes := by
  unfold NoOverlap at h ⊢
  unfold ShowtimeIdsUnique at huniq
  rw [List.Nodup, List.pairwise_map] at huniq
  simp only [saveShowtime]
  rw [List.pairwise_map]
  refine (h.and huniq).imp_of_mem ?_
  intro a b ha hb hab
  obtain ⟨hov, hne⟩ := hab
  by_cases haid : a.id = id
  · have hbid : b.id ≠ id := fun hbid => hne (haid.trans hbid.symm)
    rw [if_pos haid, if_neg hbid]
    intro hth hover
    exact hfree b hb hbid hth.symm ⟨hover.2, hover.1⟩
  · rw [if_neg haid]
    by_cases hbid : b.id = id
    · rw [if_pos hbid]
      intro hth hover
      exact hfree a ha haid hth ⟨hover.1, hover.2⟩
    · rw [if_neg hbid]
      exact hov

theorem showtimeIdsUnique_saveShowtime {inv : Inventory}
    (huniq : ShowtimeIdsUnique inv.showtimes) (id movieId theaterId : Nat)
    (startTime endTime : Int) :
    ShowtimeIdsUnique (saveShowtime inv id movieId theaterId startTime endTime).showtimes := by
  unfold ShowtimeIdsUnique at huniq ⊢
  have hmap : (saveShowtime inv id movieId theaterId startTime endTime).showtimes.map
      (fun st => st.id) = inv.showtimes.map (fun st => st.id) := by
    simp only [saveShowtime, List.map_map]
    apply List.map_congr_left
    intro st _
    by_cases hst : st.id = id
    · simp [hst]
    · simp [hst]
  rw [hmap]
  exact huniq

theorem showtimesValid_saveShowtime {inv : Inventory} (h : ShowtimesValid inv.showtimes)
    (id movieId theaterId : Nat) {startTime endTime : Int} (hlt : startTime < endTime) :
    ShowtimesValid (saveShowtime inv id movieId theaterId startTime endTime).showtimes := by
  intro st hst
  simp only [saveShowtime, List.mem_map] at hst
  obtain ⟨st0, hst0, heq⟩ := hst
  by_cases hid : st0.id = id
  · rw [if_pos hid] at heq
    rw [← heq]
    exact hlt
  · rw [if_neg hid] at heq
    rw [← heq]
    exact h st0 hst0

/-! ## The scenario of the scheduler -/

theorem noOverlap_venue : NoOverlap venue.showtimes := by
  unfold NoOverlap HalfOpenOverlap
  decide

theorem showtimeIdsUnique_venue : ShowtimeIdsUnique venue.showtimes := by
  unfold ShowtimeIdsUnique
  decide

theorem showtimesValid_venue : ShowtimesValid venue.showtimes := by
  unfold ShowtimesValid
  decide

/-! ## The showtime controller on a failed call -/

theorem showtimeErrorResponse_overlaps (fallback : String) :
    showtimeErrorResponse ShowtimeError.overlaps fallback =
      { status := 409,
        message := some "Showtime overlaps with an existing showtime in this theater.",
        body := none } := by
  have h : (includes ShowtimeError.overlaps.message "overlaps" ||
      includes ShowtimeError.overlaps.message "Invalid start or end time") = true := by
    decide
  unfold showtimeErrorResponse
  rw [if_pos h]
  rfl

theorem showtimeErrorResponse_updatedOverlaps (fallback : String) :
    showtimeErrorResponse ShowtimeError.updatedOverlaps fallback =
      { status := 409,
        message := some "Updated showtime overlaps with an existing showtime in this theater.",
        body := none } := by
  have h : (includes ShowtimeError.updatedOverlaps.message "overlaps" ||
      includes ShowtimeError.updatedOverlaps.message "Invalid start or end time") = true := by
    decide
  unfold showtimeErrorResponse
  rw [if_pos h]
  rfl

theorem showtimeErrorResponse_invalidTime (fallback : String) :
    showtimeErrorResponse ShowtimeError.invalidTime fallback =
      { status := 409, message := some "Invalid start or end time.", body := none } := by
  have h : (includes ShowtimeError.invalidTime.message "overlaps" ||
      includes ShowtimeError.invalidTime.message "Invalid start or end time") = true := by
    decide
  unfold showtimeErrorResponse
  rw [if_pos h]
  rfl

/-- Controller `create` on a request that passes the field check and whose
service call throws. -/
theorem ShowtimeController.create_of_error {inv : Inventory} {movieId theaterId : Nat}
    {startTime endTime : TimeInput} (hm : movieId ≠ 0) (ht : theaterId ≠ 0)
    (hs : startTime.truthy = true) (he : endTime.truthy = true)
    {error : ShowtimeError} {inv2 : Inventory}
    (hcall : createShowtime inv movieId theaterId startTime endTime = (.error error, inv2)) :
    ShowtimeController.create inv movieId theaterId startTime endTime =
      (showtimeErrorResponse error "Error creating showtime.", inv2) := by
  unfold ShowtimeController.create
  rw [if_neg (by simp [hm, ht, hs, he]), hcall]

/-- Controller `update` on a request with a non-empty body whose service call
throws. -/
theorem ShowtimeController.update_of_error {inv : Inventory} {id bodyKeys : Nat}
    {updateData : ShowtimeUpdate} (hk : bodyKeys ≠ 0)
    {error : ShowtimeError} {inv2 : Inventory}
    (hcall : updateShowtime inv id updateData = (.error error, inv2)) :
    ShowtimeController.update inv id bodyKeys updateData =
      (showtimeErrorResponse error "Error updating showtime.", inv2) := by
  unfold ShowtimeController.update
  rw [if_neg hk, hcall]


/-! ## Updating a seat -/

/-- The primary-key lookup after the write of `seat.update`. -/
theorem find?_writtenSeats (seats : List Seat) (seatId : Nat) (updateData : SeatUpdate) :
    (writtenSeats seats seatId updateData).find? (fun seat => seat.id == seatId) =
      (seats.find? (fun seat => seat.id == seatId)).map (fun seat =>
        { seat with
          theaterId := updateData.theaterId.getD seat.theaterId
          row := updateData.row.getD seat.row
          number := updateData.number.getD seat.number
          type := updateData.type.getD seat.type }) := by
  unfold writtenSeats
  induction seats with
  | nil => rfl
  | cons seat rest ih =>
    by_cases hid : seat.id = seatId
    · simp [List.find?, hid]
    · have hb : (seat.id == seatId) = false := by simpa using hid
      simp only [List.map_cons, if_neg hid, List.find?, hb]
      exact ih

/-- A write the store accepts: no row of the id moves to a theater that is
not on record, the rows written have pairwise different locations, and they
are the rows the call leaves. -/
theorem saveSeat_ok {inv inv2 : Inventory} {seatId : Nat} {updateData : SeatUpdate}
    (h : saveSeat inv seatId updateData = .ok inv2) :
    (∀ seat ∈ inv.seats, seat.id = seatId →
        updateData.theaterId.getD seat.theaterId ≠ seat.theaterId →
        updateData.theaterId.getD seat.theaterId ∈ inv.theaterIds) ∧
      SeatLocationsUnique inv2.toStore ∧
      inv2 = { inv with seats := writtenSeats inv.seats seatId updateData } := by
  unfold saveSeat at h
  split at h
  · cases h
  · rename_i hfk
    split at h
    · cases h
    · rename_i hnd
      simp only [Except.ok.injEq] at h
      subst h
      refine ⟨?_, ?_, rfl⟩
      · intro seat hmem hid hne
        by_contra hnot
        apply hfk
        rw [List.any_eq_true]
        refine ⟨seat, hmem, ?_⟩
        simp [hid, hne, hnot]
      · unfold SeatLocationsUnique
        exact not_not.1 hnd

/-- The store `updateSeat` leaves: the one it found, or the one the write of
line 97 made. -/
theorem updateSeat_store (inv : Inventory) (fault : Option SeatFault) (seatId : Nat)
    (updateData : SeatUpdate) :
    (updateSeat inv fault seatId updateData).2 = inv ∨
      saveSeat inv seatId updateData = .ok (updateSeat inv fault seatId updateData).2 := by
  unfold updateSeat
  cases SeatFault.failure fault SeatOp.findSeat with
  | some m => exact Or.inl rfl
  | none =>
    simp only
    cases inv.seats.find? (fun seat => seat.id == seatId) with
    | none => exact Or.inl rfl
    | some seat =>
      simp only
      split
      · exact Or.inl rfl
      · cases targetLocationError inv fault seat seatId updateData with
        | some e => exact Or.inl rfl
        | none =>
          simp only
          cases SeatFault.failure fault SeatOp.writeSeat with
          | some m => exact Or.inl rfl
          | none =>
            simp only
            cases hsave : saveSeat inv seatId updateData with
            | error e => exact Or.inl rfl
            | ok inv2 =>
              simp only
              cases SeatFault.failure fault SeatOp.reloadSeat with
              | some m => exact Or.inr rfl
              | none => exact Or.inr rfl

/-- A call of `updateSeat` that returns found a row under the id, passed the
guard of line 78, had its write accepted and returned the row of the id as
written. -/
theorem updateSeat_of_ok {inv : Inventory} {fault : Option SeatFault} {seatId : Nat}
    {updateData : SeatUpdate} {v : Option Seat}
    (h : (updateSeat inv fault seatId updateData).1 = .ok v) :
    ∃ seat inv2, inv.seats.find? (fun seat => seat.id == seatId) = some seat ∧
      numberChanges updateData.theaterId seat.theaterId = false ∧
      saveSeat inv seatId updateData = .ok inv2 ∧
      updateSeat inv fault seatId updateData =
        (.ok (inv2.seats.find? (fun seat => seat.id == seatId)), inv2) := by
  unfold updateSeat at h ⊢
  cases hf : SeatFault.failure fault SeatOp.findSeat with
  | some m => rw [hf] at h; cases h
  | none =>
    rw [hf] at h
    simp only at h ⊢
    cases hfind : inv.seats.find? (fun seat => seat.id == seatId) with
    | none => rw [hfind] at h; cases h
    | some seat =>
      rw [hfind] at h
      simp only at h ⊢
      by_cases hth : numberChanges updateData.theaterId seat.theaterId = true
      · rw [if_pos hth] at h
        cases h
      · rw [if_neg hth] at h ⊢
        cases ht : targetLocationError inv fault seat seatId updateData with
        | some e => rw [ht] at h; cases h
        | none =>
          rw [ht] at h
          simp only at h ⊢
          cases hw : SeatFault.failure fault SeatOp.writeSeat with
          | some m => rw [hw] at h; cases h
          | none =>
            rw [hw] at h
            simp only at h ⊢
            cases hsave : saveSeat inv seatId updateData with
            | error e => rw [hsave] at h; cases h
            | ok inv2 =>
              rw [hsave] at h
              simp only at h ⊢
              cases hr : SeatFault.failure fault SeatOp.reloadSeat with
              | some m => rw [hr] at h; cases h
              | none =>
                exact ⟨seat, inv2, rfl, by simpa using hth, rfl, rfl⟩

/-- A theater value that passes the guard of line 78 and the foreign key is
the theater of the row, no theater having the id 0. -/
theorem theater_kept {theaterIds : List Nat} {value : Option Nat} {stored : Nat}
    (hzero : 0 ∉ theaterIds) (hguard : numberChanges value stored = false)
    (hfk : value.getD stored ≠ stored → value.getD stored ∈ theaterIds) :
    value.getD stored = stored := by
  cases value with
  | none => rfl
  | some t =>
    simp only [Option.getD_some] at hfk ⊢
    by_contra hne
    have hmem := hfk hne
    unfold numberChanges at hguard
    simp only [Bool.and_eq_false_iff, bne_eq_false_iff_eq] at hguard
    rcases hguard with h0 | hs
    · rw [h0] at hmem
      exact hzero hmem
    · exact hne hs

theorem seatLocationsUnique_seatVenue : SeatLocationsUnique seatVenue.toStore := by
  unfold SeatLocationsUnique
  decide

theorem seatLocationsUnique_seatVenueZero : SeatLocationsUnique seatVenueZero.toStore := by
  unfold SeatLocationsUnique
  decide
/-! ## The claims -/

/-- C1: on a store whose seat ids are unique, whose reservation ids were issued
by the auto-increment counter, and in which every showtime and seat has at
most one active claim, the store left by `createReservation`, whether it
returns or throws, has unique seat ids and at most one active claim per
showtime and seat again (and its reservation ids are again issued ones). -/
theorem createReservation_preserves_invariant (s : Store) (env : Env)
    (userId showtimeId : Nat) (seatIds : List Nat)
    (hseats : SeatIdsUnique s) (hinv : AtMostOneActiveClaim s)
    (hiss : ReservationIdsIssued s) :
    SeatIdsUnique (createReservation s env userId showtimeId seatIds).2 ∧
      AtMostOneActiveClaim (createReservation s env userId showtimeId seatIds).2 ∧
      ReservationIdsIssued (createReservation s env userId showtimeId seatIds).2 := by
  rcases createReservation_store s env userId showtimeId seatIds with h | ⟨c, r, hbody, h⟩
  · rw [h]
    exact ⟨hseats, hinv, hiss⟩
  · rw [h]
    obtain ⟨showtime, _, hlen, hfree, hr, hc⟩ := transactionBody_ok hbody
    have hid : r.id = s.nextReservationId := by rw [hr]; rfl
    have hshow : r.showtimeId = showtimeId := by rw [hr]; rfl
    have hnd := (findSeats_length_eq hseats hlen).1
    rw [hc]
    refine ⟨hseats, ?_, reservationIdsIssued_insertAll hiss hid seatIds⟩
    exact atMostOneActiveClaim_insertAll hinv hiss hid hnd (by rw [hshow]; exact hfree)

/-- Witness of C1: the booking of A1 and A2 in the empty cinema. -/
theorem createReservation_preserves_invariant_witness :
    SeatIdsUnique (createReservation cinema quiet 7 1 [1, 2]).2 ∧
      AtMostOneActiveClaim (createReservation cinema quiet 7 1 [1, 2]).2 ∧
      ReservationIdsIssued (createReservation cinema quiet 7 1 [1, 2]).2 :=
  createReservation_preserves_invariant cinema quiet 7 1 [1, 2]
    seatIdsUnique_cinema atMostOneActiveClaim_cinema reservationIdsIssued_cinema

/-- C3, counterexample: the re-fetch after the commit rejects, the call throws,
and the Reservation row and the two ReservedSeat rows it inserted are in the
store it leaves. -/
theorem createReservation_throws_after_commit :
    (createReservation cinema reloadFails 7 1 [1, 2]).1 =
        .error (ReservationError.storeFailure "Connection lost") ∧
      (createReservation cinema reloadFails 7 1 [1, 2]).2.reservations ≠ cinema.reservations ∧
      (createReservation cinema reloadFails 7 1 [1, 2]).2.reservedSeats ≠
        cinema.reservedSeats := by
  refine ⟨rfl, ?_, ?_⟩ <;> decide

/-- C3, amended: a call that throws for any reason other than a rejection of
the re-fetch that follows the commit leaves the store as it found it: the
Reservation rows and the ReservedSeat rows are what they were, every seat has
an active claim exactly when it had one, and a later call meets the store the
failed call met. -/
theorem createReservation_atomic_before_commit (s : Store) (env : Env)
    (userId showtimeId : Nat) (seatIds : List Nat) (e : ReservationError)
    (hre : env.failure StoreOp.reloadReservation = none)
    (h : (createReservation s env userId showtimeId seatIds).1 = .error e) :
    (createReservation s env userId showtimeId seatIds).2.reservations = s.reservations ∧
      (createReservation s env userId showtimeId seatIds).2.reservedSeats = s.reservedSeats ∧
      (createReservation s env userId showtimeId seatIds).2 = s ∧
      (∀ st x, HasActiveClaim (createReservation s env userId showtimeId seatIds).2 st x ↔
        HasActiveClaim s st x) ∧
      ∀ env2 userId2 showtimeId2 seatIds2,
        createReservation (createReservation s env userId showtimeId seatIds).2
            env2 userId2 showtimeId2 seatIds2 =
          createReservation s env2 userId2 showtimeId2 seatIds2 := by
  have hs := createReservation_error_store hre h
  rw [hs]
  exact ⟨rfl, rfl, rfl, fun _ _ => Iff.rfl, fun _ _ _ _ => rfl⟩

/-- Witness of C3, amended: the insert of the ReservedSeat rows rejects after
the Reservation row was inserted. -/
theorem createReservation_atomic_before_commit_witness :
    (createReservation cinema bulkCreateFails 7 1 [1, 2]).1 =
        .error (ReservationError.storeFailure "Deadlock found") ∧
      (createReservation cinema bulkCreateFails 7 1 [1, 2]).2 = cinema :=
  ⟨rfl, (createReservation_atomic_before_commit cinema bulkCreateFails 7 1 [1, 2]
    (ReservationError.storeFailure "Deadlock found") (by decide) rfl).2.2.1⟩

/-- C4: on a store with unique seat ids whose every operation answers, for an
existing showtime and a non-empty duplicate-free list of seats of the
showtime's theater, `createReservation` throws the `already reserved` error
exactly when some requested seat has an active claim for the showtime, and
returns otherwise. -/
theorem createReservation_conflict_iff (s : Store) (env : Env) (userId showtimeId : Nat)
    (seatIds : List Nat) (showtime : Showtime)
    (hseats : SeatIdsUnique s) (henv : env.fault = none)
    (hst : findShowtimeByPk s showtimeId = some showtime)
    (hne : seatIds ≠ []) (hnd : seatIds.Nodup)
    (hall : ∀ x ∈ seatIds, ∃ seat ∈ s.seats, seat.id = x ∧ seat.theaterId = showtime.theaterId) :
    ((∃ ids, (createReservation s env userId showtimeId seatIds).1 =
          .error (.alreadyReserved ids)) ↔
        ∃ x ∈ seatIds, HasActiveClaim s showtimeId x) ∧
      ((¬ ∃ x ∈ seatIds, HasActiveClaim s showtimeId x) →
        Succeeds (createReservation s env userId showtimeId seatIds).1) := by
  have hlen := findSeats_length_of_valid hseats hnd hall
  have hcr := createReservation_of_no_fault (s := s) henv userId showtimeId hne
  rw [transactionBody_of_no_fault henv, hst] at hcr
  simp only [hlen, ne_eq, not_true_eq_false, if_false] at hcr
  by_cases hact : ∃ x ∈ seatIds, HasActiveClaim s showtimeId x
  · have hnil : findActiveReservedSeats s seatIds showtimeId ≠ [] := by
      intro h0
      exact (findActiveReservedSeats_eq_nil_iff.1 h0) hact
    have hpos : (findActiveReservedSeats s seatIds showtimeId).length > 0 :=
      List.length_pos.2 hnil
    rw [if_pos hpos] at hcr
    rw [hcr]
    exact ⟨⟨fun _ => hact, fun _ => ⟨_, rfl⟩⟩, fun hno => absurd hact hno⟩
  · have hnil := findActiveReservedSeats_eq_nil_iff.2 hact
    have hpos : ¬ (findActiveReservedSeats s seatIds showtimeId).length > 0 := by
      simp [hnil]
    rw [if_neg hpos] at hcr
    rw [hcr]
    refine ⟨⟨?_, fun h => absurd h hact⟩, fun _ => ⟨_, rfl⟩⟩
    rintro ⟨ids, hids⟩
    simp at hids

/-- Witness of C4: after A1 and A2 were booked for showtime 1, the request for
A2 and A3 throws the `already reserved` error. -/
theorem createReservation_conflict_iff_witness :
    ∃ ids, (createReservation cinemaBooked quiet 9 1 [2, 3]).1 =
      .error (.alreadyReserved ids) :=
  (createReservation_conflict_iff cinemaBooked quiet 9 1 [2, 3]
    (Showtime.mk 1 1 1 64800000 72000000)
    seatIdsUnique_cinemaBooked rfl rfl (by decide) (by decide) (by decide)).1.2 ⟨2, by decide, by decide⟩

/-- C5: when `createReservation` throws the `already reserved` error on a
store with at most one active claim per showtime and seat, the seat ids the
error lists are, each once, exactly the requested ids that have an active
claim for the showtime; a requested seat that is free is not listed. -/
theorem createReservation_conflict_names_claimed (s : Store) (env : Env)
    (userId showtimeId : Nat) (seatIds ids : List Nat)
    (hinv : AtMostOneActiveClaim s)
    (h : (createReservation s env userId showtimeId seatIds).1 =
      .error (.alreadyReserved ids)) :
    ids.Nodup ∧ ids ≠ [] ∧
      (∀ x, x ∈ ids ↔ x ∈ seatIds ∧ HasActiveClaim s showtimeId x) ∧
      (ReservationError.alreadyReserved ids).message =
        "Seats with IDs [" ++ ", ".intercalate (ids.map toString) ++
          "] are already reserved for this showtime." := by
  obtain ⟨hids, hnil, _⟩ := createReservation_alreadyReserved h
  subst hids
  refine ⟨?_, ?_, ?_, rfl⟩
  · apply nodup_map_seatId_of_filter_le_one
    intro x
    rw [findActiveReservedSeats_filter_seat]
    split
    · exact hinv showtimeId x
    · simp
  · simpa using hnil
  · intro x
    rw [List.mem_map]
    constructor
    · rintro ⟨rs, hrs, rfl⟩
      have h2 := mem_findActiveReservedSeats.1 hrs
      exact ⟨h2.2.1, hasActiveClaim_iff_mem.2 ⟨rs, mem_activeClaims.2 ⟨h2.1, rfl, h2.2.2⟩⟩⟩
    · rintro ⟨hx, hact⟩
      rcases hasActiveClaim_iff_mem.1 hact with ⟨rs, hrs⟩
      have h2 := mem_activeClaims.1 hrs
      exact ⟨rs, mem_findActiveReservedSeats.2 ⟨h2.1, h2.2.1 ▸ hx, h2.2.2⟩, h2.2.1⟩

/-- Witness of C5: requesting A2 and A3 when only A2 is claimed lists A2 and
not A3. -/
theorem createReservation_conflict_names_claimed_witness :
    (createReservation cinemaBooked quiet 9 1 [2, 3]).1 = .error (.alreadyReserved [2]) ∧
      (∀ x, x ∈ [2] ↔ x ∈ [2, 3] ∧ HasActiveClaim cinemaBooked 1 x) ∧
      (ReservationError.alreadyReserved [2]).message =
        "Seats with IDs [2] are already reserved for this showtime." :=
  ⟨rfl, (createReservation_conflict_names_claimed cinemaBooked quiet 9 1 [2, 3] [2]
    atMostOneActiveClaim_cinemaBooked
    rfl).2.2.1, by decide⟩

/-- C6: when `createReservation` returns, the store it leaves is the prior
store with one Reservation row appended, carrying the given user and showtime
and status confirmed (not pending), and one ReservedSeat row appended per
requested id, in request order, each referencing the new row; seats and
showtimes are as before. On a store with unique seat ids and issued
reservation ids, the claims of the new reservation are those rows, their seat
ids are the duplicate-free `seatIds`, and the call returns the new row with
them. -/
theorem createReservation_success_rows (s : Store) (env : Env) (userId showtimeId : Nat)
    (seatIds : List Nat) (v : Option ReservationView)
    (h : (createReservation s env userId showtimeId seatIds).1 = .ok v) :
    ∃ r rows,
      (createReservation s env userId showtimeId seatIds).2.reservations =
          s.reservations ++ [r] ∧
        r.userId = userId ∧ r.showtimeId = showtimeId ∧
        r.status = ReservationStatus.confirmed ∧ r.status ≠ ReservationStatus.pending ∧
        (createReservation s env userId showtimeId seatIds).2.reservedSeats =
          s.reservedSeats ++ rows ∧
        rows.map (fun rs => rs.seatId) = seatIds ∧
        (∀ rs ∈ rows, rs.reservationId = r.id) ∧
        rows.length = seatIds.length ∧
        (createReservation s env userId showtimeId seatIds).2.seats = s.seats ∧
        (createReservation s env userId showtimeId seatIds).2.showtimes = s.showtimes ∧
        (SeatIdsUnique s → ReservationIdsIssued s →
          seatIds.Nodup ∧
          (createReservation s env userId showtimeId seatIds).2.reservedSeats.filter
            (fun rs => rs.reservationId == r.id) = rows ∧
          v = some { reservation := r, reservedSeats := rows }) := by
  obtain ⟨hstore, hv, showtime, _, hlen⟩ := createReservation_ok_store h
  rw [hstore] at hv ⊢
  refine ⟨newReservation s env userId showtimeId (seatIds.length * pricePerSeat),
    newReservedSeats s.nextReservedSeatId s.nextReservationId seatIds,
    rfl, rfl, rfl, rfl, by simp [newReservation], rfl, newReservedSeats_map_seatId _ _ _,
    fun rs hrs => (mem_newReservedSeats hrs).1, newReservedSeats_length _ _ _, rfl, rfl, ?_⟩
  intro hseats hiss
  refine ⟨(findSeats_length_eq hseats hlen).1, ?_, ?_⟩
  · exact filter_reservationId_insertAll hiss rfl seatIds
  · rw [hv]
    exact findReservationByPk_insertAll hiss rfl seatIds

/-- Witness of C6: the booking of A1 and A2 in the empty cinema returns
reservation 1 with its two claims. -/
theorem createReservation_success_rows_witness :
    ∃ r rows,
      (createReservation cinema quiet 7 1 [1, 2]).2.reservations = cinema.reservations ++ [r] ∧
        r.userId = 7 ∧ r.showtimeId = 1 ∧
        r.status = ReservationStatus.confirmed ∧ r.status ≠ ReservationStatus.pending ∧
        (createReservation cinema quiet 7 1 [1, 2]).2.reservedSeats =
          cinema.reservedSeats ++ rows ∧
        rows.map (fun rs => rs.seatId) = [1, 2] ∧
        (∀ rs ∈ rows, rs.reservationId = r.id) ∧
        rows.length = [1, 2].length ∧
        (createReservation cinema quiet 7 1 [1, 2]).2.seats = cinema.seats ∧
        (createReservation cinema quiet 7 1 [1, 2]).2.showtimes = cinema.showtimes ∧
        (SeatIdsUnique cinema → ReservationIdsIssued cinema →
          [1, 2].Nodup ∧
          (createReservation cinema quiet 7 1 [1, 2]).2.reservedSeats.filter
            (fun rs => rs.reservationId == r.id) = rows ∧
          some (ReservationView.mk (Reservation.mk 1 7 1 60000000 20 ReservationStatus.confirmed)
              [ReservedSeat.mk 1 1 1, ReservedSeat.mk 2 1 2]) =
            some { reservation := r, reservedSeats := rows }) :=
  createReservation_success_rows cinema quiet 7 1 [1, 2]
    (some (ReservationView.mk (Reservation.mk 1 7 1 60000000 20 ReservationStatus.confirmed)
      [ReservedSeat.mk 1 1 1, ReservedSeat.mk 2 1 2])) rfl

/-- C7: when `createReservation` returns, the `totalPrice` of the Reservation
row it added is the number of requested seat ids times the per-seat price,
which is 10, and so 10 times the number of ReservedSeat rows added with it. -/
theorem createReservation_total_price (s : Store) (env : Env) (userId showtimeId : Nat)
    (seatIds : List Nat) (v : Option ReservationView)
    (h : (createReservation s env userId showtimeId seatIds).1 = .ok v) :
    ∃ r rows,
      (createReservation s env userId showtimeId seatIds).2.reservations =
          s.reservations ++ [r] ∧
        (createReservation s env userId showtimeId seatIds).2.reservedSeats =
          s.reservedSeats ++ rows ∧
        (∀ rs ∈ rows, rs.reservationId = r.id) ∧
        r.totalPrice = seatIds.length * pricePerSeat ∧
        pricePerSeat = 10 ∧
        r.totalPrice = 10 * rows.length := by
  obtain ⟨hstore, _, _⟩ := createReservation_ok_store h
  rw [hstore]
  refine ⟨newReservation s env userId showtimeId (seatIds.length * pricePerSeat),
    newReservedSeats s.nextReservedSeatId s.nextReservationId seatIds,
    rfl, rfl, fun rs hrs => (mem_newReservedSeats hrs).1, rfl, rfl, ?_⟩
  rw [newReservedSeats_length]
  simp [newReservation, pricePerSeat, Nat.mul_comm]

/-- Witness of C7: the two-seat booking costs twice the per-seat price. -/
theorem createReservation_total_price_witness :
    ∃ r rows,
      (createReservation cinema quiet 7 1 [1, 2]).2.reservations = cinema.reservations ++ [r] ∧
        (createReservation cinema quiet 7 1 [1, 2]).2.reservedSeats =
          cinema.reservedSeats ++ rows ∧
        (∀ rs ∈ rows, rs.reservationId = r.id) ∧
        r.totalPrice = 2 * pricePerSeat ∧
        pricePerSeat = 10 ∧
        r.totalPrice = 10 * rows.length :=
  createReservation_total_price cinema quiet 7 1 [1, 2] _ rfl

/-- C8, counterexample: in the cinema, whose seat ids are unique, the request
that repeats seat 1 is answered with status 404 and the `invalid for this
theater` message, the status of a missing showtime, and not with the status
400 of the controller's validation failure, which the empty list receives. -/
theorem create_duplicate_seats_not_validation_failure :
    SeatIdsUnique cinema ∧
      (create cinema quiet 9 1 [1, 1]).1.status = notFoundStatus ∧
      (create cinema quiet 9 1 [1, 1]).1.status ≠ validationFailureStatus ∧
      (create cinema quiet 9 1 [1, 1]).1.message =
        some "One or more selected seats are invalid for this theater." ∧
      (create cinema quiet 9 99 [1]).1.status = notFoundStatus ∧
      (create cinema quiet 9 1 []).1.status = validationFailureStatus := by
  refine ⟨seatIdsUnique_cinema, ?_, ?_, ?_, ?_, ?_⟩ <;> decide

/-- C8, amended: on a store with unique seat ids, `createReservation` returns
only for a non-empty list without a repeated id; a call with an empty list or
a repeated id always throws and leaves the store unchanged, through the
controller too. The empty list is answered with the status 400 of the
validation failure; a repeated id, when every store operation answers, is
answered with status 404 like a missing showtime or an invalid seat. -/
theorem createReservation_seat_set_validation (s : Store) (env : Env)
    (userId showtimeId : Nat) (seatIds : List Nat) (hseats : SeatIdsUnique s) :
    (Succeeds (createReservation s env userId showtimeId seatIds).1 →
        seatIds ≠ [] ∧ seatIds.Nodup) ∧
      ((seatIds = [] ∨ ¬ seatIds.Nodup) →
        (∃ e, createReservation s env userId showtimeId seatIds = (.error e, s)) ∧
          (create s env userId showtimeId seatIds).2 = s) ∧
      (seatIds = [] →
        createReservation s env userId showtimeId seatIds = (.error .noSeatSelected, s) ∧
          (userId ≠ 0 →
            (create s env userId showtimeId seatIds).1.status = validationFailureStatus)) ∧
      (¬ seatIds.Nodup → env.fault = none → userId ≠ 0 → showtimeId ≠ 0 →
        (create s env userId showtimeId seatIds).1.status = notFoundStatus) := by
  have hfail : (seatIds = [] ∨ ¬ seatIds.Nodup) →
      ∃ e, createReservation s env userId showtimeId seatIds = (.error e, s) := by
    rintro (h0 | hdup)
    · subst h0
      exact ⟨_, createReservation_nil s env userId showtimeId⟩
    · exact createReservation_duplicates_error env hseats userId showtimeId hdup
  refine ⟨?_, ?_, ?_, ?_⟩
  · rintro ⟨v, hv⟩
    obtain ⟨hne, _⟩ := createReservation_ok hv
    obtain ⟨_, _, showtime, _, hlen⟩ := createReservation_ok_store hv
    exact ⟨hne, (findSeats_length_eq hseats hlen).1⟩
  · intro hbad
    obtain ⟨e, he⟩ := hfail hbad
    refine ⟨⟨e, he⟩, ?_⟩
    rcases create_store s env userId showtimeId seatIds with h | h
    · exact h
    · rw [h, he]
  · intro h0
    subst h0
    exact ⟨createReservation_nil s env userId showtimeId,
      fun hu => (create_nil s env hu showtimeId).1⟩
  · intro hdup henv hu hst
    have hne : seatIds ≠ [] := by
      intro h0
      exact hdup (h0 ▸ List.nodup_nil)
    rcases createReservation_duplicates hseats henv userId showtimeId hdup with h | h
    · rw [create_of_not_found hu hst hne h (by rw [includes_showtimeNotFound]; rfl)]
      rfl
    · rw [create_of_not_found hu hst hne h (by rw [includes_invalidSeats]; simp)]
      rfl

/-- Witness of C8, amended: the request that repeats seat 1 in the cinema. -/
theorem createReservation_seat_set_validation_witness :
    (∃ e, createReservation cinema quiet 9 1 [1, 1] = (.error e, cinema)) ∧
      (create cinema quiet 9 1 [1, 1]).2 = cinema ∧
      (create cinema quiet 9 1 [1, 1]).1.status = notFoundStatus :=
  ⟨((createReservation_seat_set_validation cinema quiet 9 1 [1, 1]
      seatIdsUnique_cinema).2.1 (Or.inr (by decide))).1,
    ((createReservation_seat_set_validation cinema quiet 9 1 [1, 1]
      seatIdsUnique_cinema).2.1 (Or.inr (by decide))).2,
    (createReservation_seat_set_validation cinema quiet 9 1 [1, 1]
      seatIdsUnique_cinema).2.2.2 (by decide) rfl (by decide) (by decide)⟩

/-- C9: for a non-empty seat list and a showtime id no Showtime row has,
`createReservation` throws and leaves the store unchanged whatever the seats
are; when every store operation answers, the error is `Showtime not found.`,
which the controller answers with status 404. -/
theorem createReservation_missing_showtime (s : Store) (env : Env)
    (userId showtimeId : Nat) (seatIds : List Nat) (hne : seatIds ≠ [])
    (hmissing : ∀ st ∈ s.showtimes, st.id ≠ showtimeId) :
    (∃ e, createReservation s env userId showtimeId seatIds = (.error e, s)) ∧
      (env.fault = none →
        createReservation s env userId showtimeId seatIds = (.error .showtimeNotFound, s) ∧
          ReservationError.showtimeNotFound.message = "Showtime not found." ∧
          (userId ≠ 0 → showtimeId ≠ 0 →
            create s env userId showtimeId seatIds =
              ({ status := notFoundStatus, message := some "Showtime not found.",
                 body := none }, s))) := by
  have hfind : findShowtimeByPk s showtimeId = none := by
    unfold findShowtimeByPk
    rw [List.find?_eq_none]
    intro st hst
    simpa using hmissing st hst
  constructor
  · cases hbody : transactionBody s env userId showtimeId seatIds with
    | error e => exact createReservation_of_body_error hbody
    | ok p =>
      obtain ⟨showtime, hst, _⟩ := transactionBody_ok (c := p.1) (r := p.2) hbody
      rw [hfind] at hst
      simp at hst
  · intro henv
    have hcr : createReservation s env userId showtimeId seatIds =
        (.error .showtimeNotFound, s) := by
      rw [createReservation_of_no_fault henv userId showtimeId hne,
        transactionBody_of_no_fault henv, hfind]
    refine ⟨hcr, rfl, ?_⟩
    intro hu hst
    rw [create_of_not_found hu hst hne hcr (by rw [includes_showtimeNotFound]; rfl)]
    rfl

/-- Witness of C9: showtime 99 does not exist in the cinema. -/
theorem createReservation_missing_showtime_witness :
    createReservation cinema quiet 9 99 [1, 2] = (.error .showtimeNotFound, cinema) :=
  ((createReservation_missing_showtime cinema quiet 9 99 [1, 2] (by decide)
    (by decide)).2 rfl).1

/-- C10: on a store with unique seat ids, for an existing showtime and a
request naming an id that is not a seat of the showtime's theater,
`createReservation` throws and leaves the store unchanged; the error is never
the `already reserved` one, also when a requested seat is claimed, and it is
the `invalid for this theater` one when every store operation answers. -/
theorem createReservation_invalid_seats (s : Store) (env : Env)
    (userId showtimeId : Nat) (seatIds : List Nat) (showtime : Showtime)
    (hseats : SeatIdsUnique s)
    (hst : findShowtimeByPk s showtimeId = some showtime)
    (hbad : ∃ x ∈ seatIds,
      ¬ ∃ seat ∈ s.seats, seat.id = x ∧ seat.theaterId = showtime.theaterId) :
    (∃ e, createReservation s env userId showtimeId seatIds = (.error e, s) ∧
        ∀ ids, e ≠ .alreadyReserved ids) ∧
      (env.fault = none →
        createReservation s env userId showtimeId seatIds = (.error .invalidSeats, s)) := by
  have hlen : (findSeats s seatIds showtime.theaterId).length ≠ seatIds.length := by
    intro hlen
    obtain ⟨x, hx, hno⟩ := hbad
    exact hno ((findSeats_length_eq hseats hlen).2 x hx)
  have hne : seatIds ≠ [] := by
    rintro rfl
    obtain ⟨x, hx, _⟩ := hbad
    simp at hx
  constructor
  · cases hbody : transactionBody s env userId showtimeId seatIds with
    | error e0 =>
      obtain ⟨e, he⟩ := createReservation_of_body_error hbody
      refine ⟨e, he, ?_⟩
      intro ids hids
      have h1 : (createReservation s env userId showtimeId seatIds).1 =
          .error (.alreadyReserved ids) := by rw [he, hids]
      obtain ⟨_, _, showtime2, hst2, hlen2⟩ := createReservation_alreadyReserved h1
      rw [hst] at hst2
      simp only [Option.some.injEq] at hst2
      subst hst2
      exact hlen hlen2
    | ok p =>
      obtain ⟨showtime2, hst2, hlen2, _⟩ := transactionBody_ok (c := p.1) (r := p.2) hbody
      rw [hst] at hst2
      simp only [Option.some.injEq] at hst2
      subst hst2
      exact absurd hlen2 hlen
  · intro henv
    rw [createReservation_of_no_fault henv userId showtimeId hne,
      transactionBody_of_no_fault henv, hst]
    simp only [if_pos hlen]

/-- Witness of C10: after A1 and A2 were booked for showtime 1, the request
for the claimed A2 and for seat 4 of theater 2 is rejected as invalid. -/
theorem createReservation_invalid_seats_witness :
    HasActiveClaim cinemaBooked 1 2 ∧
      createReservation cinemaBooked quiet 9 1 [2, 4] = (.error .invalidSeats, cinemaBooked) :=
  ⟨by decide,
    (createReservation_invalid_seats cinemaBooked quiet 9 1 [2, 4]
      (Showtime.mk 1 1 1 64800000 72000000) seatIdsUnique_cinemaBooked rfl
      ⟨4, by decide, by decide⟩).2 rfl⟩

/-- C11, counterexample: in the cinema the request naming seat 4 of theater 2
and the request naming the nonexistent seat 99 throw the same error and get
the same response, which has status 404 and not the status 400 of the
validation failure, and whose message names no seat. -/
theorem createReservation_invalid_seats_not_named :
    createReservation cinema quiet 9 1 [1, 4] = createReservation cinema quiet 9 1 [2, 99] ∧
      (create cinema quiet 9 1 [1, 4]).1 = (create cinema quiet 9 1 [2, 99]).1 ∧
      (create cinema quiet 9 1 [1, 4]).1.status = notFoundStatus ∧
      (create cinema quiet 9 1 [1, 4]).1.status ≠ validationFailureStatus ∧
      (create cinema quiet 9 1 [1, 4]).1.message =
        some "One or more selected seats are invalid for this theater." := by
  refine ⟨rfl, ?_, ?_, ?_, ?_⟩ <;> decide

/-- C11, amended: on a store with unique seat ids whose every operation
answers, a request for an existing showtime naming an id that is not a seat
of its theater throws the fixed `One or more selected seats are invalid for
this theater.` error and leaves the store unchanged; the controller answers
it with status 404, and a second such request with other invalid seats throws
the same error and gets the same response. -/
theorem createReservation_invalid_seats_same_error (s : Store) (env : Env)
    (userId showtimeId : Nat) (seatIds seatIds2 : List Nat) (showtime : Showtime)
    (hseats : SeatIdsUnique s) (henv : env.fault = none)
    (hst : findShowtimeByPk s showtimeId = some showtime)
    (hbad : ∃ x ∈ seatIds,
      ¬ ∃ seat ∈ s.seats, seat.id = x ∧ seat.theaterId = showtime.theaterId)
    (hbad2 : ∃ x ∈ seatIds2,
      ¬ ∃ seat ∈ s.seats, seat.id = x ∧ seat.theaterId = showtime.theaterId) :
    createReservation s env userId showtimeId seatIds = (.error .invalidSeats, s) ∧
      createReservation s env userId showtimeId seatIds2 =
        createReservation s env userId showtimeId seatIds ∧
      ReservationError.invalidSeats.message =
        "One or more selected seats are invalid for this theater." ∧
      (userId ≠ 0 → showtimeId ≠ 0 →
        create s env userId showtimeId seatIds =
            ({ status := notFoundStatus,
               message := some "One or more selected seats are invalid for this theater.",
               body := none }, s) ∧
          create s env userId showtimeId seatIds2 = create s env userId showtimeId seatIds) := by
  have h1 := createReservation_invalidSeats_of_no_fault hseats henv userId showtimeId hst hbad
  have h2 := createReservation_invalidSeats_of_no_fault hseats henv userId showtimeId hst hbad2
  have hne : ∀ ids : List Nat, (∃ x ∈ ids,
      ¬ ∃ seat ∈ s.seats, seat.id = x ∧ seat.theaterId = showtime.theaterId) → ids ≠ [] := by
    rintro ids ⟨x, hx, _⟩ rfl
    simp at hx
  refine ⟨h1, by rw [h1, h2], rfl, ?_⟩
  intro hu hs0
  have hmsg : (includes ReservationError.invalidSeats.message "not found" ||
      includes ReservationError.invalidSeats.message "invalid") = true := by
    rw [includes_invalidSeats]
    simp
  rw [create_of_not_found hu hs0 (hne _ hbad) h1 hmsg,
    create_of_not_found hu hs0 (hne _ hbad2) h2 hmsg]
  exact ⟨rfl, rfl⟩

/-- Witness of C11, amended: seat 4 of theater 2 and the nonexistent seat 99,
requested for showtime 1 of theater 1. -/
theorem createReservation_invalid_seats_same_error_witness :
    createReservation cinema quiet 9 1 [1, 4] = (.error .invalidSeats, cinema) ∧
      createReservation cinema quiet 9 1 [2, 99] = createReservation cinema quiet 9 1 [1, 4] :=
  ⟨(createReservation_invalid_seats_same_error cinema quiet 9 1 [1, 4] [2, 99]
      (Showtime.mk 1 1 1 64800000 72000000) seatIdsUnique_cinema rfl rfl
      ⟨4, by decide, by decide⟩ ⟨99, by decide, by decide⟩).1,
    (createReservation_invalid_seats_same_error cinema quiet 9 1 [1, 4] [2, 99]
      (Showtime.mk 1 1 1 64800000 72000000) seatIdsUnique_cinema rfl rfl
      ⟨4, by decide, by decide⟩ ⟨99, by decide, by decide⟩).2.1⟩

/-- C12: on a store with unique seat ids whose every operation answers, for a
seat A of theater T and two distinct showtimes S and S2 of T,
`createReservation` for S2 and A alone returns exactly when A has no active
claim for S2; an active claim on A for S does not stop it. -/
theorem createReservation_cross_showtime (s : Store) (env : Env) (userId S S2 : Nat)
    (showtimeS showtimeS2 : Showtime) (A : Seat)
    (hseats : SeatIdsUnique s) (henv : env.fault = none)
    (_hS : findShowtimeByPk s S = some showtimeS)
    (hS2 : findShowtimeByPk s S2 = some showtimeS2)
    (_hne : S ≠ S2) (_hT : showtimeS.theaterId = showtimeS2.theaterId)
    (hA : A ∈ s.seats) (hAT : A.theaterId = showtimeS2.theaterId) :
    (Succeeds (createReservation s env userId S2 [A.id]).1 ↔ ¬ HasActiveClaim s S2 A.id) ∧
      (HasActiveClaim s S A.id → ¬ HasActiveClaim s S2 A.id →
        Succeeds (createReservation s env userId S2 [A.id]).1) := by
  have h := createReservation_single_seat hseats henv userId S2 hS2 hA hAT
  exact ⟨h, fun _ hno => h.2 hno⟩

/-- Witness of C12: A1 is claimed for showtime 1, and user 3 books it for
showtime 2 of the same theater. -/
theorem createReservation_cross_showtime_witness :
    HasActiveClaim cinemaBooked 1 1 ∧
      Succeeds (createReservation cinemaBooked quiet 3 2 [1]).1 :=
  ⟨by decide,
    (createReservation_cross_showtime cinemaBooked quiet 3 1 2
      (Showtime.mk 1 1 1 64800000 72000000) (Showtime.mk 2 1 1 75600000 82800000)
      (Seat.mk 1 1 "A" 1 SeatType.standard) seatIdsUnique_cinemaBooked rfl rfl rfl
      (by decide) rfl (by decide) rfl).2 (by decide) (by decide)⟩

/-- C14: for an existing reservation whose status is other than cancelled and
requesters that own it or are admin, with every store operation answering,
the first `cancelReservation` returns and the second one throws the 400
`Reservation is already cancelled.` error and leaves the store, so every
Reservation and ReservedSeat row, exactly as the first call left it; the
second call leaves these rows so also when one of its store operations
rejects. -/
theorem cancelReservation_twice (s : Store) (reservationId requestingUserId : Nat)
    (requestingUserRole : String) (secondUserId : Nat) (secondUserRole : String)
    (r : Reservation)
    (hfind : s.reservations.find? (fun r => r.id == reservationId) = some r)
    (hstatus : r.status ≠ ReservationStatus.cancelled)
    (hauth : r.userId = requestingUserId ∨ requestingUserRole = "admin")
    (hauth2 : r.userId = secondUserId ∨ secondUserRole = "admin") :
    Succeeds (cancelReservation s none reservationId requestingUserId requestingUserRole).1 ∧
      cancelReservation
          (cancelReservation s none reservationId requestingUserId requestingUserRole).2 none
          reservationId secondUserId secondUserRole =
        (.error (.http { status := 400, message := "Reservation is already cancelled." }),
          (cancelReservation s none reservationId requestingUserId requestingUserRole).2) ∧
      (∀ fault : Option CancelFault,
        (cancelReservation
            (cancelReservation s none reservationId requestingUserId requestingUserRole).2 fault
            reservationId secondUserId secondUserRole).2.reservations =
          (cancelReservation s none reservationId requestingUserId
            requestingUserRole).2.reservations ∧
        (cancelReservation
            (cancelReservation s none reservationId requestingUserId requestingUserRole).2 fault
            reservationId secondUserId secondUserRole).2.reservedSeats =
          (cancelReservation s none reservationId requestingUserId
            requestingUserRole).2.reservedSeats) := by
  have hnot : ¬ (r.userId ≠ requestingUserId ∧ requestingUserRole ≠ "admin") := by
    rintro ⟨h1, h2⟩
    rcases hauth with h | h
    · exact h1 h
    · exact h2 h
  have hnot2 : ¬ ((({ r with status := ReservationStatus.cancelled } : Reservation).userId ≠
      secondUserId) ∧ secondUserRole ≠ "admin") := by
    rintro ⟨h1, h2⟩
    rcases hauth2 with h | h
    · exact h1 h
    · exact h2 h
  have hfirst := cancelReservation_of_found hfind hnot hstatus
  have hsecond : cancelReservation (saveStatus s reservationId ReservationStatus.cancelled) none
      reservationId secondUserId secondUserRole =
      (.error (.http { status := 400, message := "Reservation is already cancelled." }),
        saveStatus s reservationId ReservationStatus.cancelled) := by
    rw [cancelReservation_eq, find?_saveStatus, hfind]
    simp only [Option.map_some']
    rw [if_neg hnot2]
    rfl
  have hstore : ∀ fault : Option CancelFault,
      (cancelReservation (saveStatus s reservationId ReservationStatus.cancelled) fault
        reservationId secondUserId secondUserRole).2 =
        saveStatus s reservationId ReservationStatus.cancelled := by
    intro fault
    rw [cancelReservation_fault_eq, find?_saveStatus, hfind]
    simp only [Option.map_some']
    rw [if_neg hnot2]
    cases CancelFault.failure fault CancelOp.findReservation with
    | some m => rfl
    | none => rfl
  rw [hfirst]
  refine ⟨⟨_, rfl⟩, hsecond, ?_⟩
  intro fault
  simp only [hstore fault, and_self]

/-- Witness of C14: user 7 cancels the booking of A1 and A2 twice. -/
theorem cancelReservation_twice_witness :
    Succeeds (cancelReservation cinemaBooked none 1 7 "user").1 ∧
      cancelReservation (cancelReservation cinemaBooked none 1 7 "user").2 none 1 7 "user" =
        (.error (.http { status := 400, message := "Reservation is already cancelled." }),
          (cancelReservation cinemaBooked none 1 7 "user").2) :=
  ⟨(cancelReservation_twice cinemaBooked 1 7 "user" 7 "user"
      (Reservation.mk 1 7 1 60000000 20 ReservationStatus.confirmed) rfl (by decide)
      (Or.inl rfl) (Or.inl rfl)).1,
    (cancelReservation_twice cinemaBooked 1 7 "user" 7 "user"
      (Reservation.mk 1 7 1 60000000 20 ReservationStatus.confirmed) rfl (by decide)
      (Or.inl rfl) (Or.inl rfl)).2.1⟩

/-- C15: `getReservationById` throws a 404 error exactly when no Reservation
row has the id; when one has, it throws a 403 error exactly when the row's
`userId` differs from the requester and the role is not `admin`, and returns
that row with its ReservedSeat rows otherwise; it leaves the store as it
found it. -/
theorem getReservationById_gate (s : Store) (reservationId requestingUserId : Nat)
    (requestingUserRole : String) :
    ((∃ e, (getReservationById s reservationId requestingUserId requestingUserRole).1 =
          .error e ∧ e.status = 404) ↔
        ∀ r ∈ s.reservations, r.id ≠ reservationId) ∧
      ((∀ r ∈ s.reservations, r.id ≠ reservationId) →
        (getReservationById s reservationId requestingUserId requestingUserRole).1 =
          .error { status := 404, message := "Reservation not found." }) ∧
      (∀ r, s.reservations.find? (fun r => r.id == reservationId) = some r →
        ((∃ e, (getReservationById s reservationId requestingUserId requestingUserRole).1 =
            .error e ∧ e.status = 403) ↔
          (r.userId ≠ requestingUserId ∧ requestingUserRole ≠ "admin")) ∧
        (¬ (r.userId ≠ requestingUserId ∧ requestingUserRole ≠ "admin") →
          (getReservationById s reservationId requestingUserId requestingUserRole).1 =
            .ok (viewOf s r))) ∧
      (getReservationById s reservationId requestingUserId requestingUserRole).2 = s := by
  cases hfind : s.reservations.find? (fun r => r.id == reservationId) with
  | none =>
    have hval : getReservationById s reservationId requestingUserId requestingUserRole =
        (.error { status := 404, message := "Reservation not found." }, s) := by
      rw [getReservationById_eq, hfind]
    have hall := find?_id_none.1 hfind
    rw [hval]
    refine ⟨⟨fun _ => hall, fun _ => ⟨_, rfl, rfl⟩⟩, fun _ => rfl, ?_, rfl⟩
    intro r hr
    simp at hr
  | some r0 =>
    have hmem := find?_id_some hfind
    have hnotall : ¬ ∀ r ∈ s.reservations, r.id ≠ reservationId :=
      fun hall => hall r0 hmem.1 hmem.2
    by_cases hauth : r0.userId ≠ requestingUserId ∧ requestingUserRole ≠ "admin"
    · have hval : getReservationById s reservationId requestingUserId requestingUserRole =
          (.error { status := 403,
                    message := "Forbidden: You do not have permission to view this reservation." },
            s) := by
        rw [getReservationById_eq, hfind]
        simp only [if_pos hauth]
      rw [hval]
      refine ⟨⟨?_, fun hall => absurd hall hnotall⟩, fun hall => absurd hall hnotall, ?_, rfl⟩
      · rintro ⟨e, he, hs⟩
        simp only [Except.error.injEq] at he
        rw [← he] at hs
        simp at hs
      · intro r hr
        simp only [Option.some.injEq] at hr
        subst hr
        exact ⟨⟨fun _ => hauth, fun _ => ⟨_, rfl, rfl⟩⟩, fun hno => absurd hauth hno⟩
    · have hval : getReservationById s reservationId requestingUserId requestingUserRole =
          (.ok (viewOf s r0), s) := by
        rw [getReservationById_eq, hfind]
        simp only [if_neg hauth]
      rw [hval]
      refine ⟨⟨?_, fun hall => absurd hall hnotall⟩, fun hall => absurd hall hnotall, ?_, rfl⟩
      · rintro ⟨e, he, _⟩
        simp at he
      · intro r hr
        simp only [Option.some.injEq] at hr
        subst hr
        refine ⟨⟨?_, fun h => absurd h hauth⟩, fun _ => rfl⟩
        rintro ⟨e, he, _⟩
        simp at he

/-- C16, counterexample: in the cinema with the booking of user 7, the owner
cancels reservation 1, whose status is confirmed, so none of the three
failure cases applies; the save of line 190 answers and the re-fetch of line
194 rejects: the call throws the error of the store and leaves the
reservation cancelled, so the store is not the one the call found. -/
theorem cancelReservation_throws_after_save :
    cinemaBooked.reservations.find? (fun r => r.id == 1) =
        some (Reservation.mk 1 7 1 60000000 20 ReservationStatus.confirmed) ∧
      (cancelReservation cinemaBooked cancelReloadFails 1 7 "user").1 =
        .error (.storeFailure "Connection lost") ∧
      (cancelReservation cinemaBooked cancelReloadFails 1 7 "user").2.reservations =
        [Reservation.mk 1 7 1 60000000 20 ReservationStatus.cancelled] ∧
      (cancelReservation cinemaBooked cancelReloadFails 1 7 "user").2 ≠ cinemaBooked := by
  refine ⟨rfl, rfl, rfl, ?_⟩
  intro h
  have h2 := congrArg Store.reservations h
  revert h2
  decide

/-- C16, amended: when every store operation answers, `cancelReservation`
throws the 404 error when no Reservation row has the id; else the 403 error
when the requester neither owns the row nor is admin, whatever the row's
status; else the 400 `Reservation is already cancelled` error when the row's
status is cancelled; in every other case it returns. Whichever store
operation rejects, every error is one of these three or the error of that
operation, and every error thrown while the re-fetch of line 194 answers
leaves the store unchanged. -/
theorem cancelReservation_failure_cases (s : Store) (fault : Option CancelFault)
    (reservationId requestingUserId : Nat) (requestingUserRole : String) :
    ((∀ r ∈ s.reservations, r.id ≠ reservationId) →
        cancelReservation s none reservationId requestingUserId requestingUserRole =
          (.error (.http { status := 404, message := "Reservation not found." }), s)) ∧
      (∀ r, s.reservations.find? (fun r => r.id == reservationId) = some r →
        ((r.userId ≠ requestingUserId ∧ requestingUserRole ≠ "admin") →
          cancelReservation s none reservationId requestingUserId requestingUserRole =
            (.error (.http
              { status := 403,
                message :=
                  "Forbidden: You do not have permission to cancel this reservation." }),
              s)) ∧
        (¬ (r.userId ≠ requestingUserId ∧ requestingUserRole ≠ "admin") →
          r.status = ReservationStatus.cancelled →
          cancelReservation s none reservationId requestingUserId requestingUserRole =
            (.error (.http { status := 400, message := "Reservation is already cancelled." }),
              s)) ∧
        (¬ (r.userId ≠ requestingUserId ∧ requestingUserRole ≠ "admin") →
          r.status ≠ ReservationStatus.cancelled →
          Succeeds
            (cancelReservation s none reservationId requestingUserId requestingUserRole).1)) ∧
      (∀ e, (cancelReservation s fault reservationId requestingUserId requestingUserRole).1 =
          .error e →
        (∃ h : HttpError, e = .http h ∧ (h.status = 404 ∨ h.status = 403 ∨ h.status = 400)) ∨
          (∃ f, fault = some f ∧ e = .storeFailure f.message)) ∧
      (∀ e, (cancelReservation s fault reservationId requestingUserId requestingUserRole).1 =
          .error e →
        CancelFault.failure fault CancelOp.reloadReservation = none →
        (cancelReservation s fault reservationId requestingUserId requestingUserRole).2 = s) := by
  have hmsg : ∀ (op : CancelOp) (m : String), CancelFault.failure fault op = some m →
      ∃ f, fault = some f ∧ CancelError.storeFailure m = .storeFailure f.message := by
    intro op m hm
    cases fault with
    | none => simp [CancelFault.failure] at hm
    | some f =>
      refine ⟨f, rfl, ?_⟩
      unfold CancelFault.failure at hm
      simp only at hm
      split at hm
      · simp only [Option.some.injEq] at hm
        rw [hm]
      · cases hm
  have herr : ∀ e, (cancelReservation s fault reservationId requestingUserId
      requestingUserRole).1 = .error e →
      (∃ h : HttpError, e = .http h ∧ (h.status = 404 ∨ h.status = 403 ∨ h.status = 400)) ∨
        (∃ f, fault = some f ∧ e = .storeFailure f.message) := by
    intro e he
    rw [cancelReservation_fault_eq] at he
    cases hf : CancelFault.failure fault CancelOp.findReservation with
    | some m =>
      rw [hf] at he
      simp only [Except.error.injEq] at he
      subst he
      exact Or.inr (hmsg _ _ hf)
    | none =>
      rw [hf] at he
      cases hfind : s.reservations.find? (fun r => r.id == reservationId) with
      | none =>
        rw [hfind] at he
        simp only [Except.error.injEq] at he
        subst he
        exact Or.inl ⟨_, rfl, Or.inl rfl⟩
      | some r0 =>
        rw [hfind] at he
        by_cases hauth : r0.userId ≠ requestingUserId ∧ requestingUserRole ≠ "admin"
        · simp only [if_pos hauth, Except.error.injEq] at he
          subst he
          exact Or.inl ⟨_, rfl, Or.inr (Or.inl rfl)⟩
        · by_cases hst : r0.status = ReservationStatus.cancelled
          · simp only [if_neg hauth, if_pos hst, Except.error.injEq] at he
            subst he
            exact Or.inl ⟨_, rfl, Or.inr (Or.inr rfl)⟩
          · simp only [if_neg hauth, if_neg hst] at he
            cases hs : CancelFault.failure fault CancelOp.saveReservation with
            | some m =>
              rw [hs] at he
              simp only [Except.error.injEq] at he
              subst he
              exact Or.inr (hmsg _ _ hs)
            | none =>
              rw [hs] at he
              cases hr : CancelFault.failure fault CancelOp.reloadReservation with
              | some m =>
                rw [hr] at he
                simp only [Except.error.injEq] at he
                subst he
                exact Or.inr (hmsg _ _ hr)
              | none =>
                rw [hr] at he
                cases he
  refine ⟨?_, ?_, herr, fun e he hre => cancelReservation_error_store he hre⟩
  · intro hall
    rw [cancelReservation_eq, find?_id_none.2 hall]
  · intro r hfind
    refine ⟨?_, ?_, ?_⟩
    · intro hauth
      rw [cancelReservation_eq, hfind]
      simp only [if_pos hauth]
    · intro hauth hst
      rw [cancelReservation_eq, hfind]
      simp only [if_neg hauth, if_pos hst]
    · intro hauth hst
      rw [cancelReservation_of_found hfind hauth hst]
      exact ⟨_, rfl⟩

/-- Witness of C16: user 7 cancels the booking of A1 and A2 and the save
rejects; the booking is as it was. -/
theorem cancelReservation_failure_cases_witness :
    (cancelReservation cinemaBooked cancelSaveFails 1 7 "user").1 =
        .error (.storeFailure "Deadlock found") ∧
      (cancelReservation cinemaBooked cancelSaveFails 1 7 "user").2 = cinemaBooked :=
  ⟨rfl, (cancelReservation_failure_cases cinemaBooked cancelSaveFails 1 7 "user").2.2.2
    (.storeFailure "Deadlock found") rfl rfl⟩

/-- C17: when `cancelReservation` returns, the row R found under the id had a
status other than cancelled, the store it leaves is the prior store with the
status of the rows of that id set to cancelled: seats, showtimes, ReservedSeat
rows and counters are unchanged, and so are the other fields of R; the value
returned is R with status cancelled and R's ReservedSeat rows. With unique
reservation ids the Reservation table changes at R's place only. -/
theorem cancelReservation_changes_status_only (s : Store) (fault : Option CancelFault)
    (reservationId requestingUserId : Nat) (requestingUserRole : String)
    (v : ReservationView)
    (h : (cancelReservation s fault reservationId requestingUserId requestingUserRole).1 =
      .ok v) :
    ∃ r, s.reservations.find? (fun r => r.id == reservationId) = some r ∧
      r.status ≠ ReservationStatus.cancelled ∧
      (cancelReservation s fault reservationId requestingUserId requestingUserRole).2 =
        { s with reservations := s.reservations.map (fun x =>
            if x.id = reservationId then { x with status := ReservationStatus.cancelled }
            else x) } ∧
      v.reservation = { id := r.id, userId := r.userId, showtimeId := r.showtimeId,
                        reservedAt := r.reservedAt, totalPrice := r.totalPrice,
                        status := ReservationStatus.cancelled } ∧
      v.reservedSeats = s.reservedSeats.filter (fun rs => rs.reservationId == r.id) ∧
      (ReservationIdsUnique s →
        ∃ front back, s.reservations = front ++ r :: back ∧
          (cancelReservation s fault reservationId requestingUserId
              requestingUserRole).2.reservations =
            front ++ { r with status := ReservationStatus.cancelled } :: back) := by
  obtain ⟨r, hfind, _, hst, hval⟩ := cancelReservation_of_ok h
  rw [hval] at h ⊢
  simp only [Except.ok.injEq] at h
  subst h
  exact ⟨r, hfind, hst, rfl, rfl, rfl, fun huniq => saveStatus_split huniq hfind _⟩

/-- Witness of C17: user 7 cancels the booking of A1 and A2. -/
theorem cancelReservation_changes_status_only_witness :
    ∃ r, cinemaBooked.reservations.find? (fun r => r.id == 1) = some r ∧
      r.status ≠ ReservationStatus.cancelled ∧
      (cancelReservation cinemaBooked none 1 7 "user").2 =
        { cinemaBooked with reservations := cinemaBooked.reservations.map (fun x =>
            if x.id = 1 then { x with status := ReservationStatus.cancelled } else x) } :=
  match cancelReservation_changes_status_only cinemaBooked none 1 7 "user"
      (viewOf cinemaBooked (Reservation.mk 1 7 1 60000000 20 ReservationStatus.cancelled))
      rfl with
  | ⟨r, h1, h2, h3, _⟩ => ⟨r, h1, h2, h3⟩

/-- C13: on a store with unique seat ids and at most one active claim per
showtime and seat, for a reservation R whose status is other than cancelled
and a requester that owns it or is admin, every store operation answering,
`cancelReservation` returns, R's ReservedSeat rows are still in the store,
and `createReservation` for R's showtime and any non-empty duplicate-free
list of R's seats that are seats of the showtime's theater returns. -/
theorem createReservation_after_cancel (s : Store) (env : Env)
    (reservationId requestingUserId : Nat) (requestingUserRole : String)
    (userId : Nat) (seatIds : List Nat) (r : Reservation) (showtime : Showtime)
    (hseats : SeatIdsUnique s) (hinv : AtMostOneActiveClaim s) (henv : env.fault = none)
    (hfind : s.reservations.find? (fun r => r.id == reservationId) = some r)
    (hstatus : r.status ≠ ReservationStatus.cancelled)
    (hauth : r.userId = requestingUserId ∨ requestingUserRole = "admin")
    (hst : findShowtimeByPk s r.showtimeId = some showtime)
    (hne : seatIds ≠ []) (hnd : seatIds.Nodup)
    (hsub : ∀ x ∈ seatIds, x ∈ seatsOf s reservationId)
    (hall : ∀ x ∈ seatIds, ∃ seat ∈ s.seats, seat.id = x ∧ seat.theaterId = showtime.theaterId) :
    Succeeds (cancelReservation s none reservationId requestingUserId requestingUserRole).1 ∧
      (cancelReservation s none reservationId requestingUserId
          requestingUserRole).2.reservedSeats = s.reservedSeats ∧
      seatsOf (cancelReservation s none reservationId requestingUserId requestingUserRole).2
        reservationId = seatsOf s reservationId ∧
      Succeeds (createReservation
        (cancelReservation s none reservationId requestingUserId requestingUserRole).2
        env userId r.showtimeId seatIds).1 := by
  have hnot : ¬ (r.userId ≠ requestingUserId ∧ requestingUserRole ≠ "admin") := by
    rintro ⟨h1, h2⟩
    rcases hauth with h | h
    · exact h1 h
    · exact h2 h
  obtain ⟨hmem, hid⟩ := find?_id_some hfind
  rw [cancelReservation_of_found hfind hnot hstatus]
  refine ⟨⟨_, rfl⟩, rfl, rfl, ?_⟩
  have hfree : ¬ ∃ x ∈ seatIds,
      HasActiveClaim (saveStatus s reservationId ReservationStatus.cancelled) r.showtimeId x := by
    rintro ⟨x, hx, hact⟩
    subst hid
    exact no_active_claim_after_cancel hinv hmem hstatus (hsub x hx) hact
  have hseats2 : SeatIdsUnique (saveStatus s reservationId ReservationStatus.cancelled) := hseats
  have hst2 : findShowtimeByPk (saveStatus s reservationId ReservationStatus.cancelled)
      r.showtimeId = some showtime := hst
  exact createReservation_succeeds_of_free hseats2 henv userId r.showtimeId hst2 hne hnd hall
    hfree

/-- Witness of C13: after user 7 cancelled the booking of A1 and A2, user 3
books A2 for the same showtime. -/
theorem createReservation_after_cancel_witness :
    (cancelReservation cinemaBooked none 1 7 "user").2.reservedSeats =
        cinemaBooked.reservedSeats ∧
      Succeeds (createReservation (cancelReservation cinemaBooked none 1 7 "user").2
        quiet 3 1 [2]).1 :=
  ⟨(createReservation_after_cancel cinemaBooked quiet 1 7 "user" 3 [2]
      (Reservation.mk 1 7 1 60000000 20 ReservationStatus.confirmed)
      (Showtime.mk 1 1 1 64800000 72000000)
      seatIdsUnique_cinemaBooked atMostOneActiveClaim_cinemaBooked rfl rfl (by decide)
      (Or.inl rfl) rfl (by decide) (by decide) (by decide) (by decide)).2.1,
    (createReservation_after_cancel cinemaBooked quiet 1 7 "user" 3 [2]
      (Reservation.mk 1 7 1 60000000 20 ReservationStatus.confirmed)
      (Showtime.mk 1 1 1 64800000 72000000)
      seatIdsUnique_cinemaBooked atMostOneActiveClaim_cinemaBooked rfl rfl (by decide)
      (Or.inl rfl) rfl (by decide) (by decide) (by decide) (by decide)).2.2.2⟩

/-- C18: every call of `createReservation`, `getReservationById`,
`cancelReservation` or `getAllReservations`, whichever store operation
rejects, leaves each Reservation row it found in place, either as it was or
moved from a status other than cancelled to cancelled with nothing else
changed, and appends only rows that are not pending; so a cancelled row is
never changed and no status becomes pending. -/
theorem status_monotone (s : Store) :
    (∀ env userId showtimeId seatIds,
        StatusMonotone s.reservations
          (createReservation s env userId showtimeId seatIds).2.reservations) ∧
      (∀ reservationId requestingUserId requestingUserRole,
        StatusMonotone s.reservations
          (getReservationById s reservationId requestingUserId
            requestingUserRole).2.reservations) ∧
      (∀ fault reservationId requestingUserId requestingUserRole,
        StatusMonotone s.reservations
          (cancelReservation s fault reservationId requestingUserId
            requestingUserRole).2.reservations) ∧
      StatusMonotone s.reservations (getAllReservations s).2.reservations ∧
      (∀ before after, StatusMonotone before after →
        ∃ kept added, after = kept ++ added ∧
          List.Forall₂ (fun a b =>
            b.id = a.id ∧
            (b.status = a.status ∨
              (a.status ≠ ReservationStatus.cancelled ∧
                b.status = ReservationStatus.cancelled)) ∧
            (a.status = ReservationStatus.cancelled → b = a) ∧
            (b.status = ReservationStatus.pending → b = a)) before kept ∧
          ∀ r ∈ added, r.status ≠ ReservationStatus.pending) := by
  refine ⟨?_, ?_, ?_, statusMonotone_refl _, ?_⟩
  · intro env userId showtimeId seatIds
    rcases createReservation_store s env userId showtimeId seatIds with h | ⟨c, r, hbody, h⟩
    · rw [h]
      exact statusMonotone_refl _
    · obtain ⟨_, _, _, _, hr, hc⟩ := transactionBody_ok hbody
      rw [h, hc, hr]
      exact statusMonotone_insertAll s env userId showtimeId _ seatIds
  · intro reservationId requestingUserId requestingUserRole
    rw [getReservationById_store]
    exact statusMonotone_refl _
  · intro fault reservationId requestingUserId requestingUserRole
    rcases cancelReservation_store s fault reservationId requestingUserId requestingUserRole
      with h | h
    · rw [h]
      exact statusMonotone_refl _
    · rw [h]
      exact statusMonotone_saveStatus s reservationId
  · rintro before after ⟨kept, added, hafter, hstep, hadded⟩
    refine ⟨kept, added, hafter, ?_, hadded⟩
    refine hstep.imp ?_
    intro a b hab
    refine ⟨?_, ?_, hab.cancelled_fixed, hab.pending_kept⟩
    · rcases hab with h | ⟨_, h⟩
      · rw [h]
      · rw [h]
    · rcases hab with h | ⟨hne, h⟩
      · left
        rw [h]
      · right
        exact ⟨hne, by rw [h]⟩

/-- C19: on a store whose every ReservedSeat row references an existing
Reservation row, `deleteReservation` throws the 404 error and changes nothing
exactly when no Reservation row has the id; when it returns, no Reservation
row has the id, no ReservedSeat row references it, every other Reservation
and ReservedSeat row, every seat and every showtime is as before, and every
ReservedSeat row left still references an existing Reservation row. -/
theorem deleteReservation_cascades (s : Store) (reservationId : Nat)
    (horphan : NoOrphanClaims s) :
    (((∃ e, (deleteReservation s reservationId).1 = .error e ∧ e.status = 404) ∧
          (deleteReservation s reservationId).2 = s) ↔
        ∀ r ∈ s.reservations, r.id ≠ reservationId) ∧
      ((∀ r ∈ s.reservations, r.id ≠ reservationId) →
        deleteReservation s reservationId =
          (.error { status := 404, message := "Reservation not found." }, s)) ∧
      (Succeeds (deleteReservation s reservationId).1 →
        (∀ r ∈ (deleteReservation s reservationId).2.reservations, r.id ≠ reservationId) ∧
          (∀ rs ∈ (deleteReservation s reservationId).2.reservedSeats,
            rs.reservationId ≠ reservationId) ∧
          (deleteReservation s reservationId).2.reservations =
            s.reservations.filter (fun r => r.id != reservationId) ∧
          (deleteReservation s reservationId).2.reservedSeats =
            s.reservedSeats.filter (fun rs => rs.reservationId != reservationId) ∧
          (deleteReservation s reservationId).2.seats = s.seats ∧
          (deleteReservation s reservationId).2.showtimes = s.showtimes ∧
          NoOrphanClaims (deleteReservation s reservationId).2) := by
  cases hfind : s.reservations.find? (fun r => r.id == reservationId) with
  | none =>
    have hval : deleteReservation s reservationId =
        (.error { status := 404, message := "Reservation not found." }, s) := by
      rw [deleteReservation_eq, hfind]
    have hall := find?_id_none.1 hfind
    rw [hval]
    refine ⟨⟨fun _ => hall, fun _ => ⟨⟨_, rfl, rfl⟩, rfl⟩⟩, fun _ => rfl, ?_⟩
    rintro ⟨v, hv⟩
    simp at hv
  | some r0 =>
    have hval : deleteReservation s reservationId =
        (.ok (), destroyReservation s reservationId) := by
      rw [deleteReservation_eq, hfind]
    have hmem := find?_id_some hfind
    rw [hval]
    refine ⟨⟨?_, fun hall => absurd hmem.2 (hall r0 hmem.1)⟩,
      fun hall => absurd hmem.2 (hall r0 hmem.1), ?_⟩
    · rintro ⟨⟨e, he, _⟩, _⟩
      simp at he
    · intro _
      refine ⟨?_, ?_, rfl, rfl, rfl, rfl, noOrphanClaims_destroyReservation horphan _⟩
      · intro r hr
        simp only [destroyReservation, List.mem_filter] at hr
        simpa using hr.2
      · intro rs hrs
        simp only [destroyReservation, cascadeReservedSeats, List.mem_filter] at hrs
        simpa using hrs.2

/-- Witness of C19: the booking of A1 and A2 is deleted with its two claims. -/
theorem deleteReservation_cascades_witness :
    Succeeds (deleteReservation cinemaBooked 1).1 ∧
      (deleteReservation cinemaBooked 1).2.reservations = [] ∧
      (deleteReservation cinemaBooked 1).2.reservedSeats = [] ∧
      NoOrphanClaims (deleteReservation cinemaBooked 1).2 :=
  ⟨⟨(), rfl⟩, by decide, by decide,
    ((deleteReservation_cascades cinemaBooked 1 (by unfold NoOrphanClaims; decide)).2.2
      ⟨(), rfl⟩).2.2.2.2.2.2⟩

/-- C20: `getAllReservations` returns every Reservation row once, each with
its ReservedSeat rows and none filtered out: the rows returned are a
permutation of the Reservation table, and from first to last `reservedAt`
does not increase; the store is left as found. -/
theorem getAllReservations_sorted_perm (s : Store) :
    List.Perm ((getAllReservations s).1.map (fun v => v.reservation)) s.reservations ∧
      ((getAllReservations s).1.map (fun v => v.reservation)).Sorted
        (fun a b => b.reservedAt ≤ a.reservedAt) ∧
      (∀ v ∈ (getAllReservations s).1, v = viewOf s v.reservation) ∧
      (getAllReservations s).1.length = s.reservations.length ∧
      (getAllReservations s).2 = s := by
  have hmap : (getAllReservations s).1.map (fun v => v.reservation) =
      s.reservations.insertionSort mostRecentFirst := by
    simp only [getAllReservations, List.map_map]
    conv_rhs => rw [← List.map_id (s.reservations.insertionSort mostRecentFirst)]
    rfl
  refine ⟨?_, ?_, ?_, ?_, rfl⟩
  · rw [hmap]
    exact List.perm_insertionSort mostRecentFirst s.reservations
  · rw [hmap]
    exact sorted_insertionSort_mostRecentFirst s.reservations
  · intro v hv
    simp only [getAllReservations, List.mem_map] at hv
    obtain ⟨r, _, hr⟩ := hv
    rw [← hr]
    rfl
  · simp [getAllReservations, List.length_insertionSort]

/-- C30: the four-case condition of `checkOverlap` is symmetric: for all times,
with nothing assumed about their order, it holds of a candidate against an
existing interval exactly when it holds with the two intervals swapped. -/
theorem overlapCondition_symmetric (s e s2 e2 : Int) :
    overlapCondition s e s2 e2 = overlapCondition s2 e2 s e := by
  rw [Bool.eq_iff_iff, overlapCondition_iff, overlapCondition_iff]
  omega

/-- C21: in a store whose showtimes all start before they end, for a
candidate that starts before it ends, `checkOverlap` without exclusion
returns true exactly when some showtime of the theater has
`existing.startTime < endTime` and `startTime < existing.endTime`; the
showtimes of other theaters do not influence the result. -/
theorem checkOverlap_iff_halfOpen (s : Store) (theaterId : Nat) (startTime endTime : Int)
    (hvalid : ShowtimesValid s.showtimes) (hcand : startTime < endTime) :
    (checkOverlap s theaterId startTime endTime none = true ↔
        ∃ existing ∈ s.showtimes, existing.theaterId = theaterId ∧
          existing.startTime < endTime ∧ startTime < existing.endTime) ∧
      checkOverlap s theaterId startTime endTime none =
        checkOverlap
          { s with showtimes := s.showtimes.filter (fun st => st.theaterId == theaterId) }
          theaterId startTime endTime none := by
  constructor
  · rw [checkOverlap_iff]
    constructor
    · rintro ⟨existing, hmem, hw⟩
      rw [overlapWhere_none_iff] at hw
      exact ⟨existing, hmem, hw.1,
        (overlapCondition_iff_halfOpen hcand (hvalid existing hmem)).1 hw.2⟩
    · rintro ⟨existing, hmem, hth, hov⟩
      exact ⟨existing, hmem,
        (overlapWhere_none_iff _ _ _ _).2 ⟨hth, overlapCondition_of_halfOpen hov⟩⟩
  · rw [Bool.eq_iff_iff, checkOverlap_iff, checkOverlap_iff]
    constructor
    · rintro ⟨existing, hmem, hw⟩
      refine ⟨existing, ?_, hw⟩
      simp only [List.mem_filter]
      exact ⟨hmem, by simpa using ((overlapWhere_none_iff _ _ _ _).1 hw).1⟩
    · rintro ⟨existing, hmem, hw⟩
      simp only [List.mem_filter] at hmem
      exact ⟨existing, hmem.1, hw⟩

/-- Witness of C21: the candidate 19:00-21:00 in theater 1 of the cinema
overlaps the showtime 18:00-20:00. -/
theorem checkOverlap_iff_halfOpen_witness :
    checkOverlap cinema 1 68400000 75600000 none = true :=
  (checkOverlap_iff_halfOpen cinema 1 68400000 75600000 (by unfold ShowtimesValid; decide)
    (by decide)).1.2 ⟨Showtime.mk 1 1 1 64800000 72000000, by decide, rfl, by decide, by decide⟩

/-- C22: when every showtime of the theater starts before it ends and either
ends at or before the candidate's start or starts at or after the candidate's
end, `checkOverlap` returns false for a candidate that starts before it
ends. -/
theorem checkOverlap_touching (s : Store) (theaterId : Nat) (startTime endTime : Int)
    (hcand : startTime < endTime)
    (hclear : ∀ existing ∈ s.showtimes, existing.theaterId = theaterId →
      existing.startTime < existing.endTime ∧
        (existing.endTime ≤ startTime ∨ endTime ≤ existing.startTime)) :
    checkOverlap s theaterId startTime endTime none = false := by
  rw [Bool.eq_false_iff]
  intro htrue
  obtain ⟨existing, hmem, hw⟩ := (checkOverlap_iff _ _ _ _ _).1 htrue
  rw [overlapWhere_none_iff] at hw
  obtain ⟨hval, hside⟩ := hclear existing hmem hw.1
  have := (overlapCondition_iff_halfOpen hcand hval).1 hw.2
  omega

/-- Witness of C22: the candidate 10:00-12:00 against a single showtime
12:00-14:00 gives false; against 11:00-13:00 and against 09:00-15:00 it gives
true. -/
theorem checkOverlap_touching_witness :
    checkOverlap (oneShowtime 43200000 50400000) 1 36000000 43200000 none = false ∧
      checkOverlap (oneShowtime 39600000 46800000) 1 36000000 43200000 none = true ∧
      checkOverlap (oneShowtime 32400000 54000000) 1 36000000 43200000 none = true :=
  ⟨checkOverlap_touching (oneShowtime 43200000 50400000) 1 36000000 43200000 (by decide)
      (by decide), by decide, by decide⟩

/-- C23: for an id `x` that is truthy, or in a store without a Showtime row of
id 0, `checkOverlap` with `x` excluded equals `checkOverlap` without
exclusion on the store with the rows of id `x` removed; and when
`updateShowtime` of `x` throws the overlap error, a row of another id, in the
resulting theater, meets the four-case condition with the resulting times. -/
theorem checkOverlap_exclusion (inv : Inventory) (theaterId : Nat) (startTime endTime : Int)
    (x : Nat) (updateData : ShowtimeUpdate)
    (h : x ≠ 0 ∨ ∀ st ∈ inv.showtimes, st.id ≠ 0) :
    checkOverlap inv.toStore theaterId startTime endTime (some x) =
        checkOverlap (removeShowtime inv.toStore x) theaterId startTime endTime none ∧
      ((updateShowtime inv x updateData).1 = .error .updatedOverlaps →
        ∃ stored newStart newEnd other,
          findShowtimeByPk inv.toStore x = some stored ∧
          newTime updateData.startTime stored.startTime = some newStart ∧
          newTime updateData.endTime stored.endTime = some newEnd ∧
          other ∈ inv.showtimes ∧ other.id ≠ x ∧
          other.theaterId = updateData.theaterId.getD stored.theaterId ∧
          overlapCondition newStart newEnd other.startTime other.endTime = true) := by
  refine ⟨checkOverlap_exclude_eq inv.toStore theaterId startTime endTime x h, ?_⟩
  intro herr
  rcases updateShowtime_cases inv x updateData with ⟨_, hne⟩ |
    ⟨stored, newStart, newEnd, hfind, hs, he, _, hov, _⟩ |
    ⟨stored, newStart, newEnd, hfind, hs, he, hlt, hov, hstore⟩
  · exact absurd herr hne
  · rw [checkOverlap_exclude_eq inv.toStore _ _ _ x h, checkOverlap_iff] at hov
    obtain ⟨other, hmem, hw⟩ := hov
    simp only [removeShowtime, List.mem_filter] at hmem
    rw [overlapWhere_none_iff] at hw
    exact ⟨stored, newStart, newEnd, other, hfind, hs, he, hmem.1, by simpa using hmem.2,
      hw.1, hw.2⟩
  · rw [updateShowtime_of_found hfind hs he] at herr
    have h1 : ¬ newStart ≥ newEnd := by omega
    rw [if_neg h1] at herr
    split at herr
    · simp at herr
    split at herr
    · simp at herr
    rw [hov] at herr
    simp at herr

/-- Witness of C23: showtime 1 of the cinema keeps its times and does not
conflict with itself. -/
theorem checkOverlap_exclusion_witness :
    checkOverlap venue.toStore 1 64800000 72000000 (some 1) = false ∧
      checkOverlap venue.toStore 1 64800000 72000000 none = true :=
  ⟨(checkOverlap_exclusion venue 1 64800000 72000000 1
      (ShowtimeUpdate.mk none none TimeInput.falsyInvalid TimeInput.falsyInvalid)
      (Or.inl (by decide))).1.trans (by decide), by decide⟩

/-- C24: in a store where no two showtimes of one theater overlap under
half-open semantics, the store after `createShowtime`, whether it returns or
throws, again has no two overlapping showtimes in any theater; and its
showtimes all start before they end when those of the store it found did. -/
theorem createShowtime_preserves_noOverlap (inv : Inventory) (movieId theaterId : Nat)
    (startTime endTime : TimeInput) (hno : NoOverlap inv.showtimes) :
    NoOverlap (createShowtime inv movieId theaterId startTime endTime).2.showtimes ∧
      (ShowtimesValid inv.showtimes →
        ShowtimesValid (createShowtime inv movieId theaterId startTime endTime).2.showtimes) := by
  rcases createShowtime_store inv movieId theaterId startTime endTime with h |
    ⟨start, finish, hlt, hcheck, hrows⟩
  · rw [h]
    exact ⟨hno, fun hv => hv⟩
  · rw [hrows]
    constructor
    · apply noOverlap_append_single hno
      intro a ha hth hover
      have hcond := overlapCondition_false_of_checkOverlap hcheck ha hth (by simp)
      rw [overlapCondition_of_halfOpen ⟨hover.1, hover.2⟩] at hcond
      simp at hcond
    · intro hv st hst
      rw [List.mem_append, List.mem_singleton] at hst
      rcases hst with hst | hst
      · exact hv st hst
      · rw [hst]
        exact hlt

/-- Witness of C24: a showtime 19:00-21:00 is created in the empty theater 2
of the cinema. -/
theorem createShowtime_preserves_noOverlap_witness :
    Succeeds (createShowtime venue 1 2 (TimeInput.date 68400000) (TimeInput.date 75600000)).1 ∧
      NoOverlap (createShowtime venue 1 2 (TimeInput.date 68400000)
        (TimeInput.date 75600000)).2.showtimes :=
  ⟨⟨_, rfl⟩,
    (createShowtime_preserves_noOverlap venue 1 2 (TimeInput.date 68400000)
      (TimeInput.date 75600000) noOverlap_venue).1⟩

/-- C25: in a store with unique showtime ids where no two showtimes of one
theater overlap, the store after `updateShowtime`, for every id and every
`updateData` (a move to another theater included), whether it returns a row,
returns `null` or throws, again has no two overlapping showtimes in any
theater, and its showtime ids are again unique. -/
theorem updateShowtime_preserves_noOverlap (inv : Inventory) (id : Nat)
    (updateData : ShowtimeUpdate) (hno : NoOverlap inv.showtimes)
    (huniq : ShowtimeIdsUnique inv.showtimes) :
    NoOverlap (updateShowtime inv id updateData).2.showtimes ∧
      ShowtimeIdsUnique (updateShowtime inv id updateData).2.showtimes := by
  rcases updateShowtime_cases inv id updateData with ⟨h, _⟩ |
    ⟨_, _, _, _, _, _, _, _, h⟩ |
    ⟨stored, newStart, newEnd, _, _, _, _, hcheck, h⟩
  · rw [h]
    exact ⟨hno, huniq⟩
  · rw [h]
    exact ⟨hno, huniq⟩
  · rw [h]
    refine ⟨noOverlap_saveShowtime hno huniq _ _ _ _ _ ?_,
      showtimeIdsUnique_saveShowtime huniq _ _ _ _ _⟩
    intro b hb hbid hth hover
    have hcond := overlapCondition_false_of_checkOverlap hcheck hb hth
      (by
        intro x hx
        simp only [Option.some.injEq] at hx
        rw [← hx]
        exact hbid)
    rw [overlapCondition_of_halfOpen hover] at hcond
    simp at hcond

/-- Witness of C25: showtime 2 of the cinema is moved to theater 2 and to
18:30-19:30. -/
theorem updateShowtime_preserves_noOverlap_witness :
    Succeeds (updateShowtime venue 2
        (ShowtimeUpdate.mk none (some 2) (TimeInput.date 66600000)
          (TimeInput.date 70200000))).1 ∧
      NoOverlap (updateShowtime venue 2
        (ShowtimeUpdate.mk none (some 2) (TimeInput.date 66600000)
          (TimeInput.date 70200000))).2.showtimes :=
  ⟨⟨_, rfl⟩,
    (updateShowtime_preserves_noOverlap venue 2
      (ShowtimeUpdate.mk none (some 2) (TimeInput.date 66600000) (TimeInput.date 70200000))
      noOverlap_venue showtimeIdsUnique_venue).1⟩

/-- C26: for an existing movie and theater and a candidate whose times parse
and are in order, if some showtime of the theater overlaps the candidate
under half-open semantics, `createShowtime` throws the `Showtime overlaps
with an existing showtime in this theater.` error and leaves the store as it
found it; the controller answers it with status 409. -/
theorem createShowtime_overlap_rejected (inv : Inventory) (movieId theaterId : Nat)
    (startTime endTime : TimeInput) (start finish : Int)
    (hs : startTime.toDate = some start) (he : endTime.toDate = some finish)
    (hmovie : movieId ∈ inv.movieIds) (htheater : theaterId ∈ inv.theaterIds)
    (hlt : start < finish)
    (hover : ∃ existing ∈ inv.showtimes, existing.theaterId = theaterId ∧
      existing.startTime < finish ∧ start < existing.endTime) :
    createShowtime inv movieId theaterId startTime endTime = (.error .overlaps, inv) ∧
      ShowtimeError.overlaps.message =
        "Showtime overlaps with an existing showtime in this theater." ∧
      (movieId ≠ 0 → theaterId ≠ 0 → startTime.truthy = true → endTime.truthy = true →
        ShowtimeController.create inv movieId theaterId startTime endTime =
          ({ status := conflictStatus,
             message := some "Showtime overlaps with an existing showtime in this theater.",
             body := none }, inv)) := by
  have hcheck : checkOverlap inv.toStore theaterId start finish none = true := by
    rw [checkOverlap_iff]
    obtain ⟨existing, hmem, hth, hov⟩ := hover
    exact ⟨existing, hmem,
      (overlapWhere_none_iff _ _ _ _).2 ⟨hth, overlapCondition_of_halfOpen hov⟩⟩
  have hcall : createShowtime inv movieId theaterId startTime endTime =
      (.error .overlaps, inv) := by
    rw [createShowtime_of_dates movieId theaterId hs he, if_neg (by omega),
      if_neg (by simpa using hmovie), if_neg (by simpa using htheater), if_pos hcheck]
  refine ⟨hcall, rfl, ?_⟩
  intro hm ht hst het
  rw [ShowtimeController.create_of_error hm ht hst het hcall, showtimeErrorResponse_overlaps]
  rfl

/-- Witness of C26: theater 1 has the showtime 18:00-20:00 and the candidate
is 19:00-21:00. -/
theorem createShowtime_overlap_rejected_witness :
    createShowtime venue 1 1 (TimeInput.date 68400000) (TimeInput.date 75600000) =
        (.error .overlaps, venue) ∧
      (ShowtimeController.create venue 1 1 (TimeInput.date 68400000)
        (TimeInput.date 75600000)).1.status = 409 :=
  ⟨(createShowtime_overlap_rejected venue 1 1 (TimeInput.date 68400000)
      (TimeInput.date 75600000) 68400000 75600000 rfl rfl (by decide) (by decide) (by decide)
      ⟨Showtime.mk 1 1 1 64800000 72000000, by decide, rfl, by decide, by decide⟩).1,
    by decide⟩

/-- C27: in a store whose showtimes all start before they end, `createShowtime`
throws `Invalid start or end time.` whenever its start is not before its end,
and `updateShowtime` of an existing row does whenever the resulting start,
supplied or stored, is not before the resulting end, supplied or stored;
both do so whatever the movie, the theater and the other showtimes are, and
leave the store unchanged; the store after either operation has every
showtime start before it ends. -/
theorem showtime_times_in_order (inv : Inventory) (hvalid : ShowtimesValid inv.showtimes) :
    (∀ movieId theaterId startTime endTime start finish,
        startTime.toDate = some start → endTime.toDate = some finish → finish ≤ start →
        createShowtime inv movieId theaterId startTime endTime = (.error .invalidTime, inv)) ∧
      (∀ id updateData stored newStart newEnd,
        findShowtimeByPk inv.toStore id = some stored →
        newTime updateData.startTime stored.startTime = some newStart →
        newTime updateData.endTime stored.endTime = some newEnd → newEnd ≤ newStart →
        updateShowtime inv id updateData = (.error .invalidTime, inv)) ∧
      ShowtimeError.invalidTime.message = "Invalid start or end time." ∧
      (∀ movieId theaterId startTime endTime,
        ShowtimesValid (createShowtime inv movieId theaterId startTime endTime).2.showtimes) ∧
      (∀ id updateData,
        ShowtimesValid (updateShowtime inv id updateData).2.showtimes) := by
  refine ⟨?_, ?_, rfl, ?_, ?_⟩
  · intro movieId theaterId startTime endTime start finish hs he hle
    rw [createShowtime_of_dates movieId theaterId hs he, if_pos (by omega)]
  · intro id updateData stored newStart newEnd hfind hs he hle
    rw [updateShowtime_of_found hfind hs he, if_pos (by omega)]
  · intro movieId theaterId startTime endTime
    rcases createShowtime_store inv movieId theaterId startTime endTime with h |
      ⟨start, finish, hlt, _, hrows⟩
    · rw [h]
      exact hvalid
    · rw [hrows]
      intro st hst
      rw [List.mem_append, List.mem_singleton] at hst
      rcases hst with hst | hst
      · exact hvalid st hst
      · rw [hst]
        exact hlt
  · intro id updateData
    rcases updateShowtime_cases inv id updateData with ⟨h, _⟩ |
      ⟨_, _, _, _, _, _, _, _, h⟩ |
      ⟨stored, newStart, newEnd, _, _, _, hlt, _, h⟩
    · rw [h]
      exact hvalid
    · rw [h]
      exact hvalid
    · rw [h]
      exact showtimesValid_saveShowtime hvalid _ _ _ hlt

/-- Witness of C27: a showtime from 21:00 to 19:00 for the unknown movie 99 is
rejected for its times; so is moving only the start of showtime 1 to its
stored end. -/
theorem showtime_times_in_order_witness :
    createShowtime venue 99 1 (TimeInput.date 75600000) (TimeInput.date 68400000) =
        (.error .invalidTime, venue) ∧
      updateShowtime venue 1
          (ShowtimeUpdate.mk none none (TimeInput.date 72000000) TimeInput.falsyInvalid) =
        (.error .invalidTime, venue) :=
  ⟨(showtime_times_in_order venue showtimesValid_venue).1 99 1 (TimeInput.date 75600000)
      (TimeInput.date 68400000) 75600000 68400000 rfl rfl (by decide),
    (showtime_times_in_order venue showtimesValid_venue).2.1 1
      (ShowtimeUpdate.mk none none (TimeInput.date 72000000) TimeInput.falsyInvalid)
      (Showtime.mk 1 1 1 64800000 72000000) 72000000 72000000 rfl rfl rfl (by decide)⟩

/-- C28, counterexample: in the cinema the request for a showtime from 21:00
to 19:00 and the request for the overlapping 19:00-21:00 are both answered
with status 409, not with the status 400 of a validation failure; so are the
two updates of showtime 1. -/
theorem showtime_invalid_time_reported_conflict :
    (ShowtimeController.create venue 1 1 (TimeInput.date 75600000)
        (TimeInput.date 68400000)).1.status = conflictStatus ∧
      (ShowtimeController.create venue 1 1 (TimeInput.date 75600000)
        (TimeInput.date 68400000)).1.status ≠ validationFailureStatus ∧
      (ShowtimeController.create venue 1 1 (TimeInput.date 75600000)
        (TimeInput.date 68400000)).1.status =
        (ShowtimeController.create venue 1 1 (TimeInput.date 68400000)
          (TimeInput.date 75600000)).1.status ∧
      (ShowtimeController.update venue 1 1
        (ShowtimeUpdate.mk none none (TimeInput.date 72000000)
          TimeInput.falsyInvalid)).1.status =
        (ShowtimeController.update venue 1 1
          (ShowtimeUpdate.mk none none TimeInput.falsyInvalid
            (TimeInput.date 75600001))).1.status := by
  refine ⟨?_, ?_, ?_, ?_⟩ <;> decide

/-- C28, amended: a `createShowtime` or `updateShowtime` request that passes
the controller's field check and is rejected because its start is not before
its end is answered with status 409, the status of the request rejected for
an overlapping interval; the two answers differ in their message only. -/
theorem showtime_error_statuses (inv : Inventory) (movieId theaterId id bodyKeys : Nat)
    (startTime endTime : TimeInput) (updateData : ShowtimeUpdate)
    (hm : movieId ≠ 0) (ht : theaterId ≠ 0)
    (hs : startTime.truthy = true) (he : endTime.truthy = true) (hk : bodyKeys ≠ 0) :
    ((createShowtime inv movieId theaterId startTime endTime).1 = .error .invalidTime →
        (ShowtimeController.create inv movieId theaterId startTime endTime).1 =
          { status := conflictStatus, message := some "Invalid start or end time.",
            body := none }) ∧
      ((createShowtime inv movieId theaterId startTime endTime).1 = .error .overlaps →
        (ShowtimeController.create inv movieId theaterId startTime endTime).1 =
          { status := conflictStatus,
            message := some "Showtime overlaps with an existing showtime in this theater.",
            body := none }) ∧
      ((updateShowtime inv id updateData).1 = .error .invalidTime →
        (ShowtimeController.update inv id bodyKeys updateData).1 =
          { status := conflictStatus, message := some "Invalid start or end time.",
            body := none }) ∧
      ((updateShowtime inv id updateData).1 = .error .updatedOverlaps →
        (ShowtimeController.update inv id bodyKeys updateData).1 =
          { status := conflictStatus,
            message :=
              some "Updated showtime overlaps with an existing showtime in this theater.",
            body := none }) := by
  have hc : ∀ error, (createShowtime inv movieId theaterId startTime endTime).1 = .error error →
      (ShowtimeController.create inv movieId theaterId startTime endTime).1 =
        showtimeErrorResponse error "Error creating showtime." := by
    intro error herr
    have hpair : createShowtime inv movieId theaterId startTime endTime =
        (.error error, (createShowtime inv movieId theaterId startTime endTime).2) := by
      rw [← herr]
    rw [ShowtimeController.create_of_error hm ht hs he hpair]
  have hu : ∀ error, (updateShowtime inv id updateData).1 = .error error →
      (ShowtimeController.update inv id bodyKeys updateData).1 =
        showtimeErrorResponse error "Error updating showtime." := by
    intro error herr
    have hpair : updateShowtime inv id updateData =
        (.error error, (updateShowtime inv id updateData).2) := by
      rw [← herr]
    rw [ShowtimeController.update_of_error hk hpair]
  refine ⟨fun h => ?_, fun h => ?_, fun h => ?_, fun h => ?_⟩
  · rw [hc _ h, showtimeErrorResponse_invalidTime]
    rfl
  · rw [hc _ h, showtimeErrorResponse_overlaps]
    rfl
  · rw [hu _ h, showtimeErrorResponse_invalidTime]
    rfl
  · rw [hu _ h, showtimeErrorResponse_updatedOverlaps]
    rfl

/-- Witness of C28, amended: the request for a showtime from 21:00 to 19:00
in the cinema. -/
theorem showtime_error_statuses_witness :
    (ShowtimeController.create venue 1 1 (TimeInput.date 75600000)
      (TimeInput.date 68400000)).1 =
      { status := conflictStatus, message := some "Invalid start or end time.",
        body := none } :=
  (showtime_error_statuses venue 1 1 1 1 (TimeInput.date 75600000) (TimeInput.date 68400000)
    (ShowtimeUpdate.mk none none TimeInput.falsyInvalid TimeInput.falsyInvalid)
    (by decide) (by decide) rfl rfl (by decide)).1 rfl

/-- C29: in a store whose seats have pairwise different (theater, row, number)
and whose theaters have no id 0, for every seat id and every update data, the
falsy values 0 and the empty string included, and whichever store operation
rejects, the seats of the store `updateSeat` leaves have pairwise different
(theater, row, number), whether it returns or throws; when it returns, the
row found under the id is returned and stored with the columns of the update
data written and the theater it had, and with unique seat ids every row of
the store keeps its id and its theater. -/
theorem updateSeat_preserves_locations (inv : Inventory) (fault : Option SeatFault)
    (seatId : Nat) (updateData : SeatUpdate)
    (huniq : SeatLocationsUnique inv.toStore) (hzero : 0 ∉ inv.theaterIds) :
    SeatLocationsUnique (updateSeat inv fault seatId updateData).2.toStore ∧
      (∀ v, (updateSeat inv fault seatId updateData).1 = .ok v →
        ∃ seat, inv.seats.find? (fun seat => seat.id == seatId) = some seat ∧
          v = some { id := seat.id, theaterId := seat.theaterId,
                     row := updateData.row.getD seat.row,
                     number := updateData.number.getD seat.number,
                     type := updateData.type.getD seat.type } ∧
          (updateSeat inv fault seatId updateData).2.seats.find?
            (fun seat => seat.id == seatId) = v ∧
          (SeatIdsUnique inv.toStore →
            (updateSeat inv fault seatId updateData).2.seats.map
                (fun seat => (seat.id, seat.theaterId)) =
              inv.seats.map (fun seat => (seat.id, seat.theaterId)))) := by
  constructor
  · rcases updateSeat_store inv fault seatId updateData with h | h
    · rw [h]
      exact huniq
    · exact (saveSeat_ok h).2.1
  · intro v hv
    obtain ⟨seat, inv2, hfind, hguard, hsave, hval⟩ := updateSeat_of_ok hv
    obtain ⟨hfk, _, hinv2⟩ := saveSeat_ok hsave
    have hmem : seat ∈ inv.seats := List.mem_of_find?_eq_some hfind
    have hid : seat.id = seatId := by
      have := List.find?_some hfind
      simpa using this
    have hkept : updateData.theaterId.getD seat.theaterId = seat.theaterId :=
      theater_kept hzero hguard (hfk seat hmem hid)
    have hfound : inv2.seats.find? (fun seat => seat.id == seatId) =
        some { id := seat.id, theaterId := seat.theaterId,
               row := updateData.row.getD seat.row,
               number := updateData.number.getD seat.number,
               type := updateData.type.getD seat.type } := by
      rw [hinv2]
      simp only
      rw [find?_writtenSeats, hfind, Option.map_some', hkept]
    rw [hval] at hv ⊢
    simp only [Except.ok.injEq] at hv
    subst hv
    refine ⟨seat, hfind, hfound, rfl, ?_⟩
    intro hids
    rw [hinv2]
    simp only
    unfold writtenSeats
    rw [List.map_map]
    apply List.map_congr_left
    intro x hx
    by_cases hxid : x.id = seatId
    · have hxs : x = seat :=
        List.inj_on_of_nodup_map hids hx hmem (by rw [hxid, hid])
      subst hxs
      simp only [Function.comp_apply, if_pos hxid, hkept]
    · simp only [Function.comp_apply, if_neg hxid]

/-- Witness of C29: seat 1 of the seat venue takes the number 0; the same
update of seat 2 is refused by the unique index and the update of seat 2 to
theater 0 by the foreign key, and the seats keep different locations. -/
theorem updateSeat_preserves_locations_witness :
    (updateSeat seatVenue none 1 (SeatUpdate.mk none none (some 0) none)).1 =
        .ok (some (Seat.mk 1 1 "A" 0 SeatType.standard)) ∧
      (updateSeat seatVenueZero none 2 (SeatUpdate.mk none none (some 0) none)).1 =
        .error .uniqueConstraint ∧
      SeatLocationsUnique
        (updateSeat seatVenueZero none 2 (SeatUpdate.mk none none (some 0) none)).2.toStore ∧
      (updateSeat seatVenue none 2 (SeatUpdate.mk (some 0) none none none)).1 =
        .error .foreignKeyConstraint ∧
      SeatLocationsUnique
        (updateSeat seatVenue none 2 (SeatUpdate.mk (some 0) none none none)).2.toStore :=
  ⟨rfl, rfl,
    (updateSeat_preserves_locations seatVenueZero none 2
      (SeatUpdate.mk none none (some 0) none) seatLocationsUnique_seatVenueZero
      (by decide)).1,
    rfl,
    (updateSeat_preserves_locations seatVenue none 2
      (SeatUpdate.mk (some 0) none none none) seatLocationsUnique_seatVenue
      (by decide)).1⟩
end RegSystemMovies
